import Mathlib

/-!
# ReShade: command translation (D3D10 back-end), add-on manager and D3D9 state block

A shallow embedding of

* `source/d3d10/d3d10_impl_command_list.cpp` (namespace `reshade.d3d10`): every
  function is a pure function producing the list of native `ID3D10Device` calls
  it issues, in issue order;
* `source/addon_manager.cpp` (namespace `reshade`): the global event table and
  add-on list are an explicit `Registry` value threaded through the exported
  entry points;
* `source/d3d9/d3d9_impl_state_block.cpp` (namespace `reshade.d3d9`): the data
  members of `state_block` are a record, its array of 8 render-target pointers a
  list read and written with checked positions.

Handles, pointers and COM objects are natural numbers (`0` is `nullptr`),
C arrays are index functions `Nat → α` read below the count passed with them,
and `float` values are carried around as their bit patterns.
-/

namespace reshade

namespace d3d10

/-- Numeric values of the `api::pipeline_stage` enumerators the D3D10 back-end
tests against. The enumeration lives in the public API header, so the values are
a parameter of the embedding. -/
structure pipeline_stage where
  vertex_shader : Nat
  geometry_shader : Nat
  pixel_shader : Nat
  input_assembler : Nat
  stream_output : Nat
  rasterizer : Nat
  depth_stencil : Nat
  output_merger : Nat
  all_graphics : Nat
deriving DecidableEq, Repr

/-- Numeric values of the `api::resource_usage` enumerators read by `barrier`
(declared in the public API header, hence a parameter). -/
structure resource_usage where
  shader_resource : Nat
  depth_stencil : Nat
  render_target : Nat
deriving DecidableEq, Repr

/-- Numeric values of the `api::shader_stage` enumerators (public API header). -/
structure shader_stage where
  vertex : Nat
  geometry : Nat
  pixel : Nat
deriving DecidableEq, Repr

/-- Direct3D 10 SDK constant: shader-resource slots per shader stage. -/
def D3D10_COMMONSHADER_INPUT_RESOURCE_SLOT_COUNT : Nat := 128

/-- Direct3D 10 SDK constant: render targets that can be bound at once. -/
def D3D10_SIMULTANEOUS_RENDER_TARGET_COUNT : Nat := 8

/-- Direct3D 10 SDK constant: the default sample mask. -/
def D3D10_DEFAULT_SAMPLE_MASK : Nat := 0xffffffff

/-- The native `ID3D10Device` calls issued by the translation layer, with the
arguments passed. Pointer arrays are passed as the list of their entries. -/
inductive NativeCall where
  | VSSetShader (shader : Nat)
  | GSSetShader (shader : Nat)
  | PSSetShader (shader : Nat)
  | IASetInputLayout (layout : Nat)
  | IASetPrimitiveTopology (topology : Nat)
  | RSSetState (state : Nat)
  | OMSetDepthStencilState (state : Nat) (stencil_ref : Nat)
  | OMSetBlendState (state : Nat) (blend_factor : Option (List Nat)) (sample_mask : Nat)
  | VSSetShaderResources (start : Nat) (num : Nat) (views : List Nat)
  | GSSetShaderResources (start : Nat) (num : Nat) (views : List Nat)
  | PSSetShaderResources (start : Nat) (num : Nat) (views : List Nat)
  | VSSetSamplers (start : Nat) (num : Nat) (samplers : List Nat)
  | GSSetSamplers (start : Nat) (num : Nat) (samplers : List Nat)
  | PSSetSamplers (start : Nat) (num : Nat) (samplers : List Nat)
  | VSSetConstantBuffers (start : Nat) (num : Nat) (buffers : List Nat)
  | GSSetConstantBuffers (start : Nat) (num : Nat) (buffers : List Nat)
  | PSSetConstantBuffers (start : Nat) (num : Nat) (buffers : List Nat)
  | ClearRenderTargetView (view : Nat) (color : List Nat)
  | ClearDepthStencilView (view : Nat) (flags : Nat) (depth : Nat) (stencil : Nat)
  | OMSetRenderTargets (num : Nat) (views : List Nat) (depth_stencil_view : Nat)
  | CopySubresourceRegion (dst : Nat) (dst_subresource : Nat) (dst_x dst_y dst_z : Nat)
      (src : Nat) (src_subresource : Nat) (src_box : List Nat)
  | CreateBuffer (ByteWidth : Nat) (Usage : Nat) (BindFlags : Nat) (CPUAccessFlags : Nat)
  | SetResourceName (resource : Nat) (name : String)
  | Map (buffer : Nat) (map_type : Nat)
  | memcpy (buffer : Nat) (first_element : Nat) (values : List Nat)
  | Unmap (buffer : Nat)
deriving DecidableEq, Repr

/-- The aggregate pipeline object `pipeline_impl`: one native state object per
stage plus the values passed along with them. -/
structure pipeline_impl where
  vs : Nat
  gs : Nat
  ps : Nat
  input_layout : Nat
  topology : Nat
  rasterizer_state : Nat
  depth_stencil_state : Nat
  stencil_reference_value : Nat
  blend_state : Nat
  blend_constant : List Nat
  sample_mask : Nat
deriving DecidableEq, Repr

/-- Outcome of one translated command: the native calls issued (with assertions
compiled out, as in a release build) and whether every `assert` on the executed
path held. In a debug build a run with `asserts_hold = false` aborts instead. -/
structure Run where
  calls : List NativeCall
  asserts_hold : Bool
deriving DecidableEq, Repr

/-- The method `pipeline_impl::apply(ctx, stages)`. -/
def pipeline_impl.apply (B : pipeline_stage) (p : pipeline_impl) (stages : Nat) : List NativeCall :=
  (if stages &&& B.vertex_shader ≠ 0 then [NativeCall.VSSetShader p.vs] else []) ++
  (if stages &&& B.geometry_shader ≠ 0 then [NativeCall.GSSetShader p.gs] else []) ++
  (if stages &&& B.pixel_shader ≠ 0 then [NativeCall.PSSetShader p.ps] else []) ++
  (if stages &&& B.input_assembler ≠ 0 then
    [NativeCall.IASetInputLayout p.input_layout, NativeCall.IASetPrimitiveTopology p.topology]
   else []) ++
  (if stages &&& B.rasterizer ≠ 0 then [NativeCall.RSSetState p.rasterizer_state] else []) ++
  (if stages &&& B.depth_stencil ≠ 0 then
    [NativeCall.OMSetDepthStencilState p.depth_stencil_state p.stencil_reference_value]
   else []) ++
  (if stages &&& B.output_merger ≠ 0 then
    [NativeCall.OMSetBlendState p.blend_state (some p.blend_constant) p.sample_mask]
   else [])

/-- The method `device_impl::bind_pipeline(stages, pipeline)`. `heap` gives the
`pipeline_impl` object stored at an address. -/
def bind_pipeline (B : pipeline_stage) (heap : Nat → pipeline_impl) (stages pipeline : Nat) : Run :=
  let handle_ok := decide (pipeline ≠ 0)
  if pipeline &&& 1 ≠ 0 then
    { asserts_hold := handle_ok && decide (stages &&& B.all_graphics ≠ 0)
      calls := (heap (pipeline ^^^ 1)).apply B stages }
  else if stages = B.vertex_shader then
    { asserts_hold := handle_ok, calls := [NativeCall.VSSetShader pipeline] }
  else if stages = B.geometry_shader ∨ stages = B.geometry_shader ||| B.stream_output then
    { asserts_hold := handle_ok, calls := [NativeCall.GSSetShader pipeline] }
  else if stages = B.pixel_shader then
    { asserts_hold := handle_ok, calls := [NativeCall.PSSetShader pipeline] }
  else if stages = B.input_assembler then
    { asserts_hold := handle_ok, calls := [NativeCall.IASetInputLayout pipeline] }
  else if stages = B.rasterizer then
    { asserts_hold := handle_ok, calls := [NativeCall.RSSetState pipeline] }
  else if stages = B.depth_stencil then
    { asserts_hold := handle_ok, calls := [NativeCall.OMSetDepthStencilState pipeline 0] }
  else if stages = B.output_merger then
    { asserts_hold := handle_ok
      calls := [NativeCall.OMSetBlendState pipeline none D3D10_DEFAULT_SAMPLE_MASK] }
  else
    { asserts_hold := false, calls := [] }

/-- The condition tested for pair `i` in the loop of `device_impl::barrier`. -/
def barrier_transition (U : resource_usage) (old_state new_state : Nat) : Bool :=
  decide (old_state &&& U.shader_resource ≠ 0) && decide (new_state &&& U.shader_resource = 0) &&
    decide (new_state &&& (U.depth_stencil ||| U.render_target) ≠ 0)

/-- The method `device_impl::barrier(count, resources, old_states, new_states)`:
the loop sets a flag, the flag decides whether the three unbind calls are issued. -/
def barrier (U : resource_usage) (count : Nat) (_resources : Nat → Nat)
    (old_states new_states : Nat → Nat) : List NativeCall :=
  let transitions_away_from_shader_resource_usage :=
    (List.range count).foldl
      (fun flag i => if barrier_transition U (old_states i) (new_states i) then true else flag)
      false
  if transitions_away_from_shader_resource_usage then
    let null_srv := List.replicate D3D10_COMMONSHADER_INPUT_RESOURCE_SLOT_COUNT 0
    [ NativeCall.VSSetShaderResources 0 D3D10_COMMONSHADER_INPUT_RESOURCE_SLOT_COUNT null_srv,
      NativeCall.GSSetShaderResources 0 D3D10_COMMONSHADER_INPUT_RESOURCE_SLOT_COUNT null_srv,
      NativeCall.PSSetShaderResources 0 D3D10_COMMONSHADER_INPUT_RESOURCE_SLOT_COUNT null_srv ]
  else []

/-- Direct3D 10 SDK constant: sampler slots per shader stage. -/
def D3D10_COMMONSHADER_SAMPLER_SLOT_COUNT : Nat := 16

/-- Direct3D 10 SDK constant: constant-buffer slots per shader stage. -/
def D3D10_COMMONSHADER_CONSTANT_BUFFER_API_SLOT_COUNT : Nat := 14

/-- Direct3D 10 SDK constant: `D3D10_CLEAR_DEPTH`. -/
def D3D10_CLEAR_DEPTH : Nat := 1

/-- Direct3D 10 SDK constant: `D3D10_CLEAR_STENCIL`. -/
def D3D10_CLEAR_STENCIL : Nat := 2

/-- Direct3D 10 SDK constant: `D3D10_USAGE_DYNAMIC`. -/
def D3D10_USAGE_DYNAMIC : Nat := 2

/-- Direct3D 10 SDK constant: `D3D10_BIND_CONSTANT_BUFFER`. -/
def D3D10_BIND_CONSTANT_BUFFER : Nat := 4

/-- Direct3D 10 SDK constant: `D3D10_CPU_ACCESS_WRITE`. -/
def D3D10_CPU_ACCESS_WRITE : Nat := 0x10000

/-- Direct3D 10 SDK constant: `D3D10_MAP_WRITE_DISCARD`. -/
def D3D10_MAP_WRITE_DISCARD : Nat := 4

/-- The value `UINT64_MAX`. -/
def UINT64_MAX : Nat := 2 ^ 64 - 1

/-- Width of `UINT` and `uint32_t`. -/
def UINT_BITS : Nat := 32

/-- Modelled from the spec: the enumeration `api::render_pass_load_op` of the public
API header, with the two load ops the spec names and any further enumerator. -/
inductive render_pass_load_op where
  | load
  | clear
  | other (value : Nat)
deriving DecidableEq, Repr

/-- Modelled from the spec: the enumeration `api::descriptor_type` of the public API
header, with the three descriptor kinds the spec names and any further enumerator. -/
inductive descriptor_type where
  | sampler
  | shader_resource_view
  | constant_buffer
  | other (value : Nat)
deriving DecidableEq, Repr

/-- The fields of `api::render_pass_render_target_desc` read by `begin_render_pass`. -/
structure render_pass_render_target_desc where
  view : Nat
  load_op : render_pass_load_op
  clear_color : List Nat
deriving DecidableEq, Repr

/-- The fields of `api::render_pass_depth_stencil_desc` read by `begin_render_pass`. -/
structure render_pass_depth_stencil_desc where
  view : Nat
  depth_load_op : render_pass_load_op
  clear_depth : Nat
  stencil_load_op : render_pass_load_op
  clear_stencil : Nat
deriving DecidableEq, Repr

/-- The fields of `api::descriptor_range` read by the push commands. -/
structure descriptor_range where
  dx_register_index : Nat
  visibility : Nat
deriving DecidableEq, Repr

/-- The object `pipeline_layout_impl`: its `ranges` vector as an index function. -/
structure pipeline_layout_impl where
  ranges : Nat → descriptor_range

/-- One element of a descriptor array: an `api::sampler` or `api::resource_view` is its
handle, an `api::buffer_range` is the buffer handle with offset and size. -/
structure descriptor where
  handle : Nat
  offset : Nat := 0
  size : Nat := UINT64_MAX
deriving DecidableEq, Repr

/-- The structure `api::descriptor_set_update`, fields in declaration order. -/
structure descriptor_set_update where
  set : Nat
  binding : Nat
  array_offset : Nat
  count : Nat
  type : descriptor_type
  descriptors : Nat → descriptor

/-- The object `descriptor_set_impl`: stored type, count and descriptor array. -/
structure descriptor_set_impl where
  type : descriptor_type
  count : Nat
  descriptors : Nat → descriptor

/-- What the command translation takes from outside `d3d10_impl_command_list.cpp`:
enumerator values, the global layout handle, the objects behind layout and set
handles, the outcome of the two native calls that can fail, and the build switch that
fixes the width of `size_t`. -/
structure Backend where
  /-- The values of `api::shader_stage`. -/
  stage : shader_stage
  /-- The handle `global_pipeline_layout`. -/
  global_pipeline_layout : Nat
  /-- The `pipeline_layout_impl` object behind a layout handle. -/
  layouts : Nat → pipeline_layout_impl
  /-- The `descriptor_set_impl` object behind a descriptor set handle. -/
  sets : Nat → descriptor_set_impl
  /-- `ID3D10Device::CreateBuffer` for a dynamic constant buffer of the given
  `ByteWidth`: the new buffer, or `none` on failure. -/
  CreateBuffer : Nat → Option Nat
  /-- `ID3D10Buffer::Map` with `D3D10_MAP_WRITE_DISCARD`: whether it succeeds. -/
  Map : Nat → Bool
  /-- Build switch `_WIN64`: `size_t` has 64 bits when it is set, 32 bits otherwise. -/
  _WIN64 : Bool

/-- The members of `device_impl` written by `push_constants`. -/
structure device_impl where
  _push_constants : Nat
  _push_constants_size : Nat
deriving DecidableEq, Repr

/-- Run one command after another. -/
def Run.append (a b : Run) : Run :=
  { calls := a.calls ++ b.calls, asserts_hold := a.asserts_hold && b.asserts_hold }

/-- The method `device_impl::bind_render_targets_and_depth_stencil(count, rtvs, dsv)`. -/
def bind_render_targets_and_depth_stencil (count : Nat) (rtvs : Nat → Nat) (dsv : Nat) : Run :=
  { asserts_hold := decide (count ≤ D3D10_SIMULTANEOUS_RENDER_TARGET_COUNT)
    calls := [NativeCall.OMSetRenderTargets count ((List.range count).map rtvs) dsv] }

/-- The `for` loop of `begin_render_pass`: the calls issued so far, target by target. -/
def begin_render_pass_targets (rts : Nat → render_pass_render_target_desc) (count : Nat) :
    List NativeCall :=
  (List.range count).foldl
    (fun calls i =>
      if (rts i).load_op = render_pass_load_op.clear then
        calls ++ [NativeCall.ClearRenderTargetView (rts i).view (rts i).clear_color]
      else calls)
    []

/-- The value `clear_flags` computed in `begin_render_pass`. -/
def depth_stencil_clear_flags (ds : render_pass_depth_stencil_desc) : Nat :=
  (if ds.depth_load_op = render_pass_load_op.clear then D3D10_CLEAR_DEPTH else 0) |||
    (if ds.stencil_load_op = render_pass_load_op.clear then D3D10_CLEAR_STENCIL else 0)

/-- The method `device_impl::begin_render_pass(count, rts, ds)`; a null `ds` is `none`. -/
def begin_render_pass (count : Nat) (rts : Nat → render_pass_render_target_desc)
    (ds : Option render_pass_depth_stencil_desc) : Run :=
  let target_calls := begin_render_pass_targets rts count
  let depth_stencil : Nat × List NativeCall :=
    match ds with
    | none => (0, [])
    | some ds =>
      if ds.view ≠ 0 then
        (ds.view,
          if depth_stencil_clear_flags ds ≠ 0 then
            [NativeCall.ClearDepthStencilView ds.view (depth_stencil_clear_flags ds) ds.clear_depth
              ds.clear_stencil]
          else [])
      else (0, [])
  Run.append
    { asserts_hold := decide (count ≤ D3D10_SIMULTANEOUS_RENDER_TARGET_COUNT)
      calls := target_calls ++ depth_stencil.2 }
    (bind_render_targets_and_depth_stencil count (fun i => (rts i).view) depth_stencil.1)

/-- The method `device_impl::end_render_pass()`. -/
def end_render_pass : Run :=
  { asserts_hold := true, calls := [NativeCall.OMSetRenderTargets 0 [] 0] }

/-- The test `(stages & stage) == stage` of the bind methods. -/
def has_stage (stages stage : Nat) : Bool :=
  decide (stages &&& stage = stage)

/-- The method `device_impl::bind_samplers(stages, first, count, samplers)`. -/
def bind_samplers (K : Backend) (stages first count : Nat) (samplers : Nat → descriptor) : Run :=
  let sampler_ptrs := (List.range count).map (fun i => (samplers i).handle)
  { asserts_hold := decide (count ≤ D3D10_COMMONSHADER_SAMPLER_SLOT_COUNT)
    calls :=
      (if has_stage stages K.stage.vertex then [NativeCall.VSSetSamplers first count sampler_ptrs]
       else []) ++
      (if has_stage stages K.stage.geometry then [NativeCall.GSSetSamplers first count sampler_ptrs]
       else []) ++
      (if has_stage stages K.stage.pixel then [NativeCall.PSSetSamplers first count sampler_ptrs]
       else []) }

/-- The method `device_impl::bind_shader_resource_views(stages, first, count, views)`. -/
def bind_shader_resource_views (K : Backend) (stages first count : Nat) (views : Nat → descriptor) :
    Run :=
  let view_ptrs := (List.range count).map (fun i => (views i).handle)
  { asserts_hold := decide (count ≤ D3D10_COMMONSHADER_INPUT_RESOURCE_SLOT_COUNT)
    calls :=
      (if has_stage stages K.stage.vertex then
        [NativeCall.VSSetShaderResources first count view_ptrs] else []) ++
      (if has_stage stages K.stage.geometry then
        [NativeCall.GSSetShaderResources first count view_ptrs] else []) ++
      (if has_stage stages K.stage.pixel then
        [NativeCall.PSSetShaderResources first count view_ptrs] else []) }

/-- The method `device_impl::bind_constant_buffers(stages, first, count, buffer_ranges)`. -/
def bind_constant_buffers (K : Backend) (stages first count : Nat)
    (buffer_ranges : Nat → descriptor) : Run :=
  let buffer_ptrs := (List.range count).map (fun i => (buffer_ranges i).handle)
  { asserts_hold :=
      decide (count ≤ D3D10_COMMONSHADER_CONSTANT_BUFFER_API_SLOT_COUNT) &&
        (List.range count).all
          (fun i => decide ((buffer_ranges i).offset = 0 ∧ (buffer_ranges i).size = UINT64_MAX))
    calls :=
      (if has_stage stages K.stage.vertex then
        [NativeCall.VSSetConstantBuffers first count buffer_ptrs] else []) ++
      (if has_stage stages K.stage.geometry then
        [NativeCall.GSSetConstantBuffers first count buffer_ptrs] else []) ++
      (if has_stage stages K.stage.pixel then
        [NativeCall.PSSetConstantBuffers first count buffer_ptrs] else []) }

/-- Lines 281 to 288 of `push_constants` and 301 to 312 of `push_descriptors`: the
native slot and the stage mask the bind is issued with. -/
def resolve_slot (K : Backend) (stages layout layout_param : Nat) : Nat × Nat :=
  if layout ≠ 0 ∧ layout ≠ K.global_pipeline_layout then
    ((((K.layouts layout).ranges layout_param).dx_register_index),
      stages &&& ((K.layouts layout).ranges layout_param).visibility)
  else (0, stages)

/-- Modelled from the spec: what `_push_constants` holds after `CreateBuffer` failed
while writing through `&_push_constants`. The operator of `com_ptr` is not among the
sources; the spec has a failed allocation leave the prior buffer intact. -/
def com_ptr_after_failed_create (held : Nat) : Nat := held

/-- The width of `size_t` in bits. -/
def Backend.SIZE_T_BITS (K : Backend) : Nat :=
  if K._WIN64 then 64 else 32

/-- The third argument of the `memcpy` of `push_constants`, `count * sizeof(uint32_t)`:
a product in `size_t`, so taken modulo `2 ^ 32` in a build without `_WIN64`. -/
def memcpy_byte_count (K : Backend) (count : Nat) : Nat :=
  (count * 4) % 2 ^ K.SIZE_T_BITS

/-- Lines 271 to 295 of `push_constants`: map, copy, unmap, and bind the buffer. The
copy moves `memcpy_byte_count` bytes, which is that many bytes divided by 4 values,
taken from the start of `values`, to the elements from `first` on. -/
def push_constants_upload (K : Backend) (dev : device_impl) (stages layout layout_param first
    count : Nat) (values : Nat → Nat) : List NativeCall :=
  let push_constants := dev._push_constants
  let upload :=
    if K.Map push_constants then
      [NativeCall.Map push_constants D3D10_MAP_WRITE_DISCARD,
       NativeCall.memcpy push_constants first
         ((List.range (memcpy_byte_count K count / 4)).map values),
       NativeCall.Unmap push_constants]
    else [NativeCall.Map push_constants D3D10_MAP_WRITE_DISCARD]
  let slot_and_stages := resolve_slot K stages layout layout_param
  upload ++
    (if has_stage slot_and_stages.2 K.stage.vertex then
      [NativeCall.VSSetConstantBuffers slot_and_stages.1 1 [push_constants]] else []) ++
    (if has_stage slot_and_stages.2 K.stage.geometry then
      [NativeCall.GSSetConstantBuffers slot_and_stages.1 1 [push_constants]] else []) ++
    (if has_stage slot_and_stages.2 K.stage.pixel then
      [NativeCall.PSSetConstantBuffers slot_and_stages.1 1 [push_constants]] else [])

/-- The method `device_impl::push_constants(stages, layout, layout_param, first, count,
values)`: the device members afterwards and the calls issued. `desc.ByteWidth` is a
`UINT`, so the product `count * sizeof(uint32_t)` is stored modulo `2 ^ 32`. -/
def push_constants (K : Backend) (dev : device_impl) (stages layout layout_param first
    count : Nat) (values : Nat → Nat) : device_impl × Run :=
  let first_is_zero := decide (first = 0)
  if count = 0 then (dev, { asserts_hold := first_is_zero, calls := [] })
  else if count > dev._push_constants_size then
    let ByteWidth := (count * 4) % 2 ^ UINT_BITS
    let create := NativeCall.CreateBuffer ByteWidth D3D10_USAGE_DYNAMIC D3D10_BIND_CONSTANT_BUFFER
      D3D10_CPU_ACCESS_WRITE
    match K.CreateBuffer ByteWidth with
    | none =>
      ({ dev with _push_constants := com_ptr_after_failed_create dev._push_constants },
        { asserts_hold := first_is_zero, calls := [create] })
    | some buffer =>
      let dev1 : device_impl := { _push_constants := buffer, _push_constants_size := count }
      (dev1,
        { asserts_hold := first_is_zero
          calls := [create, NativeCall.SetResourceName buffer "Push constants"] ++
            push_constants_upload K dev1 stages layout layout_param first count values })
  else
    (dev,
      { asserts_hold := first_is_zero
        calls := push_constants_upload K dev stages layout layout_param first count values })

/-- The method `device_impl::push_descriptors(stages, layout, layout_param, update)`. -/
def push_descriptors (K : Backend) (stages layout layout_param : Nat)
    (update : descriptor_set_update) : Run :=
  let set_is_null := decide (update.set = 0)
  let explicit_layout := decide (layout ≠ 0 ∧ layout ≠ K.global_pipeline_layout)
  let binding_ok := explicit_layout || decide (update.binding = 0)
  let slot_and_stages := resolve_slot K stages layout layout_param
  let bind : Run :=
    match update.type with
    | descriptor_type.sampler =>
      bind_samplers K slot_and_stages.2 slot_and_stages.1 update.count update.descriptors
    | descriptor_type.shader_resource_view =>
      bind_shader_resource_views K slot_and_stages.2 slot_and_stages.1 update.count
        update.descriptors
    | descriptor_type.constant_buffer =>
      bind_constant_buffers K slot_and_stages.2 slot_and_stages.1 update.count update.descriptors
    | descriptor_type.other _ => { asserts_hold := false, calls := [] }
  Run.append { asserts_hold := set_is_null && binding_ok, calls := [] } bind

/-- The update `bind_descriptor_sets` builds from the set behind `handle`. -/
def descriptor_set_impl.as_update (set_impl : descriptor_set_impl) : descriptor_set_update :=
  { set := 0, binding := 0, array_offset := 0, count := set_impl.count, type := set_impl.type
    descriptors := set_impl.descriptors }

/-- The `for` loop of `bind_descriptor_sets` from index `i` on, with `remaining`
iterations to go; the sum `first + i` is a `uint32_t`. -/
def bind_descriptor_sets_from (K : Backend) (stages layout first : Nat) (sets : Nat → Nat) :
    Nat → Nat → Run
  | _, 0 => { asserts_hold := true, calls := [] }
  | i, remaining + 1 =>
    Run.append
      (push_descriptors K stages layout ((first + i) % 2 ^ UINT_BITS)
        (K.sets (sets i)).as_update)
      (bind_descriptor_sets_from K stages layout first sets (i + 1) remaining)

/-- The method `device_impl::bind_descriptor_sets(stages, layout, first, count, sets)`. -/
def bind_descriptor_sets (K : Backend) (stages layout first count : Nat) (sets : Nat → Nat) : Run :=
  bind_descriptor_sets_from K stages layout first sets 0 count

/-- The method `device_impl::copy_buffer_region(src, src_offset, dst, dst_offset, size)`.
`byte_width` gives `desc.ByteWidth` of a buffer; offsets and size are `uint64_t`, their
sum is taken in 64 bits, and each `static_cast<UINT>` keeps the low 32 bits. The box
is listed as left, top, front, right, bottom, back. -/
def copy_buffer_region (byte_width : Nat → Nat) (src src_offset dst dst_offset size : Nat) : Run :=
  let size := if size = UINT64_MAX then byte_width src else size
  { asserts_hold :=
      decide (src ≠ 0 ∧ dst ≠ 0) &&
        decide (src_offset ≤ 2 ^ UINT_BITS - 1 ∧ dst_offset ≤ 2 ^ UINT_BITS - 1 ∧
          size ≤ 2 ^ UINT_BITS - 1)
    calls :=
      [NativeCall.CopySubresourceRegion dst 0 (dst_offset % 2 ^ UINT_BITS) 0 0 src 0
        [src_offset % 2 ^ UINT_BITS, 0, 0, ((src_offset + size) % 2 ^ 64) % 2 ^ UINT_BITS, 1, 1]] }

/-- Whether a native call is a clear of a render-target or depth-stencil view. -/
def NativeCall.is_clear : NativeCall → Bool
  | .ClearRenderTargetView _ _ => true
  | .ClearDepthStencilView _ _ _ _ => true
  | _ => false

/-- Whether a native call creates a buffer. -/
def NativeCall.is_create_buffer : NativeCall → Bool
  | .CreateBuffer _ _ _ _ => true
  | _ => false

/-- Whether a native call is the copy into the mapped staging buffer. -/
def NativeCall.is_memcpy : NativeCall → Bool
  | .memcpy _ _ _ => true
  | _ => false

/-- Whether a native call maps, writes or unmaps a buffer or binds constant buffers. -/
def NativeCall.is_upload_or_bind : NativeCall → Bool
  | .Map _ _ => true
  | .memcpy _ _ _ => true
  | .Unmap _ => true
  | .VSSetConstantBuffers _ _ _ => true
  | .GSSetConstantBuffers _ _ _ => true
  | .PSSetConstantBuffers _ _ _ => true
  | _ => false

/-- Whether a native call binds constant buffers to a shader stage. -/
def NativeCall.is_constant_buffer_bind : NativeCall → Bool
  | .VSSetConstantBuffers _ _ _ => true
  | .GSSetConstantBuffers _ _ _ => true
  | .PSSetConstantBuffers _ _ _ => true
  | _ => false

/-- Specification side of `push_descriptors`: the binds of descriptor kind `type`, from
native slot `slot` over `count` entries, one per shader stage (vertex, geometry, pixel)
whose bit is set both in the requested stages and in the visibility mask; no bind for
any other descriptor kind. -/
def descriptor_binds_spec (K : Backend) (type : descriptor_type)
    (requested visibility slot count : Nat) (entries : List Nat) : List NativeCall :=
  let visible := fun stage : Nat =>
    decide (requested &&& stage = stage ∧ visibility &&& stage = stage)
  match type with
  | descriptor_type.sampler =>
    (if visible K.stage.vertex then [NativeCall.VSSetSamplers slot count entries] else []) ++
    (if visible K.stage.geometry then [NativeCall.GSSetSamplers slot count entries] else []) ++
    (if visible K.stage.pixel then [NativeCall.PSSetSamplers slot count entries] else [])
  | descriptor_type.shader_resource_view =>
    (if visible K.stage.vertex then [NativeCall.VSSetShaderResources slot count entries] else []) ++
    (if visible K.stage.geometry then [NativeCall.GSSetShaderResources slot count entries]
     else []) ++
    (if visible K.stage.pixel then [NativeCall.PSSetShaderResources slot count entries] else [])
  | descriptor_type.constant_buffer =>
    (if visible K.stage.vertex then [NativeCall.VSSetConstantBuffers slot count entries] else []) ++
    (if visible K.stage.geometry then [NativeCall.GSSetConstantBuffers slot count entries]
     else []) ++
    (if visible K.stage.pixel then [NativeCall.PSSetConstantBuffers slot count entries] else [])
  | descriptor_type.other _ => []

/-- The arguments of one `push_constants` call. -/
structure push_constants_args where
  stages : Nat
  layout : Nat
  layout_param : Nat
  first : Nat
  count : Nat
  values : Nat → Nat

/-- The recorded capacity `_push_constants_size` after each call of a sequence of
`push_constants` calls, in call order. -/
def capacity_trace (K : Backend) : device_impl → List push_constants_args → List Nat
  | _, [] => []
  | dev, a :: rest =>
    let dev1 := (push_constants K dev a.stages a.layout a.layout_param a.first a.count a.values).1
    dev1._push_constants_size :: capacity_trace K dev1 rest

/-- The `case` labels of the `switch` in `bind_pipeline`, in source order. -/
def pipeline_stage.case_labels (B : pipeline_stage) : List Nat :=
  [B.vertex_shader, B.geometry_shader, B.geometry_shader ||| B.stream_output, B.pixel_shader,
   B.input_assembler, B.rasterizer, B.depth_stencil, B.output_merger]

/-- The stages an aggregate pipeline owns a native object for. -/
inductive owned_stage where
  | vertex_shader | geometry_shader | pixel_shader | input_assembler
  | rasterizer | depth_stencil | output_merger
deriving DecidableEq, Repr

/-- The stage bit of an owned stage. -/
def owned_stage.bit (B : pipeline_stage) : owned_stage → Nat
  | .vertex_shader => B.vertex_shader
  | .geometry_shader => B.geometry_shader
  | .pixel_shader => B.pixel_shader
  | .input_assembler => B.input_assembler
  | .rasterizer => B.rasterizer
  | .depth_stencil => B.depth_stencil
  | .output_merger => B.output_merger

/-- Specification side of `bind_pipeline` on an aggregate: the set-state calls of
one owned stage, with the values stored in the aggregate. -/
def set_state_calls (p : pipeline_impl) : owned_stage → List NativeCall
  | .vertex_shader => [NativeCall.VSSetShader p.vs]
  | .geometry_shader => [NativeCall.GSSetShader p.gs]
  | .pixel_shader => [NativeCall.PSSetShader p.ps]
  | .input_assembler =>
    [NativeCall.IASetInputLayout p.input_layout, NativeCall.IASetPrimitiveTopology p.topology]
  | .rasterizer => [NativeCall.RSSetState p.rasterizer_state]
  | .depth_stencil =>
    [NativeCall.OMSetDepthStencilState p.depth_stencil_state p.stencil_reference_value]
  | .output_merger =>
    [NativeCall.OMSetBlendState p.blend_state (some p.blend_constant) p.sample_mask]

/-- All owned stages, in the order `apply` visits them. -/
def owned_stages : List owned_stage :=
  [.vertex_shader, .geometry_shader, .pixel_shader, .input_assembler, .rasterizer,
   .depth_stencil, .output_merger]

/-- The stage a set-state call belongs to (`none` for any other native call). -/
def NativeCall.owned_stage : NativeCall → Option owned_stage
  | .VSSetShader _ => some .vertex_shader
  | .GSSetShader _ => some .geometry_shader
  | .PSSetShader _ => some .pixel_shader
  | .IASetInputLayout _ => some .input_assembler
  | .IASetPrimitiveTopology _ => some .input_assembler
  | .RSSetState _ => some .rasterizer
  | .OMSetDepthStencilState _ _ => some .depth_stencil
  | .OMSetBlendState _ _ _ => some .output_merger
  | _ => none

/-- Stage values used for the concrete instances below (one bit per stage). -/
def sample_pipeline_stage : pipeline_stage :=
  { vertex_shader := 0x8, geometry_shader := 0x40, pixel_shader := 0x80, input_assembler := 0x2,
    stream_output := 0x4, rasterizer := 0x100, depth_stencil := 0x200, output_merger := 0x400,
    all_graphics := 0x7fe }

/-- Usage values used for the concrete instances below (one bit per usage). -/
def sample_resource_usage : resource_usage :=
  { shader_resource := 0xc0, depth_stencil := 0x30, render_target := 0x4 }

/-- An aggregate pipeline used for the concrete instances below. -/
def sample_pipeline : pipeline_impl :=
  { vs := 101, gs := 102, ps := 103, input_layout := 104, topology := 4, rasterizer_state := 105,
    depth_stencil_state := 106, stencil_reference_value := 7, blend_state := 107,
    blend_constant := [0, 0, 0, 0], sample_mask := 0xffffffff }

/-- A back-end used for the concrete instances below: one bit per shader stage, every
layout has range `p` at register `2 + p` visible to the vertex and pixel stages, set
`0x500` holds two samplers, buffer creation and mapping succeed, in a `_WIN64` build. -/
def sample_backend : Backend :=
  { stage := { vertex := 0x1, geometry := 0x8, pixel := 0x10 }
    global_pipeline_layout := 0xffffffffffffffff
    layouts := fun _ => { ranges := fun p => { dx_register_index := 2 + p, visibility := 0x11 } }
    sets := fun handle =>
      { type := if handle = 0x500 then descriptor_type.sampler
          else descriptor_type.shader_resource_view
        count := 2
        descriptors := fun i => { handle := handle + 1 + i } }
    CreateBuffer := fun ByteWidth => some (0x9000 + ByteWidth)
    Map := fun _ => true
    _WIN64 := true }

/-- An update used for the concrete instances below: two samplers. -/
def sample_sampler_update : descriptor_set_update :=
  { set := 0, binding := 0, array_offset := 0, count := 2, type := descriptor_type.sampler
    descriptors := fun i => { handle := 0x600 + i } }

/-- The back-end `sample_backend` with every buffer creation failing. -/
def sample_backend_out_of_memory : Backend :=
  { sample_backend with CreateBuffer := fun _ => none }

/-- The back-end `sample_backend` in a build without `_WIN64`. -/
def sample_backend_win32 : Backend :=
  { sample_backend with _WIN64 := false }

/-- The `ByteWidth` of the buffers of `sample_backend`, which creates the buffer of
`ByteWidth` bytes at `0x9000 + ByteWidth`. -/
def sample_byte_width (buffer : Nat) : Nat :=
  buffer - 0x9000

/-- Render targets used for the concrete instances below: views `0x100 + i`, the first
one cleared to opaque black, the others loaded. -/
def sample_render_targets (i : Nat) : render_pass_render_target_desc :=
  { view := 0x100 + i
    load_op := if i = 0 then render_pass_load_op.clear else render_pass_load_op.load
    clear_color := [0, 0, 0, 0x3f800000] }

/-- A depth-stencil description used for the concrete instances below: depth cleared
to 1.0, stencil loaded. -/
def sample_depth_stencil : render_pass_depth_stencil_desc :=
  { view := 0x200, depth_load_op := render_pass_load_op.clear, clear_depth := 0x3f800000
    stencil_load_op := render_pass_load_op.load, clear_stencil := 0 }

end d3d10

/-! ## Add-on manager (`source/addon_manager.cpp`) -/

/-- One entry of `addon_info::overlay_callbacks` (title and callback address). -/
structure overlay_callback where
  title : String
  callback : Nat
deriving DecidableEq, Repr

/-- The record `reshade::addon_info`, with the members `addon_manager.cpp` reads
and writes. A default-constructed record has a null handle and empty lists. -/
structure addon_info where
  handle : Nat := 0
  loaded : Bool := false
  name : String := ""
  description : String := ""
  file : String := ""
  author : String := ""
  version : String := ""
  event_callbacks : List (Nat × Nat) := []
  overlay_callbacks : List overlay_callback := []
  settings_overlay_callback : Nat := 0
deriving DecidableEq, Repr

/-- The strings `VerQueryValueA` finds in a module's version resource. -/
structure version_resource where
  ProductName : Option String
  CompanyName : Option String
  FileVersion : Option String
  FileDescription : Option String
deriving DecidableEq, Repr

/-- The global state of the manager that the exported entry points share:
`reshade::addon_event_list` (indexed by event kind) and
`reshade::addon_loaded_info`. -/
structure Registry where
  addon_event_list : Nat → List Nat
  addon_loaded_info : List addon_info

/-- Everything `addon_manager.cpp` takes from outside the file: build switches,
constants of headers, the operating system and the configuration file. -/
structure Host where
  /-- Build switch `RESHADE_ADDON_LITE`. -/
  RESHADE_ADDON_LITE : Bool
  /-- Build switch `RESHADE_GUI`. -/
  RESHADE_GUI : Bool
  /-- The constant `RESHADE_API_VERSION`. -/
  RESHADE_API_VERSION : Nat
  /-- The value of `addon_event::max`, the length of `addon_event_list`. -/
  addon_event_max : Nat
  /-- The value of `addon_event::destroy_effect_runtime`. -/
  destroy_effect_runtime : Nat
  /-- The value of `addon_event::present`. -/
  present : Nat
  /-- The host module `g_module_handle`. -/
  g_module_handle : Nat
  /-- `GetModuleHandleExW` with `GET_MODULE_HANDLE_EX_FLAG_FROM_ADDRESS`: the module
  an address lies in, `none` when the call fails. -/
  GetModuleHandleExW : Nat → Option Nat
  /-- The stem of `get_module_path(module)`. -/
  module_path_stem : Nat → String
  /-- The full string of `get_module_path(module)`. -/
  module_path : Nat → String
  /-- `GetFileVersionInfoW` on a path, `none` when it fails. -/
  GetFileVersionInfoW : String → Option version_resource
  /-- The string exported by the module as `NAME`, if any. -/
  export_NAME : Nat → Option String
  /-- The string exported by the module as `DESCRIPTION`, if any. -/
  export_DESCRIPTION : Nat → Option String
  /-- The configuration value `[ADDON] DisabledAddons`, `none` when the key is absent. -/
  DisabledAddons : Option (List String)
  /-- The path of the host library, `g_reshade_dll_path`. -/
  g_reshade_dll_path : String
  /-- The constant `VERSION_STRING_FILE`. -/
  VERSION_STRING_FILE : String
  /-- The external `register_addon_depth()`, as its effect on the registry. -/
  register_addon_depth : Registry → Registry
  /-- The external `unregister_addon_depth()`, as its effect on the registry. -/
  unregister_addon_depth : Registry → Registry
  /-- The directory scan of `load_addons` (every `LoadLibraryExW` on an `.addon` file
  with what the loaded module does on attach), as its effect on the registry. -/
  load_addon_modules : Registry → Registry
  /-- `FreeLibrary(module)` (what the module does on detach), as its effect on the
  registry. -/
  FreeLibrary : Nat → Registry → Registry

/-- Width of `unsigned long` (the type of `s_reference_count`) on the target. -/
def ULONG_BITS : Nat := 32

/-- The registry before anything was registered: every list is empty. -/
def Registry.empty : Registry :=
  { addon_event_list := fun _ => [], addon_loaded_info := [] }

/-- Apply `f` to the element at position `idx` (writing through a pointer into the
vector); nothing changes when `idx` is out of range. -/
def modify_at {α : Type} (f : α → α) : Nat → List α → List α
  | _, [] => []
  | 0, x :: xs => f x :: xs
  | idx + 1, x :: xs => x :: modify_at f idx xs

/-- The reverse scan at the end of `find_addon`: position of the last record whose
handle equals `module`. -/
def find_handle_rev (module : Nat) : List addon_info → Option Nat
  | [] => none
  | r :: rs =>
    match find_handle_rev module rs with
    | some idx => some (idx + 1)
    | none => if r.handle = module then some 0 else none

/-- The function `reshade::find_addon(address)`; the returned pointer is the position
of the record in `addon_loaded_info`. -/
def find_addon (E : Host) (s : Registry) (address : Nat) : Option Nat :=
  if address = 0 then none
  else
    match E.GetModuleHandleExW address with
    | none => none
    | some module => find_handle_rev module s.addon_loaded_info

/-- Lines 286 to 322 of `ReShadeRegisterAddon`: the record built for `module`. -/
def resolve_addon_info (E : Host) (module : Nat) : addon_info :=
  let info : addon_info :=
    { name := E.module_path_stem module, file := E.module_path module, handle := module }
  let info :=
    match E.GetFileVersionInfoW (E.module_path module) with
    | none => info
    | some v =>
      let info := match v.ProductName with
        | some product_name => { info with name := product_name }
        | none => info
      let info := match v.CompanyName with
        | some company_name => { info with author := company_name }
        | none => info
      let info := match v.FileVersion with
        | some file_version => { info with version := file_version }
        | none => info
      match v.FileDescription with
      | some file_description => { info with description := file_description }
      | none => info
  let info := match E.export_NAME module with
    | some name => { info with name := name }
    | none => info
  let info := match E.export_DESCRIPTION module with
    | some description => { info with description := description }
    | none => info
  if info.version = "" then { info with version := "1.0.0.0" } else info

/-- The version test of `ReShadeRegisterAddon`: `true` when the call is rejected. -/
def api_version_rejected (E : Host) (api_version : Nat) : Bool :=
  decide (api_version = 0) || decide (api_version > E.RESHADE_API_VERSION) ||
    decide (api_version / 10000 ≠ E.RESHADE_API_VERSION / 10000)

/-- The module test of `ReShadeRegisterAddon`: `true` when the call is rejected. -/
def module_rejected (E : Host) (s : Registry) (module : Nat) : Bool :=
  decide (module = 0) || decide (module = E.g_module_handle) || (find_addon E s module).isSome

/-- The exported `ReShadeRegisterAddon(module, api_version)`: return value and the
registry afterwards. -/
def ReShadeRegisterAddon (E : Host) (s : Registry) (module api_version : Nat) : Bool × Registry :=
  if module_rejected E s module then (false, s)
  else if api_version_rejected E api_version then (false, s)
  else
    let info := resolve_addon_info E module
    if s.addon_loaded_info.any (fun existing_info => decide (existing_info.name = info.name)) then
      (false, s)
    else
      match E.DisabledAddons with
      | some disabled_addons =>
        if info.name ∈ disabled_addons then
          (false, { s with addon_loaded_info := s.addon_loaded_info ++ [{ info with handle := 0 }] })
        else (true, { s with addon_loaded_info := s.addon_loaded_info ++ [info] })
      | none => (true, { s with addon_loaded_info := s.addon_loaded_info ++ [info] })

/-- The test of the `RESHADE_ADDON_LITE` blocks of `ReShadeRegisterEvent` and
`ReShadeUnregisterEvent`. -/
def lite_blocked (E : Host) (handle ev : Nat) : Bool :=
  E.RESHADE_ADDON_LITE && decide (handle ≠ E.g_module_handle) &&
    (decide (ev > E.destroy_effect_runtime) && decide (ev < E.present))

/-- The handle of the record at position `idx` (`info->handle`). -/
def handle_at (s : Registry) (idx : Nat) : Nat :=
  match s.addon_loaded_info[idx]? with
  | some info => info.handle
  | none => 0

/-- The exported `ReShadeRegisterEvent(ev, callback)`. -/
def ReShadeRegisterEvent (E : Host) (s : Registry) (ev callback : Nat) : Registry :=
  if ev ≥ E.addon_event_max then s
  else
    match find_addon E s callback with
    | none => s
    | some idx =>
      if lite_blocked E (handle_at s idx) ev then s
      else
        { addon_event_list :=
            Function.update s.addon_event_list ev (s.addon_event_list ev ++ [callback])
          addon_loaded_info :=
            modify_at (fun info => { info with event_callbacks := info.event_callbacks ++ [(ev, callback)] })
              idx s.addon_loaded_info }

/-- The exported `ReShadeUnregisterEvent(ev, callback)`; erase after `std::remove`
drops every element equal to the given one and keeps the order of the rest. -/
def ReShadeUnregisterEvent (E : Host) (s : Registry) (ev callback : Nat) : Registry :=
  if ev ≥ E.addon_event_max then s
  else
    match find_addon E s callback with
    | none => s
    | some idx =>
      if lite_blocked E (handle_at s idx) ev then s
      else
        { addon_event_list :=
            Function.update s.addon_event_list ev
              ((s.addon_event_list ev).filter (fun c => decide (c ≠ callback)))
          addon_loaded_info :=
            modify_at (fun info => { info with
                event_callbacks := info.event_callbacks.filter (fun p => decide (p ≠ (ev, callback))) })
              idx s.addon_loaded_info }

/-- The exported `ReShadeRegisterOverlay(title, callback)` (`RESHADE_GUI`); a null
title is `none`. -/
def ReShadeRegisterOverlay (E : Host) (s : Registry) (title : Option String) (callback : Nat) : Registry :=
  match find_addon E s callback with
  | none => s
  | some idx =>
    match title with
    | none =>
      { s with
        addon_loaded_info :=
          modify_at (fun info => { info with settings_overlay_callback := callback })
            idx s.addon_loaded_info }
    | some title =>
      { s with
        addon_loaded_info :=
          modify_at (fun info => { info with
              overlay_callbacks := info.overlay_callbacks ++ [{ title := title, callback := callback }] })
            idx s.addon_loaded_info }

/-- The exported `ReShadeUnregisterOverlay(title, callback)` (`RESHADE_GUI`), with the
assertion of the null-title branch compiled out. -/
def ReShadeUnregisterOverlay (E : Host) (s : Registry) (title : Option String) (callback : Nat) : Registry :=
  match find_addon E s callback with
  | none => s
  | some idx =>
    match title with
    | none =>
      { s with
        addon_loaded_info :=
          modify_at (fun info => { info with settings_overlay_callback := 0 }) idx s.addon_loaded_info }
    | some title =>
      { s with
        addon_loaded_info :=
          modify_at (fun info => { info with
              overlay_callbacks := info.overlay_callbacks.filter
                (fun item => !(decide (item.title = title) && decide (item.callback = callback))) })
            idx s.addon_loaded_info }

/-- The first `while` loop of `ReShadeUnregisterAddon` on the record at `idx`. Each
unit of fuel pays for one iteration; `none` when the fuel runs out before the
owned-callback list is empty. -/
def unregister_events_loop (E : Host) (idx : Nat) : Nat → Registry → Option Registry
  | fuel, s =>
    match (s.addon_loaded_info[idx]?).bind (fun info => info.event_callbacks.getLast?) with
    | none => some s
    | some last_event_callback =>
      match fuel with
      | 0 => none
      | fuel + 1 =>
        unregister_events_loop E idx fuel
          (ReShadeUnregisterEvent E s last_event_callback.1 last_event_callback.2)

/-- The second `while` loop of `ReShadeUnregisterAddon` (`RESHADE_GUI`), with fuel
as in `unregister_events_loop`. -/
def unregister_overlays_loop (E : Host) (idx : Nat) : Nat → Registry → Option Registry
  | fuel, s =>
    match (s.addon_loaded_info[idx]?).bind (fun info => info.overlay_callbacks.getLast?) with
    | none => some s
    | some last_overlay_callback =>
      match fuel with
      | 0 => none
      | fuel + 1 =>
        unregister_overlays_loop E idx fuel
          (ReShadeUnregisterOverlay E s (some last_overlay_callback.title) last_overlay_callback.callback)

/-- The exported `ReShadeUnregisterAddon(module)`. `fuel` bounds the iterations of
each of the two loops; the result is `none` when a loop does not finish within it. -/
def ReShadeUnregisterAddon (E : Host) (fuel : Nat) (s : Registry) (module : Nat) : Option Registry :=
  if module = 0 ∨ module = E.g_module_handle then some s
  else
    match find_addon E s module with
    | none => some s
    | some idx =>
      match unregister_events_loop E idx fuel s with
      | none => none
      | some s1 =>
        match (if E.RESHADE_GUI then unregister_overlays_loop E idx fuel s1 else some s1) with
        | none => none
        | some s2 => some { s2 with addon_loaded_info := s2.addon_loaded_info.eraseIdx idx }

/-- What a call of `load_addons` or `unload_addons` did besides counting. -/
inductive lifecycle_action where
  | real_load
  | real_unload
deriving DecidableEq, Repr

/-- The registry together with `s_reference_count`. `performed` is an observation
log, not program state: it records each execution of the body of `load_addons`
and of `unload_addons` behind their reference-count test. -/
structure Manager where
  registry : Registry
  s_reference_count : Nat
  performed : List lifecycle_action

/-- The manager at start-up: empty registry, `s_reference_count` zero, nothing done. -/
def Manager.initial : Manager :=
  { registry := Registry.empty, s_reference_count := 0, performed := [] }

/-- The record `load_addons` builds for the built-in add-on, before its handle is set. -/
def builtin_addon_info (E : Host) : addon_info :=
  { name := "Generic Depth"
    description := "Automatic depth buffer detection that works in the majority of games."
    file := E.g_reshade_dll_path
    author := "crosire"
    version := E.VERSION_STRING_FILE }

/-- The body of `load_addons` behind the reference-count test. -/
def load_addons_body (E : Host) (s : Registry) : Registry :=
  let disabled_addons := E.DisabledAddons.getD []
  let info : addon_info := builtin_addon_info E
  let s :=
    if info.name ∉ disabled_addons then
      E.register_addon_depth
        { s with addon_loaded_info := s.addon_loaded_info ++ [{ info with handle := E.g_module_handle }] }
    else { s with addon_loaded_info := s.addon_loaded_info ++ [info] }
  if E.RESHADE_ADDON_LITE then s else E.load_addon_modules s

/-- The function `reshade::load_addons()`; the post-increment of the counter wraps at
the width of `unsigned long`. -/
def load_addons (E : Host) (m : Manager) : Manager :=
  let old_count := m.s_reference_count
  let m := { m with s_reference_count := (old_count + 1) % 2 ^ ULONG_BITS }
  if old_count ≠ 0 then m
  else { m with registry := load_addons_body E m.registry
                performed := m.performed ++ [lifecycle_action.real_load] }

/-- The body of `unload_addons` behind the reference-count test (the debug-only
assertion is `unload_addons_assertion`). -/
def unload_addons_body (E : Host) (s : Registry) : Registry :=
  let s :=
    if E.RESHADE_ADDON_LITE then s
    else
      (s.addon_loaded_info.filter (fun info => info.loaded)).foldl
        (fun s info => E.FreeLibrary info.handle s) s
  let s := E.unregister_addon_depth s
  { s with addon_loaded_info := [] }

/-- The function `reshade::unload_addons()`; the pre-decrement of the counter wraps at
the width of `unsigned long`. -/
def unload_addons (E : Host) (m : Manager) : Manager :=
  let new_count := (m.s_reference_count + 2 ^ ULONG_BITS - 1) % 2 ^ ULONG_BITS
  let m := { m with s_reference_count := new_count }
  if new_count ≠ 0 then m
  else { m with registry := unload_addons_body E m.registry
                performed := m.performed ++ [lifecycle_action.real_unload] }

/-- One call of an exported registration entry point, with its arguments. -/
inductive registry_call where
  | register_addon (module api_version : Nat)
  | unregister_addon (fuel module : Nat)
  | register_event (ev callback : Nat)
  | unregister_event (ev callback : Nat)
  | register_overlay (title : Option String) (callback : Nat)
  | unregister_overlay (title : Option String) (callback : Nat)
deriving DecidableEq, Repr

/-- The registry after one call (`none` when `unregister_addon` does not finish). -/
def registry_call.run (E : Host) (s : Registry) : registry_call → Option Registry
  | .register_addon module api_version => some (ReShadeRegisterAddon E s module api_version).2
  | .unregister_addon fuel module => ReShadeUnregisterAddon E fuel s module
  | .register_event ev callback => some (ReShadeRegisterEvent E s ev callback)
  | .unregister_event ev callback => some (ReShadeUnregisterEvent E s ev callback)
  | .register_overlay title callback =>
    if E.RESHADE_GUI then some (ReShadeRegisterOverlay E s title callback) else none
  | .unregister_overlay title callback =>
    if E.RESHADE_GUI then some (ReShadeUnregisterOverlay E s title callback) else none

/-- The registry after a sequence of calls from `s`. -/
def run_calls (E : Host) (s : Registry) : List registry_call → Option Registry
  | [] => some s
  | c :: cs =>
    match c.run E s with
    | none => none
    | some s1 => run_calls E s1 cs

/-- The registries the exported entry points start from: the empty registry, or the
empty registry followed by the record `load_addons` appends for the built-in add-on
(with the host handle, or with a null handle when the built-in add-on is disabled). -/
def Registry.initial (E : Host) (s : Registry) : Prop :=
  s = Registry.empty ∨
    s = { Registry.empty with
          addon_loaded_info := [{ builtin_addon_info E with handle := E.g_module_handle }] } ∨
    s = { Registry.empty with addon_loaded_info := [builtin_addon_info E] }

/-- States the registry can be in: reachable from an initial registry by calls of the
exported entry points with any arguments. -/
def Reachable (E : Host) (s : Registry) : Prop :=
  ∃ (start : Registry) (calls : List registry_call),
    start.initial E ∧ run_calls E start calls = some s

/-- The callbacks recorded for kind `ev` in the owned-callback lists of the records
currently in the add-on list, record by record. -/
def owned_callbacks (s : Registry) (ev : Nat) : List Nat :=
  s.addon_loaded_info.flatMap
    (fun info => (info.event_callbacks.filter (fun p => decide (p.1 = ev))).map Prod.snd)

/-- How often the pair `(ev, callback)` occurs in the owned-callback lists of the
records of `l`, all records together. -/
def owned_count (l : List addon_info) (ev callback : Nat) : Nat :=
  (l.map (fun info => info.event_callbacks.count (ev, callback))).sum

/-- The bookkeeping invariant of the registry. `owner`: an owned pair has a valid
kind, a callback inside the owning module and was not blocked at registration;
`overlay_owner`: likewise for overlays; `handles`: a non-null handle belongs to one
record only; `named`: a record with the handle of an add-on module carries the name
resolved for that module;
`counts`: a callback is in a per-kind list as often as it is owned for that kind. -/
structure Registry.consistent (E : Host) (s : Registry) : Prop where
  owner : ∀ info ∈ s.addon_loaded_info, ∀ p ∈ info.event_callbacks,
    p.1 < E.addon_event_max ∧ p.2 ≠ 0 ∧ E.GetModuleHandleExW p.2 = some info.handle ∧
      lite_blocked E info.handle p.1 = false
  overlay_owner : ∀ info ∈ s.addon_loaded_info, ∀ o ∈ info.overlay_callbacks,
    o.callback ≠ 0 ∧ E.GetModuleHandleExW o.callback = some info.handle
  handles : ∀ (i j : Nat) (a b : addon_info), s.addon_loaded_info[i]? = some a →
    s.addon_loaded_info[j]? = some b → a.handle = b.handle → a.handle ≠ 0 → i = j
  named : ∀ info ∈ s.addon_loaded_info, info.handle ≠ 0 → info.handle ≠ E.g_module_handle →
    info.name = (resolve_addon_info E info.handle).name
  counts : ∀ ev callback : Nat,
    (s.addon_event_list ev).count callback = owned_count s.addon_loaded_info ev callback

/-- A host used for the concrete instances below: full add-on support with the
overlay, modules are 4 KiB aligned blocks of addresses, the event values are the
positions in the `switch` of `addon_event_to_string`, one name is disabled. -/
def sample_host : Host :=
  { RESHADE_ADDON_LITE := false
    RESHADE_GUI := true
    RESHADE_API_VERSION := 1
    addon_event_max := 81
    destroy_effect_runtime := 10
    present := 74
    g_module_handle := 0x10000
    GetModuleHandleExW := fun address => if address < 0x1000 then none else some (address / 0x1000 * 0x1000)
    module_path_stem := fun module => if module = 0x3000 then "off" else if module = 0x4000 then "same" else
      if module = 0x5000 then "same" else "addon"
    module_path := fun _ => "addon.addon"
    GetFileVersionInfoW := fun _ => none
    export_NAME := fun _ => none
    export_DESCRIPTION := fun _ => none
    DisabledAddons := some ["off"]
    g_reshade_dll_path := "ReShade64.dll"
    VERSION_STRING_FILE := "5.0.0.0"
    register_addon_depth := fun s => s
    unregister_addon_depth := fun s => s
    load_addon_modules := fun s => s
    FreeLibrary := fun _ s => s }

/-- The host `sample_host` built with `RESHADE_ADDON_LITE`. -/
def sample_host_lite : Host :=
  { sample_host with RESHADE_ADDON_LITE := true }

namespace d3d9

/-- The calls a state block makes on the device, on the native state block and on the
objects it holds references to. -/
inductive DeviceCall where
  | CreateStateBlock
  | Capture (block : Nat)
  | Apply (block : Nat)
  | GetViewport
  | GetRenderTarget (target : Nat)
  | GetDepthStencilSurface
  | SetRenderTarget (target surface : Nat)
  | SetDepthStencilSurface (surface : Nat)
  | SetViewport (viewport : Nat)
  | Release (object : Nat)
deriving DecidableEq, Repr

/-- What the constructor of `state_block` takes from outside the file. -/
structure Device where
  /-- Build switch `RESHADE_TEST_APPLICATION`. -/
  RESHADE_TEST_APPLICATION : Bool
  /-- The value `GetDeviceCaps` leaves in `caps.NumSimultaneousRTs`. -/
  NumSimultaneousRTs : Nat

/-- What the device answers during one call of `capture`; `none` is a call that fails
and stores nothing. A viewport is the code of a `D3DVIEWPORT9` value. -/
structure CaptureAnswers where
  CreateStateBlock : Option Nat
  GetViewport : Option Nat
  GetRenderTarget : Nat → Option Nat
  GetDepthStencilSurface : Option Nat

/-- The data members of the class `state_block` other than `_device`. Pointers are
addresses with 0 for `nullptr`; `_render_targets` is the array of 8 pointers. -/
structure state_block where
  _state_block : Nat
  _num_simultaneous_rts : Nat
  _viewport : Nat
  _depth_stencil : Nat
  _render_targets : List Nat
deriving DecidableEq, Repr

/-- A state block after a member function ran, the calls it made in order (asserts
compiled out), and whether its `assert` held. -/
structure Outcome where
  block : state_block
  calls : List DeviceCall
  asserts_hold : Bool
deriving DecidableEq, Repr

/-- The bound `ARRAYSIZE(_render_targets)` of the member declared as
`_render_targets[8]`. -/
def ARRAYSIZE_render_targets : Nat := 8

/-- Modelled from the spec: `com_ptr<T>::reset()` of `com_ptr.hpp`, which is not among
the sources. It releases the reference held, if there is one, and leaves the pointer
null; the result is the pointer afterwards and the `Release` call made. -/
def com_ptr_reset (held : Nat) : Nat × List DeviceCall :=
  (0, if held = 0 then [] else [DeviceCall.Release held])

/-- Modelled from the spec: a native call storing through `&pointer` of a `com_ptr<T>`
(`com_ptr.hpp` is not among the sources). A call that succeeds leaves its object in the
pointer, a call that fails leaves the pointer as it was. -/
def com_ptr_store (answer : Option Nat) (held : Nat) : Nat :=
  match answer with
  | some object => object
  | none => held

/-- The member function `state_block::has_captured()`. -/
def state_block.has_captured (b : state_block) : Bool :=
  decide (b._state_block ≠ 0)

/-- The constructor `state_block::state_block(device)`, named `create` here: the members
after it ran. The pointers start null and `_viewport` is zero-initialised. -/
def state_block.create (D : Device) : state_block :=
  { _state_block := 0
    _num_simultaneous_rts :=
      if D.RESHADE_TEST_APPLICATION then 1
      else if D.NumSimultaneousRTs > ARRAYSIZE_render_targets then ARRAYSIZE_render_targets
      else D.NumSimultaneousRTs
    _viewport := 0
    _depth_stencil := 0
    _render_targets := List.replicate ARRAYSIZE_render_targets 0 }

/-- The `for` loop of `capture` over the values `targets` of the counter, on the array
`rts`: `GetRenderTarget(target, &_render_targets[target])`. The result is `none` when a
position outside the array is used. -/
def get_render_targets (A : CaptureAnswers) : List Nat → List Nat → Option (List Nat × List DeviceCall)
  | [], rts => some (rts, [])
  | target :: rest, rts =>
    match rts[target]? with
    | none => none
    | some held =>
      match get_render_targets A rest (rts.set target (com_ptr_store (A.GetRenderTarget target) held)) with
      | none => none
      | some (rts1, calls) => some (rts1, DeviceCall.GetRenderTarget target :: calls)

/-- The member function `state_block::capture()`; `none` when a position outside
`_render_targets` is used. -/
def state_block.capture (A : CaptureAnswers) (b : state_block) : Option Outcome :=
  match get_render_targets A (List.range b._num_simultaneous_rts) b._render_targets with
  | none => none
  | some (rts, target_calls) =>
    some
      { block :=
          { _state_block := com_ptr_store A.CreateStateBlock b._state_block
            _num_simultaneous_rts := b._num_simultaneous_rts
            _viewport := (match A.GetViewport with
              | some viewport => viewport
              | none => b._viewport)
            _depth_stencil := com_ptr_store A.GetDepthStencilSurface b._depth_stencil
            _render_targets := rts }
        calls :=
          [DeviceCall.CreateStateBlock] ++
            (match A.CreateStateBlock with
              | some block => [DeviceCall.Capture block]
              | none => []) ++
            [DeviceCall.GetViewport] ++ target_calls ++ [DeviceCall.GetDepthStencilSurface]
        asserts_hold := !b.has_captured }

/-- The `for` loop of `apply_and_release` over the values `targets` of the counter:
`SetRenderTarget(target, _render_targets[target].get())`. The result is `none` when a
position outside the array is used. -/
def set_render_targets (rts : List Nat) : List Nat → Option (List DeviceCall)
  | [] => some []
  | target :: rest =>
    match rts[target]? with
    | none => none
    | some surface =>
      match set_render_targets rts rest with
      | none => none
      | some calls => some (DeviceCall.SetRenderTarget target surface :: calls)

/-- The member function `state_block::release_all_device_objects()`: `reset` on the
depth-stencil pointer and on every element of `_render_targets`. -/
def state_block.release_all_device_objects (b : state_block) : state_block × List DeviceCall :=
  ({ b with
     _depth_stencil := (com_ptr_reset b._depth_stencil).1
     _render_targets := b._render_targets.map (fun render_target => (com_ptr_reset render_target).1) },
   (com_ptr_reset b._depth_stencil).2 ++
     b._render_targets.flatMap (fun render_target => (com_ptr_reset render_target).2))

/-- The member function `state_block::apply_and_release()`; `none` when a position
outside `_render_targets` is used. -/
def state_block.apply_and_release (b : state_block) : Option Outcome :=
  match set_render_targets b._render_targets (List.range b._num_simultaneous_rts) with
  | none => none
  | some target_calls =>
    some
      { block :=
          ({ b with _state_block := (com_ptr_reset b._state_block).1 }
            : state_block).release_all_device_objects.1
        calls :=
          (if b._state_block ≠ 0 then [DeviceCall.Apply b._state_block] else []) ++
            (com_ptr_reset b._state_block).2 ++ target_calls ++
            [DeviceCall.SetDepthStencilSurface b._depth_stencil, DeviceCall.SetViewport b._viewport] ++
            ({ b with _state_block := (com_ptr_reset b._state_block).1 }
              : state_block).release_all_device_objects.2
        asserts_hold := true }

/-- One use of a state block after its construction. -/
inductive operation where
  | capture (A : CaptureAnswers)
  | apply_and_release

/-- The outcome of one operation on the block `b`. -/
def operation.run : operation → state_block → Option Outcome
  | .capture A, b => b.capture A
  | .apply_and_release, b => b.apply_and_release

end d3d9

end reshade

/-! ## Theorems -/

namespace reshade
namespace d3d10

theorem apply_eq_filter (B : pipeline_stage) (p : pipeline_impl) (M : Nat) :
    p.apply B M =
      (owned_stages.filter (fun st => decide (M &&& st.bit B ≠ 0))).flatMap (set_state_calls p) := by
  unfold pipeline_impl.apply owned_stages
  simp only [List.filter_cons, List.filter_nil, owned_stage.bit]
  by_cases h1 : M &&& B.vertex_shader ≠ 0 <;> by_cases h2 : M &&& B.geometry_shader ≠ 0 <;>
  by_cases h3 : M &&& B.pixel_shader ≠ 0 <;> by_cases h4 : M &&& B.input_assembler ≠ 0 <;>
  by_cases h5 : M &&& B.rasterizer ≠ 0 <;> by_cases h6 : M &&& B.depth_stencil ≠ 0 <;>
  by_cases h7 : M &&& B.output_merger ≠ 0 <;>
  simp [h1, h2, h3, h4, h5, h6, h7, set_state_calls]

theorem apply_nodup (B : pipeline_stage) (p : pipeline_impl) (M : Nat) : (p.apply B M).Nodup := by
  unfold pipeline_impl.apply
  by_cases h1 : M &&& B.vertex_shader ≠ 0 <;> by_cases h2 : M &&& B.geometry_shader ≠ 0 <;>
  by_cases h3 : M &&& B.pixel_shader ≠ 0 <;> by_cases h4 : M &&& B.input_assembler ≠ 0 <;>
  by_cases h5 : M &&& B.rasterizer ≠ 0 <;> by_cases h6 : M &&& B.depth_stencil ≠ 0 <;>
  by_cases h7 : M &&& B.output_merger ≠ 0 <;>
  simp [h1, h2, h3, h4, h5, h6, h7]

theorem owned_stage_of_set_state_call (p : pipeline_impl) (st : owned_stage) (c : NativeCall)
    (h : c ∈ set_state_calls p st) : c.owned_stage = some st := by
  cases st <;> simp only [set_state_calls, List.mem_cons, List.mem_singleton, List.mem_nil_iff,
    or_false] at h
  all_goals first
    | (subst h; rfl)
    | (rcases h with h | h <;> subst h <;> rfl)

/-- C1. For a tagged (aggregate) pipeline handle, the native calls issued by
`bind_pipeline(M, handle)` are, in order, the set-state calls of exactly the owned
stages whose bit is in `M`, with the values stored in the aggregate; no call is
issued twice; every set-state call of a stage in `M` is issued; every issued call is
a set-state call of a stage in `M`; none belongs to a stage whose bit is not in `M`.
This holds for every mask, in particular for those the assertion accepts. -/
theorem bind_pipeline_aggregate_exact (B : pipeline_stage) (heap : Nat → pipeline_impl)
    (M handle : Nat) (htag : handle &&& 1 ≠ 0) :
    (bind_pipeline B heap M handle).calls =
        (owned_stages.filter (fun st => decide (M &&& st.bit B ≠ 0))).flatMap
          (set_state_calls (heap (handle ^^^ 1))) ∧
      (bind_pipeline B heap M handle).calls.Nodup ∧
      (∀ st, M &&& owned_stage.bit B st ≠ 0 →
        ∀ c ∈ set_state_calls (heap (handle ^^^ 1)) st, c ∈ (bind_pipeline B heap M handle).calls) ∧
      (∀ c ∈ (bind_pipeline B heap M handle).calls,
        ∃ st, c.owned_stage = some st ∧ M &&& owned_stage.bit B st ≠ 0 ∧
          c ∈ set_state_calls (heap (handle ^^^ 1)) st) ∧
      (∀ st, M &&& owned_stage.bit B st = 0 →
        ∀ c ∈ (bind_pipeline B heap M handle).calls, c.owned_stage ≠ some st) := by
  have hcalls : (bind_pipeline B heap M handle).calls = (heap (handle ^^^ 1)).apply B M := by
    unfold bind_pipeline
    simp only []
    rw [if_pos htag]
  have hall : ∀ st : owned_stage, st ∈ owned_stages := by
    intro st; cases st <;> simp [owned_stages]
  rw [hcalls]
  refine ⟨apply_eq_filter B _ M, apply_nodup B _ M, ?_, ?_, ?_⟩
  · intro st hst c hc
    rw [apply_eq_filter]
    simp only [List.mem_flatMap, List.mem_filter]
    exact ⟨st, ⟨hall st, by simpa using hst⟩, hc⟩
  · intro c hc
    rw [apply_eq_filter] at hc
    simp only [List.mem_flatMap, List.mem_filter] at hc
    obtain ⟨st, ⟨_, hst⟩, hmem⟩ := hc
    exact ⟨st, owned_stage_of_set_state_call _ st c hmem, by simpa using hst, hmem⟩
  · intro st hst c hc hown
    rw [apply_eq_filter] at hc
    simp only [List.mem_flatMap, List.mem_filter] at hc
    obtain ⟨st2, ⟨_, hst2⟩, hmem⟩ := hc
    have h2 := owned_stage_of_set_state_call _ st2 c hmem
    rw [hown] at h2
    cases h2
    simp [hst] at hst2

/-- C1 at a concrete aggregate: vertex-shader and input-assembler bits requested. -/
theorem bind_pipeline_aggregate_exact_witness :
    (4097 &&& 1 ≠ 0) ∧
    (bind_pipeline sample_pipeline_stage (fun _ => sample_pipeline) 0xa 4097).asserts_hold = true ∧
    (bind_pipeline sample_pipeline_stage (fun _ => sample_pipeline) 0xa 4097).calls =
      [NativeCall.VSSetShader 101, NativeCall.IASetInputLayout 104,
       NativeCall.IASetPrimitiveTopology 4] :=
  ⟨by decide, by decide,
    ((bind_pipeline_aggregate_exact sample_pipeline_stage (fun _ => sample_pipeline) 0xa 4097
      (by decide)).1).trans (by decide)⟩

theorem nat_or_eq_zero (a b : Nat) : a ||| b = 0 ↔ a = 0 ∧ b = 0 := by
  constructor
  · intro h
    constructor
    · apply Nat.eq_of_testBit_eq
      intro i
      have := congrArg (fun n => n.testBit i) h
      simp only [Nat.testBit_or, Nat.zero_testBit, Bool.or_eq_false_iff] at this
      simp [this.1]
    · apply Nat.eq_of_testBit_eq
      intro i
      have := congrArg (fun n => n.testBit i) h
      simp only [Nat.testBit_or, Nat.zero_testBit, Bool.or_eq_false_iff] at this
      simp [this.2]
  · rintro ⟨rfl, rfl⟩
    rfl

theorem barrier_transition_iff (U : resource_usage) (o n : Nat) :
    barrier_transition U o n = true ↔
      o &&& U.shader_resource ≠ 0 ∧ n &&& U.shader_resource = 0 ∧
        (n &&& U.render_target ≠ 0 ∨ n &&& U.depth_stencil ≠ 0) := by
  unfold barrier_transition
  simp only [Bool.and_eq_true, decide_eq_true_eq, Nat.and_or_distrib_left, ne_eq, nat_or_eq_zero]
  tauto

theorem barrier_flag_fold (c : Nat → Bool) (l : List Nat) (b : Bool) :
    l.foldl (fun flag i => if c i then true else flag) b = (b || l.any c) := by
  induction l generalizing b with
  | nil => simp
  | cons x xs ih =>
    simp only [List.foldl_cons, List.any_cons, ih]
    cases c x <;> cases b <;> simp

/-- C10. `barrier` issues either the full unbind (one `SetShaderResources` call per
shader stage, vertex, geometry and pixel, starting at slot 0 and writing a null view
to each of the 128 slots) or nothing. It issues the full unbind if and only if some
pair below `count` has `shader_resource` set in the old usage, clear in the new usage,
and `render_target` or `depth_stencil` set in the new usage. In particular, when no
old usage has `shader_resource` set, no native call is issued. -/
theorem barrier_unbind_iff (U : resource_usage) (count : Nat) (resources old_states new_states : Nat → Nat) :
    (barrier U count resources old_states new_states =
        [NativeCall.VSSetShaderResources 0 128 (List.replicate 128 0),
         NativeCall.GSSetShaderResources 0 128 (List.replicate 128 0),
         NativeCall.PSSetShaderResources 0 128 (List.replicate 128 0)] ∨
      barrier U count resources old_states new_states = []) ∧
    (barrier U count resources old_states new_states =
        [NativeCall.VSSetShaderResources 0 128 (List.replicate 128 0),
         NativeCall.GSSetShaderResources 0 128 (List.replicate 128 0),
         NativeCall.PSSetShaderResources 0 128 (List.replicate 128 0)] ↔
      ∃ i, i < count ∧ old_states i &&& U.shader_resource ≠ 0 ∧
        new_states i &&& U.shader_resource = 0 ∧
        (new_states i &&& U.render_target ≠ 0 ∨ new_states i &&& U.depth_stencil ≠ 0)) ∧
    ((∀ i, i < count → old_states i &&& U.shader_resource = 0) →
      barrier U count resources old_states new_states = []) := by
  have hflag : ((List.range count).foldl
      (fun flag i => if barrier_transition U (old_states i) (new_states i) then true else flag)
      false = true) ↔
      ∃ i, i < count ∧ old_states i &&& U.shader_resource ≠ 0 ∧
        new_states i &&& U.shader_resource = 0 ∧
        (new_states i &&& U.render_target ≠ 0 ∨ new_states i &&& U.depth_stencil ≠ 0) := by
    rw [barrier_flag_fold (fun i => barrier_transition U (old_states i) (new_states i))]
    simp only [Bool.false_or, List.any_eq_true, List.mem_range, barrier_transition_iff]
  unfold barrier
  simp only [D3D10_COMMONSHADER_INPUT_RESOURCE_SLOT_COUNT]
  by_cases h : (List.range count).foldl
      (fun flag i => if barrier_transition U (old_states i) (new_states i) then true else flag)
      false = true
  · rw [if_pos h]
    refine ⟨Or.inl rfl, ⟨fun _ => hflag.1 h, fun _ => rfl⟩, ?_⟩
    intro hall
    obtain ⟨i, hi, hold, _⟩ := hflag.1 h
    exact absurd (hall i hi) hold
  · rw [if_neg h]
    refine ⟨Or.inr rfl, ⟨fun hc => by simp at hc, fun hex => absurd (hflag.2 hex) h⟩, ?_⟩
    intro _
    rfl

/-- C10 at concrete usages: the first pair leaves shader-resource usage for
render-target usage, so the full unbind is issued. -/
theorem barrier_unbind_iff_witness :
    barrier sample_resource_usage 2 (fun _ => 0) (fun i => if i = 0 then 0xc0 else 0x4)
        (fun i => if i = 0 then 0x4 else 0xc0) =
      [NativeCall.VSSetShaderResources 0 128 (List.replicate 128 0),
       NativeCall.GSSetShaderResources 0 128 (List.replicate 128 0),
       NativeCall.PSSetShaderResources 0 128 (List.replicate 128 0)] ∧
    barrier sample_resource_usage 2 (fun _ => 0) (fun _ => 0x4) (fun _ => 0x30) = [] :=
  ⟨(barrier_unbind_iff sample_resource_usage 2 (fun _ => 0) (fun i => if i = 0 then 0xc0 else 0x4)
      (fun i => if i = 0 then 0x4 else 0xc0)).2.1.2 ⟨0, by decide⟩,
   (barrier_unbind_iff sample_resource_usage 2 (fun _ => 0) (fun _ => 0x4) (fun _ => 0x30)).2.2
      (fun _ _ => by decide)⟩

/-- C11. The native calls issued by `barrier` do not depend on the resources passed:
two calls with the same count whose old and new usages agree below the count issue
the same call sequence, whatever their resource arrays are. -/
theorem barrier_ignores_resources (U : resource_usage) (count : Nat)
    (resources1 resources2 old_states1 old_states2 new_states1 new_states2 : Nat → Nat)
    (hold : ∀ i, i < count → old_states1 i = old_states2 i)
    (hnew : ∀ i, i < count → new_states1 i = new_states2 i) :
    barrier U count resources1 old_states1 new_states1 =
      barrier U count resources2 old_states2 new_states2 := by
  have hflag : ((List.range count).foldl
      (fun flag i => if barrier_transition U (old_states1 i) (new_states1 i) then true else flag)
      false) = ((List.range count).foldl
      (fun flag i => if barrier_transition U (old_states2 i) (new_states2 i) then true else flag)
      false) := by
    rw [barrier_flag_fold (fun i => barrier_transition U (old_states1 i) (new_states1 i)),
      barrier_flag_fold (fun i => barrier_transition U (old_states2 i) (new_states2 i))]
    congr 1
    rw [Bool.eq_iff_iff]
    simp only [List.any_eq_true, List.mem_range]
    constructor
    · rintro ⟨i, hi, h⟩
      exact ⟨i, hi, by rw [← hold i hi, ← hnew i hi]; exact h⟩
    · rintro ⟨i, hi, h⟩
      exact ⟨i, hi, by rw [hold i hi, hnew i hi]; exact h⟩
  unfold barrier
  simp only [hflag]

/-- C11 at concrete arrays: same usages, different resources, same unbind. -/
theorem barrier_ignores_resources_witness :
    barrier sample_resource_usage 1 (fun _ => 0x1000) (fun _ => 0xc0) (fun _ => 0x4) =
      barrier sample_resource_usage 1 (fun _ => 0x2000) (fun _ => 0xc0) (fun _ => 0x4) ∧
    barrier sample_resource_usage 1 (fun _ => 0x1000) (fun _ => 0xc0) (fun _ => 0x4) =
      [NativeCall.VSSetShaderResources 0 128 (List.replicate 128 0),
       NativeCall.GSSetShaderResources 0 128 (List.replicate 128 0),
       NativeCall.PSSetShaderResources 0 128 (List.replicate 128 0)] :=
  ⟨barrier_ignores_resources sample_resource_usage 1 (fun _ => 0x1000) (fun _ => 0x2000)
      (fun _ => 0xc0) (fun _ => 0xc0) (fun _ => 0x4) (fun _ => 0x4) (fun _ _ => rfl) (fun _ _ => rfl),
   by decide⟩

theorem foldl_append_if {α β : Type} (c : α → Bool) (f : α → β) (l : List α) (acc : List β) :
    l.foldl (fun calls i => if c i then calls ++ [f i] else calls) acc =
      acc ++ l.flatMap (fun i => if c i then [f i] else []) := by
  induction l generalizing acc with
  | nil => simp
  | cons x xs ih =>
    simp only [List.foldl_cons, List.flatMap_cons, ih]
    cases c x <;> simp

theorem begin_render_pass_targets_eq (rts : Nat → render_pass_render_target_desc) (count : Nat) :
    begin_render_pass_targets rts count =
      (List.range count).flatMap (fun i =>
        if (rts i).load_op = render_pass_load_op.clear then
          [NativeCall.ClearRenderTargetView (rts i).view (rts i).clear_color]
        else []) := by
  unfold begin_render_pass_targets
  have h := foldl_append_if (fun i => decide ((rts i).load_op = render_pass_load_op.clear))
    (fun i => NativeCall.ClearRenderTargetView (rts i).view (rts i).clear_color)
    (List.range count) []
  simp only [decide_eq_true_eq, List.nil_append] at h
  exact h

theorem depth_stencil_clear_flags_ne_zero (ds : render_pass_depth_stencil_desc) :
    depth_stencil_clear_flags ds ≠ 0 ↔
      (ds.depth_load_op = render_pass_load_op.clear ∨
        ds.stencil_load_op = render_pass_load_op.clear) := by
  unfold depth_stencil_clear_flags D3D10_CLEAR_DEPTH D3D10_CLEAR_STENCIL
  by_cases h1 : ds.depth_load_op = render_pass_load_op.clear <;>
    by_cases h2 : ds.stencil_load_op = render_pass_load_op.clear <;> simp [h1, h2]

theorem begin_render_pass_calls (count : Nat) (rts : Nat → render_pass_render_target_desc)
    (ds : Option render_pass_depth_stencil_desc) :
    (begin_render_pass count rts ds).calls =
      (List.range count).flatMap (fun i =>
        if (rts i).load_op = render_pass_load_op.clear then
          [NativeCall.ClearRenderTargetView (rts i).view (rts i).clear_color]
        else []) ++
      (match ds with
        | some d =>
          if d.view ≠ 0 ∧ (d.depth_load_op = render_pass_load_op.clear ∨
              d.stencil_load_op = render_pass_load_op.clear) then
            [NativeCall.ClearDepthStencilView d.view (depth_stencil_clear_flags d) d.clear_depth
              d.clear_stencil]
          else []
        | none => []) ++
      [NativeCall.OMSetRenderTargets count ((List.range count).map (fun i => (rts i).view))
        (match ds with
          | some d => d.view
          | none => 0)] := by
  unfold begin_render_pass
  simp only [Run.append, bind_render_targets_and_depth_stencil, begin_render_pass_targets_eq]
  cases ds with
  | none => simp
  | some d =>
    by_cases hv : d.view = 0
    · simp [hv]
    · by_cases hf : depth_stencil_clear_flags d ≠ 0
      · have := (depth_stencil_clear_flags_ne_zero d).1 hf
        simp [hv, hf, this]
      · have hnot : ¬(d.depth_load_op = render_pass_load_op.clear ∨
            d.stencil_load_op = render_pass_load_op.clear) :=
          fun h => hf ((depth_stencil_clear_flags_ne_zero d).2 h)
        simp only [ne_eq, hv, not_false_eq_true, hf, if_true, if_false, hnot, and_false,
          List.append_nil]

/-- C12. For a `begin_render_pass` call with `count ≤ 8` (its assertions hold), the
calls issued are, in order: for each target `i` below `count` one
`ClearRenderTargetView` on its view with its stored clear colour exactly when its
load op is `clear`; then one `ClearDepthStencilView` exactly when a depth-stencil
description with a non-null view is given and the depth or the stencil load op is
`clear`, with flags `D3D10_CLEAR_DEPTH` (if the depth load op is `clear`) or-ed with
`D3D10_CLEAR_STENCIL` (if the stencil load op is `clear`), so 1, 2 or 3; then the
bind. When every load op is `load`, the bind is the only call and no clear is issued. -/
theorem begin_render_pass_clears (count : Nat) (rts : Nat → render_pass_render_target_desc)
    (ds : Option render_pass_depth_stencil_desc)
    (hcount : count ≤ D3D10_SIMULTANEOUS_RENDER_TARGET_COUNT) :
    (begin_render_pass count rts ds).asserts_hold = true ∧
    (begin_render_pass count rts ds).calls =
      (List.range count).flatMap (fun i =>
        if (rts i).load_op = render_pass_load_op.clear then
          [NativeCall.ClearRenderTargetView (rts i).view (rts i).clear_color]
        else []) ++
      (match ds with
        | some d =>
          if d.view ≠ 0 ∧ (d.depth_load_op = render_pass_load_op.clear ∨
              d.stencil_load_op = render_pass_load_op.clear) then
            [NativeCall.ClearDepthStencilView d.view
              ((if d.depth_load_op = render_pass_load_op.clear then 1 else 0) |||
                (if d.stencil_load_op = render_pass_load_op.clear then 2 else 0))
              d.clear_depth d.clear_stencil]
          else []
        | none => []) ++
      [NativeCall.OMSetRenderTargets count ((List.range count).map (fun i => (rts i).view))
        (match ds with
          | some d => d.view
          | none => 0)] ∧
    ((begin_render_pass count rts ds).calls.filter NativeCall.is_clear).length =
      ((List.range count).filter
          (fun i => decide ((rts i).load_op = render_pass_load_op.clear))).length +
        (match ds with
          | some d =>
            if d.view ≠ 0 ∧ (d.depth_load_op = render_pass_load_op.clear ∨
                d.stencil_load_op = render_pass_load_op.clear) then 1 else 0
          | none => 0) ∧
    ((∀ i, i < count → (rts i).load_op = render_pass_load_op.load) →
      (∀ d, ds = some d → d.depth_load_op = render_pass_load_op.load ∧
        d.stencil_load_op = render_pass_load_op.load) →
      (begin_render_pass count rts ds).calls =
          [NativeCall.OMSetRenderTargets count ((List.range count).map (fun i => (rts i).view))
            (match ds with
              | some d => d.view
              | none => 0)] ∧
        ∀ c ∈ (begin_render_pass count rts ds).calls, c.is_clear = false) := by
  have hassert : (begin_render_pass count rts ds).asserts_hold = true := by
    unfold begin_render_pass
    simp [Run.append, bind_render_targets_and_depth_stencil, hcount]
  have hcalls := begin_render_pass_calls count rts ds
  have hcountclear : ∀ l : List Nat,
      ((l.flatMap (fun i =>
        if (rts i).load_op = render_pass_load_op.clear then
          [NativeCall.ClearRenderTargetView (rts i).view (rts i).clear_color]
        else [])).filter NativeCall.is_clear).length =
      (l.filter (fun i => decide ((rts i).load_op = render_pass_load_op.clear))).length := by
    intro l
    induction l with
    | nil => rfl
    | cons x xs ih =>
      simp only [List.flatMap_cons, List.filter_append, List.length_append, ih, List.filter_cons]
      by_cases hx : (rts x).load_op = render_pass_load_op.clear
      · simp [hx, NativeCall.is_clear]; omega
      · simp [hx]
  refine ⟨hassert, ?_, ?_, ?_⟩
  · rw [hcalls]
    simp only [depth_stencil_clear_flags, D3D10_CLEAR_DEPTH, D3D10_CLEAR_STENCIL]
  · rw [hcalls]
    simp only [List.filter_append, List.length_append, hcountclear]
    cases ds with
    | none => simp [NativeCall.is_clear]
    | some d =>
      by_cases hc : d.view ≠ 0 ∧ (d.depth_load_op = render_pass_load_op.clear ∨
          d.stencil_load_op = render_pass_load_op.clear)
      · simp [hc, NativeCall.is_clear]
      · simp [hc, NativeCall.is_clear]
  · intro hrts hds
    have hnil : (List.range count).flatMap (fun i =>
        if (rts i).load_op = render_pass_load_op.clear then
          [NativeCall.ClearRenderTargetView (rts i).view (rts i).clear_color]
        else []) = [] := by
      rw [List.flatMap_eq_nil_iff]
      intro i hi
      simp [hrts i (List.mem_range.1 hi)]
    have hdsnil : (match ds with
        | some d =>
          if d.view ≠ 0 ∧ (d.depth_load_op = render_pass_load_op.clear ∨
              d.stencil_load_op = render_pass_load_op.clear) then
            [NativeCall.ClearDepthStencilView d.view (depth_stencil_clear_flags d) d.clear_depth
              d.clear_stencil]
          else []
        | none => []) = [] := by
      cases ds with
      | none => rfl
      | some d =>
        obtain ⟨h1, h2⟩ := hds d rfl
        simp [h1, h2]
    rw [hcalls, hnil, hdsnil]
    simp [NativeCall.is_clear]

/-- C12 at a concrete pass: two targets, the first cleared; depth cleared, stencil
loaded. -/
theorem begin_render_pass_clears_witness :
    (begin_render_pass 2 sample_render_targets (some sample_depth_stencil)).calls =
      [NativeCall.ClearRenderTargetView 0x100 [0, 0, 0, 0x3f800000],
       NativeCall.ClearDepthStencilView 0x200 1 0x3f800000 0,
       NativeCall.OMSetRenderTargets 2 [0x100, 0x101] 0x200] :=
  ((begin_render_pass_clears 2 sample_render_targets (some sample_depth_stencil)
    (by decide)).2.1).trans (by decide)

/-- C13, as stated, fails: in a pass that clears, the clear calls are issued first and
the bind of the render targets and the depth-stencil view is the last call. -/
theorem begin_render_pass_bind_after_clear :
    (begin_render_pass 2 sample_render_targets (some sample_depth_stencil)).calls =
      [NativeCall.ClearRenderTargetView 0x100 [0, 0, 0, 0x3f800000],
       NativeCall.ClearDepthStencilView 0x200 1 0x3f800000 0,
       NativeCall.OMSetRenderTargets 2 [0x100, 0x101] 0x200] ∧
    (begin_render_pass 2 sample_render_targets (some sample_depth_stencil)).calls.head? =
      some (NativeCall.ClearRenderTargetView 0x100 [0, 0, 0, 0x3f800000]) ∧
    (begin_render_pass 2 sample_render_targets (some sample_depth_stencil)).calls.getLast? =
      some (NativeCall.OMSetRenderTargets 2 [0x100, 0x101] 0x200) := by
  decide

/-- C13, amended. `begin_render_pass` is emulated as conditionally clear, then bind:
the call sequence of every `begin_render_pass` is a list of clear calls followed by
exactly one more call, the bind of the render targets and the depth-stencil view, so
every clear call of the pass comes before the bind; and `end_render_pass` issues
exactly one native call, which unbinds all render targets and the depth-stencil
view. -/
theorem begin_render_pass_clears_then_binds (count : Nat)
    (rts : Nat → render_pass_render_target_desc) (ds : Option render_pass_depth_stencil_desc) :
    (∃ clears : List NativeCall,
      (begin_render_pass count rts ds).calls =
          clears ++
            [NativeCall.OMSetRenderTargets count ((List.range count).map (fun i => (rts i).view))
              (match ds with
                | some d => d.view
                | none => 0)] ∧
        ∀ c ∈ clears, c.is_clear = true) ∧
      end_render_pass.calls = [NativeCall.OMSetRenderTargets 0 [] 0] := by
  refine ⟨⟨_, begin_render_pass_calls count rts ds, ?_⟩, rfl⟩
  intro c hc
  rcases List.mem_append.1 hc with h | h
  · obtain ⟨i, _, hi⟩ := List.mem_flatMap.1 h
    by_cases hl : (rts i).load_op = render_pass_load_op.clear
    · simp only [hl, if_true, List.mem_singleton] at hi
      subst hi
      rfl
    · simp [hl] at hi
  · cases ds with
    | none => simp at h
    | some d =>
      by_cases hd : d.view ≠ 0 ∧ (d.depth_load_op = render_pass_load_op.clear ∨
          d.stencil_load_op = render_pass_load_op.clear)
      · simp only [] at h
        rw [if_pos hd] at h
        rw [List.mem_singleton] at h
        subst h
        rfl
      · simp only [] at h
        rw [if_neg hd] at h
        simp at h

theorem push_constants_upload_no_create (K : Backend) (dev : device_impl) (stages layout
    layout_param first count : Nat) (values : Nat → Nat) :
    ∀ c ∈ push_constants_upload K dev stages layout layout_param first count values,
      c.is_create_buffer = false := by
  intro c hc
  unfold push_constants_upload at hc
  simp only [List.mem_append] at hc
  rcases hc with ((hc | hc) | hc) | hc
  · split at hc
    · simp only [List.mem_cons, List.mem_singleton, List.mem_nil_iff, or_false] at hc
      rcases hc with h | h | h <;> subst h <;> rfl
    · simp only [List.mem_singleton] at hc
      subst hc; rfl
  all_goals
    split at hc
    · simp only [List.mem_singleton] at hc
      subst hc; rfl
    · simp at hc

theorem push_constants_grow (K : Backend) (dev : device_impl) (stages layout layout_param first
    count : Nat) (values : Nat → Nat) (buffer : Nat)
    (hgrow : dev._push_constants_size < count)
    (hcreate : K.CreateBuffer ((count * 4) % 2 ^ UINT_BITS) = some buffer) :
    push_constants K dev stages layout layout_param first count values =
      ({ _push_constants := buffer, _push_constants_size := count },
        { asserts_hold := decide (first = 0)
          calls := [NativeCall.CreateBuffer ((count * 4) % 2 ^ UINT_BITS) D3D10_USAGE_DYNAMIC
              D3D10_BIND_CONSTANT_BUFFER D3D10_CPU_ACCESS_WRITE,
            NativeCall.SetResourceName buffer "Push constants"] ++
            push_constants_upload K { _push_constants := buffer, _push_constants_size := count }
              stages layout layout_param first count values }) := by
  have h0 : count ≠ 0 := by omega
  unfold push_constants
  simp only [h0, if_false, gt_iff_lt, hgrow, if_true, hcreate]

theorem push_constants_failed (K : Backend) (dev : device_impl) (stages layout layout_param first
    count : Nat) (values : Nat → Nat)
    (hgrow : dev._push_constants_size < count)
    (hcreate : K.CreateBuffer ((count * 4) % 2 ^ UINT_BITS) = none) :
    push_constants K dev stages layout layout_param first count values =
      (dev,
        { asserts_hold := decide (first = 0)
          calls := [NativeCall.CreateBuffer ((count * 4) % 2 ^ UINT_BITS) D3D10_USAGE_DYNAMIC
              D3D10_BIND_CONSTANT_BUFFER D3D10_CPU_ACCESS_WRITE] }) := by
  have h0 : count ≠ 0 := by omega
  unfold push_constants
  simp only [h0, if_false, gt_iff_lt, hgrow, if_true, hcreate, com_ptr_after_failed_create]

theorem push_constants_reuse (K : Backend) (dev : device_impl) (stages layout layout_param first
    count : Nat) (values : Nat → Nat) (h0 : count ≠ 0)
    (hfit : count ≤ dev._push_constants_size) :
    push_constants K dev stages layout layout_param first count values =
      (dev,
        { asserts_hold := decide (first = 0)
          calls := push_constants_upload K dev stages layout layout_param first count values }) := by
  unfold push_constants
  simp only [h0, if_false, gt_iff_lt, Nat.not_lt.2 hfit]

theorem push_constants_size_mono (K : Backend) (dev : device_impl) (stages layout layout_param
    first count : Nat) (values : Nat → Nat) :
    dev._push_constants_size ≤
      (push_constants K dev stages layout layout_param first count values).1._push_constants_size := by
  by_cases h0 : count = 0
  · simp [push_constants, h0]
  · by_cases hgrow : dev._push_constants_size < count
    · cases hcreate : K.CreateBuffer ((count * 4) % 2 ^ UINT_BITS) with
      | none => rw [push_constants_failed K dev _ _ _ _ _ _ hgrow hcreate]
      | some buffer =>
        rw [push_constants_grow K dev _ _ _ _ _ _ buffer hgrow hcreate]
        exact Nat.le_of_lt hgrow
    · rw [push_constants_reuse K dev _ _ _ _ _ _ h0 (Nat.not_lt.1 hgrow)]

theorem capacity_trace_mono (K : Backend) (args : List push_constants_args) :
    ∀ dev : device_impl,
      (dev._push_constants_size :: capacity_trace K dev args).Pairwise (fun a b => a ≤ b) := by
  induction args with
  | nil => intro dev; simp [capacity_trace]
  | cons a rest ih =>
    intro dev
    have hstep := push_constants_size_mono K dev a.stages a.layout a.layout_param a.first a.count
      a.values
    have hrest := ih (push_constants K dev a.stages a.layout a.layout_param a.first a.count
      a.values).1
    simp only [capacity_trace]
    rw [List.pairwise_cons]
    refine ⟨?_, hrest⟩
    intro b hb
    rcases List.mem_cons.1 hb with h | h
    · rw [h]; exact hstep
    · exact Nat.le_trans hstep ((List.pairwise_cons.1 hrest).1 b h)


theorem filter_create_upload (K : Backend) (dev : device_impl) (stages layout layout_param first
    count : Nat) (values : Nat → Nat) :
    (push_constants_upload K dev stages layout layout_param first count values).filter
      NativeCall.is_create_buffer = [] := by
  rw [List.filter_eq_nil_iff]
  intro c hc
  simp [push_constants_upload_no_create K dev stages layout layout_param first count values c hc]

theorem filter_memcpy_upload (K : Backend) (dev : device_impl) (stages layout layout_param first
    count : Nat) (values : Nat → Nat) (hmap : K.Map dev._push_constants = true) :
    (push_constants_upload K dev stages layout layout_param first count values).filter
      NativeCall.is_memcpy =
        [NativeCall.memcpy dev._push_constants first
          ((List.range (memcpy_byte_count K count / 4)).map values)] := by
  unfold push_constants_upload
  simp only [hmap, if_true, List.filter_append]
  cases has_stage (resolve_slot K stages layout layout_param).2 K.stage.vertex <;>
    cases has_stage (resolve_slot K stages layout layout_param).2 K.stage.geometry <;>
    cases has_stage (resolve_slot K stages layout layout_param).2 K.stage.pixel <;>
    simp [NativeCall.is_memcpy]

/-- C14, as stated, fails for element counts of `2 ^ 30` and more: `desc.ByteWidth`
is a 32-bit `UINT`, so for `count = 2 ^ 30 + 4` the buffer created has 16 bytes, four
elements, while the recorded capacity becomes `2 ^ 30 + 4`. -/
theorem push_constants_byte_width_wraps :
    (push_constants sample_backend { _push_constants := 0, _push_constants_size := 0 } 0x1 0 0
        0 1073741828 (fun _ => 0)).1._push_constants_size = 1073741828 ∧
      (push_constants sample_backend { _push_constants := 0, _push_constants_size := 0 } 0x1 0 0
        0 1073741828 (fun _ => 0)).2.calls.head? =
        some (NativeCall.CreateBuffer 16 D3D10_USAGE_DYNAMIC D3D10_BIND_CONSTANT_BUFFER
          D3D10_CPU_ACCESS_WRITE) ∧
      (push_constants sample_backend { _push_constants := 0, _push_constants_size := 0 } 0x1 0 0
        0 1073741828 (fun _ => 0)).2.calls.filter NativeCall.is_create_buffer =
        [NativeCall.CreateBuffer 16 D3D10_USAGE_DYNAMIC D3D10_BIND_CONSTANT_BUFFER
          D3D10_CPU_ACCESS_WRITE] := by
  have h := push_constants_grow sample_backend { _push_constants := 0, _push_constants_size := 0 }
    0x1 0 0 0 1073741828 (fun _ => 0) (0x9000 + 16) (by decide) (by decide)
  rw [h]
  refine ⟨rfl, rfl, ?_⟩
  simp only [List.filter_append, filter_create_upload, List.append_nil]
  decide

/-- C14, amended to element counts below `2 ^ 30` for the size of the new buffer. For
a `push_constants` call with `count > 0` whose buffer allocation (if any) succeeds,
the recorded capacity afterwards is the maximum of the previous capacity and `count`.
If `count` exceeds the previous capacity, exactly one buffer is created, with
`ByteWidth` equal to `count * 4` modulo `2 ^ 32` (so of exactly `count` elements when
`count < 2 ^ 30`), and it becomes the staging buffer; otherwise no buffer is created
and the device members stay as they were. Over any sequence of calls the recorded
capacity never decreases, and, when allocations succeed, pushing 4, 64, 16, 256
elements from capacity 0 gives the capacities 4, 64, 64, 256. -/
theorem push_constants_capacity (K : Backend) (dev : device_impl) :
    (∀ (stages layout layout_param first count : Nat) (values : Nat → Nat), 0 < count →
      (dev._push_constants_size < count →
        (K.CreateBuffer ((count * 4) % 2 ^ 32)).isSome = true) →
      (push_constants K dev stages layout layout_param first count values).1._push_constants_size =
          max dev._push_constants_size count ∧
        (dev._push_constants_size < count →
          K.CreateBuffer ((count * 4) % 2 ^ 32) =
              some (push_constants K dev stages layout layout_param first count
                values).1._push_constants ∧
            (push_constants K dev stages layout layout_param first count values).2.calls.filter
                NativeCall.is_create_buffer =
              [NativeCall.CreateBuffer ((count * 4) % 2 ^ 32) D3D10_USAGE_DYNAMIC
                D3D10_BIND_CONSTANT_BUFFER D3D10_CPU_ACCESS_WRITE] ∧
            (count < 2 ^ 30 → (count * 4) % 2 ^ 32 = count * 4)) ∧
        (count ≤ dev._push_constants_size →
          (push_constants K dev stages layout layout_param first count values).1 = dev ∧
            (push_constants K dev stages layout layout_param first count values).2.calls.filter
                NativeCall.is_create_buffer = [])) ∧
    (∀ args : List push_constants_args,
      (dev._push_constants_size :: capacity_trace K dev args).Pairwise (fun a b => a ≤ b)) ∧
    ((∀ ByteWidth, (K.CreateBuffer ByteWidth).isSome = true) → dev._push_constants_size = 0 →
      ∀ a1 a2 a3 a4 : push_constants_args,
        a1.count = 4 → a2.count = 64 → a3.count = 16 → a4.count = 256 →
        capacity_trace K dev [a1, a2, a3, a4] = [4, 64, 64, 256]) := by
  refine ⟨?_, fun args => capacity_trace_mono K args dev, ?_⟩
  · intro stages layout layout_param first count values hpos halloc
    by_cases hgrow : dev._push_constants_size < count
    · obtain ⟨buffer, hbuf⟩ := Option.isSome_iff_exists.1 (halloc hgrow)
      have h := push_constants_grow K dev stages layout layout_param first count values buffer
        hgrow hbuf
      simp only [UINT_BITS] at h
      rw [h]
      refine ⟨by simp only; omega, fun _ => ⟨hbuf, ?_, fun hlt => by omega⟩, fun hle => by omega⟩
      simp only [List.filter_append, filter_create_upload, List.append_nil]
      simp [NativeCall.is_create_buffer]
    · have hfit : count ≤ dev._push_constants_size := Nat.not_lt.1 hgrow
      rw [push_constants_reuse K dev stages layout layout_param first count values (by omega) hfit]
      refine ⟨by simp only; omega, fun h => absurd h hgrow, fun _ => ⟨rfl, ?_⟩⟩
      exact filter_create_upload K dev stages layout layout_param first count values
  · intro hall hzero a1 a2 a3 a4 h1 h2 h3 h4
    have step : ∀ (d : device_impl) (a : push_constants_args), 0 < a.count →
        (push_constants K d a.stages a.layout a.layout_param a.first a.count
          a.values).1._push_constants_size = max d._push_constants_size a.count := by
      intro d a hpos
      by_cases hgrow : d._push_constants_size < a.count
      · obtain ⟨buffer, hbuf⟩ := Option.isSome_iff_exists.1 (hall ((a.count * 4) % 2 ^ UINT_BITS))
        rw [push_constants_grow K d _ _ _ _ _ _ buffer hgrow hbuf]
        simp only; omega
      · rw [push_constants_reuse K d _ _ _ _ _ _ (by omega) (Nat.not_lt.1 hgrow)]
        simp only; omega
    simp only [capacity_trace]
    generalize hd1 : (push_constants K dev a1.stages a1.layout a1.layout_param a1.first a1.count
      a1.values).1 = d1
    have s1 : d1._push_constants_size = 4 := by
      rw [← hd1, step dev a1 (by omega), hzero, h1]; rfl
    generalize hd2 : (push_constants K d1 a2.stages a2.layout a2.layout_param a2.first a2.count
      a2.values).1 = d2
    have s2 : d2._push_constants_size = 64 := by
      rw [← hd2, step d1 a2 (by omega), s1, h2]; rfl
    generalize hd3 : (push_constants K d2 a3.stages a3.layout a3.layout_param a3.first a3.count
      a3.values).1 = d3
    have s3 : d3._push_constants_size = 64 := by
      rw [← hd3, step d2 a3 (by omega), s2, h3]; rfl
    generalize hd4 : (push_constants K d3 a4.stages a4.layout a4.layout_param a4.first a4.count
      a4.values).1 = d4
    have s4 : d4._push_constants_size = 256 := by
      rw [← hd4, step d3 a4 (by omega), s3, h4]; rfl
    rw [s1, s2, s3, s4]

/-- C14 amended, on the sample back-end: sizes 4, 64, 16, 256 from capacity 0. -/
theorem push_constants_capacity_witness :
    capacity_trace sample_backend { _push_constants := 0, _push_constants_size := 0 }
        [{ stages := 0x11, layout := 0, layout_param := 0, first := 0, count := 4, values := fun i => i },
         { stages := 0x11, layout := 0, layout_param := 0, first := 0, count := 64, values := fun i => i },
         { stages := 0x11, layout := 0, layout_param := 0, first := 0, count := 16, values := fun i => i },
         { stages := 0x11, layout := 0, layout_param := 0, first := 0, count := 256, values := fun i => i }] =
      [4, 64, 64, 256] :=
  (push_constants_capacity sample_backend { _push_constants := 0, _push_constants_size := 0 }).2.2
    (fun _ => rfl) rfl _ _ _ _ rfl rfl rfl rfl

/-- C15. When the element count exceeds the recorded capacity and the native buffer
creation fails, `push_constants` is a no-op: the device members (recorded capacity and
the staging buffer held) are as before, and the only native call issued is the failed
`CreateBuffer`, so no map, write, unmap or constant-buffer bind is issued on any
stage and no buffer contents are touched. -/
theorem push_constants_allocation_failure (K : Backend) (dev : device_impl) (stages layout
    layout_param first count : Nat) (values : Nat → Nat)
    (hgrow : dev._push_constants_size < count)
    (hfail : K.CreateBuffer ((count * 4) % 2 ^ 32) = none) :
    (push_constants K dev stages layout layout_param first count values).1 = dev ∧
      (push_constants K dev stages layout layout_param first count values).1._push_constants_size =
        dev._push_constants_size ∧
      (push_constants K dev stages layout layout_param first count values).1._push_constants =
        dev._push_constants ∧
      (push_constants K dev stages layout layout_param first count values).2.calls =
        [NativeCall.CreateBuffer ((count * 4) % 2 ^ 32) D3D10_USAGE_DYNAMIC
          D3D10_BIND_CONSTANT_BUFFER D3D10_CPU_ACCESS_WRITE] ∧
      ∀ c ∈ (push_constants K dev stages layout layout_param first count values).2.calls,
        c.is_upload_or_bind = false := by
  have h := push_constants_failed K dev stages layout layout_param first count values hgrow hfail
  simp only [UINT_BITS] at h
  rw [h]
  refine ⟨rfl, rfl, rfl, rfl, ?_⟩
  intro c hc
  simp only [List.mem_singleton] at hc
  subst hc
  rfl

/-- C15 on a back-end without memory: capacity 4 held, 64 elements requested. -/
theorem push_constants_allocation_failure_witness :
    push_constants sample_backend_out_of_memory
        { _push_constants := 0x9010, _push_constants_size := 4 } 0x11 0 0 0 64 (fun i => i) =
      ({ _push_constants := 0x9010, _push_constants_size := 4 },
        { asserts_hold := true, calls := [NativeCall.CreateBuffer 256 2 4 0x10000] }) :=
  Prod.ext
    (push_constants_allocation_failure sample_backend_out_of_memory
      { _push_constants := 0x9010, _push_constants_size := 4 } 0x11 0 0 0 64 (fun i => i)
      (by decide) rfl).1
    (by decide)

theorem memcpy_byte_count_eq (K : Backend) (count : Nat)
    (h : count < 2 ^ 30 ∨ (K._WIN64 = true ∧ count < 2 ^ 32)) :
    memcpy_byte_count K count / 4 = count := by
  unfold memcpy_byte_count Backend.SIZE_T_BITS
  rcases h with h | ⟨hw, h⟩
  · cases K._WIN64
    · simp only [Bool.false_eq_true, if_false]
      omega
    · simp only [if_true]
      omega
  · simp only [hw, if_true]
    omega

/-- C16, as stated, fails in three ways on the sample back-end. With `first = 1` and
`count = 4` on an empty device the buffer is grown to capacity 4 and the four values are
written to elements 1 to 4, one element past the capacity (the call violates
`assert(first == 0)`). With `first = 0` and `count = 2 ^ 30 + 4` in a `_WIN64` build the
assert holds, the buffer created has 16 bytes, so four elements, and the copy moves all
`2 ^ 30 + 4` values into it. In a build without `_WIN64` that call copies 4 values, not
`count`. -/
theorem push_constants_write_past_capacity :
    ((push_constants sample_backend { _push_constants := 0, _push_constants_size := 0 } 0x1 0 0
        1 4 (fun i => 10 + i)).1._push_constants_size = 4 ∧
      (push_constants sample_backend { _push_constants := 0, _push_constants_size := 0 } 0x1 0 0
        1 4 (fun i => 10 + i)).2.calls =
        [NativeCall.CreateBuffer 16 2 4 0x10000,
         NativeCall.SetResourceName 0x9010 "Push constants",
         NativeCall.Map 0x9010 4, NativeCall.memcpy 0x9010 1 [10, 11, 12, 13],
         NativeCall.Unmap 0x9010, NativeCall.VSSetConstantBuffers 0 1 [0x9010]] ∧
      ¬(1 + 4 ≤ (push_constants sample_backend { _push_constants := 0, _push_constants_size := 0 }
        0x1 0 0 1 4 (fun i => 10 + i)).1._push_constants_size) ∧
      (push_constants sample_backend { _push_constants := 0, _push_constants_size := 0 } 0x1 0 0
        1 4 (fun i => 10 + i)).2.asserts_hold = false) ∧
    ((push_constants sample_backend { _push_constants := 0, _push_constants_size := 0 } 0x1 0 0
        0 1073741828 (fun i => 10 + i)).2.asserts_hold = true ∧
      (push_constants sample_backend { _push_constants := 0, _push_constants_size := 0 } 0x1 0 0
        0 1073741828 (fun i => 10 + i)).2.calls.filter NativeCall.is_create_buffer =
        [NativeCall.CreateBuffer 16 2 4 0x10000] ∧
      (push_constants sample_backend { _push_constants := 0, _push_constants_size := 0 } 0x1 0 0
        0 1073741828 (fun i => 10 + i)).2.calls.filter NativeCall.is_memcpy =
        [NativeCall.memcpy 0x9010 0 ((List.range 1073741828).map (fun i => 10 + i))] ∧
      ((List.range 1073741828).map (fun i => 10 + i)).length = 1073741828 ∧
      ¬((0 + 1073741828) * 4 ≤ 16)) ∧
    ((push_constants sample_backend_win32 { _push_constants := 0, _push_constants_size := 0 }
        0x1 0 0 0 1073741828 (fun i => 10 + i)).2.asserts_hold = true ∧
      (push_constants sample_backend_win32 { _push_constants := 0, _push_constants_size := 0 }
        0x1 0 0 0 1073741828 (fun i => 10 + i)).2.calls =
        [NativeCall.CreateBuffer 16 2 4 0x10000,
         NativeCall.SetResourceName 0x9010 "Push constants",
         NativeCall.Map 0x9010 4, NativeCall.memcpy 0x9010 0 [10, 11, 12, 13],
         NativeCall.Unmap 0x9010, NativeCall.VSSetConstantBuffers 0 1 [0x9010]]) := by
  refine ⟨by decide, ?_, by decide⟩
  have h := push_constants_grow sample_backend { _push_constants := 0, _push_constants_size := 0 }
    0x1 0 0 0 1073741828 (fun i => 10 + i) (0x9000 + 16) (by decide) (by decide)
  rw [h]
  refine ⟨rfl, ?_, ?_, by simp, by decide⟩
  · simp only [List.filter_append, filter_create_upload, List.append_nil]
    decide
  · simp only [List.filter_append]
    rw [filter_memcpy_upload sample_backend _ 0x1 0 0 0 1073741828 (fun i => 10 + i) rfl,
      memcpy_byte_count_eq sample_backend 1073741828 (Or.inr ⟨rfl, by decide⟩)]
    rfl

/-- C16, amended to calls whose byte sizes do not wrap. For a `push_constants` call with
`count > 0` whose buffer allocation (if any) succeeds and that maps the staging buffer
successfully, exactly one copy is issued, to the elements from `first` on of the mapped
staging buffer, of the leading values that fit the byte count of the copy; these are all
`count` values, in order, to elements `first` to `first + count - 1`, when
`count < 2 ^ 30` or the build is `_WIN64`. `byte_width` gives the `ByteWidth` of a
buffer: a created buffer has the width requested, and the buffer held on entry has the
width requested for the recorded capacity, which then also holds on exit. When the
capacity after the call, the maximum of the previous capacity and `count`, is below
`2 ^ 30`, the staging buffer has exactly that many elements and the written range lies
within it exactly when `first + count` is at most that capacity, in particular whenever
`first = 0`, which is what the function asserts. -/
theorem push_constants_write_range (K : Backend) (dev : device_impl) (stages layout layout_param
    first count : Nat) (values : Nat → Nat) (byte_width : Nat → Nat) (hpos : 0 < count)
    (halloc : dev._push_constants_size < count →
      (K.CreateBuffer ((count * 4) % 2 ^ 32)).isSome = true)
    (hmap : K.Map
      (push_constants K dev stages layout layout_param first count values).1._push_constants = true)
    (hcreated : ∀ buffer, K.CreateBuffer ((count * 4) % 2 ^ 32) = some buffer →
      byte_width buffer = (count * 4) % 2 ^ 32)
    (hheld : count ≤ dev._push_constants_size →
      byte_width dev._push_constants = (dev._push_constants_size * 4) % 2 ^ 32) :
    (push_constants K dev stages layout layout_param first count values).2.calls.filter
        NativeCall.is_memcpy =
      [NativeCall.memcpy
        (push_constants K dev stages layout layout_param first count values).1._push_constants
        first ((List.range (memcpy_byte_count K count / 4)).map values)] ∧
    (∀ j, j < memcpy_byte_count K count / 4 →
      ((List.range (memcpy_byte_count K count / 4)).map values)[j]? = some (values j)) ∧
    (count < 2 ^ 30 ∨ (K._WIN64 = true ∧ count < 2 ^ 32) →
      (List.range (memcpy_byte_count K count / 4)).map values = (List.range count).map values ∧
        ((List.range (memcpy_byte_count K count / 4)).map values).length = count) ∧
    byte_width
        (push_constants K dev stages layout layout_param first count values).1._push_constants =
      ((push_constants K dev stages layout layout_param first count values).1._push_constants_size
        * 4) % 2 ^ 32 ∧
    (max dev._push_constants_size count < 2 ^ 30 →
      byte_width
          (push_constants K dev stages layout layout_param first count values).1._push_constants =
        max dev._push_constants_size count * 4 ∧
      ((first + count) * 4 ≤ byte_width
          (push_constants K dev stages layout layout_param first count values).1._push_constants ↔
        first + count ≤ max dev._push_constants_size count) ∧
      (first = 0 → (first + count) * 4 ≤ byte_width
        (push_constants K dev stages layout layout_param first count values).1._push_constants)) ∧
    ((push_constants K dev stages layout layout_param first count values).2.asserts_hold = true ↔
      first = 0) := by
  have hvals : ∀ j, j < memcpy_byte_count K count / 4 →
      ((List.range (memcpy_byte_count K count / 4)).map values)[j]? = some (values j) := by
    intro j hj
    simp [List.getElem?_map, List.getElem?_range hj]
  have hall : count < 2 ^ 30 ∨ (K._WIN64 = true ∧ count < 2 ^ 32) →
      (List.range (memcpy_byte_count K count / 4)).map values = (List.range count).map values ∧
        ((List.range (memcpy_byte_count K count / 4)).map values).length = count := by
    intro h
    rw [memcpy_byte_count_eq K count h]
    exact ⟨rfl, by simp⟩
  by_cases hgrow : dev._push_constants_size < count
  · obtain ⟨buffer, hbuf⟩ := Option.isSome_iff_exists.1 (halloc hgrow)
    have h := push_constants_grow K dev stages layout layout_param first count values buffer
      hgrow hbuf
    have hw := hcreated buffer hbuf
    rw [h] at hmap ⊢
    simp only at hmap
    refine ⟨?_, hvals, hall, hw, ?_, by simp⟩
    · simp only [List.filter_append]
      rw [filter_memcpy_upload K _ stages layout layout_param first count values hmap]
      simp [NativeCall.is_memcpy]
    · intro hsmall
      simp only [hw]
      have hmax : max dev._push_constants_size count = count := by omega
      rw [hmax] at hsmall ⊢
      have hmod : (count * 4) % 2 ^ 32 = count * 4 := by omega
      rw [hmod]
      exact ⟨rfl, by omega, fun h0 => by omega⟩
  · have hfit : count ≤ dev._push_constants_size := Nat.not_lt.1 hgrow
    have h := push_constants_reuse K dev stages layout layout_param first count values
      (by omega) hfit
    have hw := hheld hfit
    rw [h] at hmap ⊢
    simp only at hmap
    refine ⟨filter_memcpy_upload K dev stages layout layout_param first count values hmap,
      hvals, hall, hw, ?_, by simp⟩
    intro hsmall
    simp only [hw]
    have hmax : max dev._push_constants_size count = dev._push_constants_size := by omega
    rw [hmax] at hsmall ⊢
    have hmod : (dev._push_constants_size * 4) % 2 ^ 32 = dev._push_constants_size * 4 := by omega
    rw [hmod]
    exact ⟨rfl, by omega, fun h0 => by omega⟩

/-- C16 amended, on the sample back-end with `first = 0`: four values go to elements 0
to 3 of the 16-byte buffer created for them. -/
theorem push_constants_write_range_witness :
    (push_constants sample_backend { _push_constants := 0, _push_constants_size := 0 } 0x1 0 0
        0 4 (fun i => 10 + i)).2.calls.filter NativeCall.is_memcpy =
      [NativeCall.memcpy 0x9010 0 [10, 11, 12, 13]] ∧
    sample_byte_width 0x9010 = 16 ∧
    (0 + 4) * 4 ≤ sample_byte_width
      (push_constants sample_backend { _push_constants := 0, _push_constants_size := 0 } 0x1 0 0
        0 4 (fun i => 10 + i)).1._push_constants := by
  have h := push_constants_write_range sample_backend
    { _push_constants := 0, _push_constants_size := 0 } 0x1 0 0 0 4 (fun i => 10 + i)
    sample_byte_width (by decide) (fun _ => rfl) rfl
    (fun buffer hb => by
      have hb2 : 0x9000 + 16 = buffer := Option.some.inj hb
      rw [← hb2]
      rfl)
    (by decide)
  exact ⟨h.1.trans (by decide), by decide, (h.2.2.2.2.1 (by decide)).2.2 rfl⟩

theorem resolve_slot_default (K : Backend) (stages layout layout_param : Nat)
    (h : layout = 0 ∨ layout = K.global_pipeline_layout) :
    resolve_slot K stages layout layout_param = (0, stages) := by
  unfold resolve_slot
  have : ¬(layout ≠ 0 ∧ layout ≠ K.global_pipeline_layout) := by
    rintro ⟨h1, h2⟩
    rcases h with h | h
    · exact h1 h
    · exact h2 h
  rw [if_neg this]

theorem resolve_slot_explicit (K : Backend) (stages layout layout_param : Nat)
    (h0 : layout ≠ 0) (hg : layout ≠ K.global_pipeline_layout) :
    resolve_slot K stages layout layout_param =
      (((K.layouts layout).ranges layout_param).dx_register_index,
        stages &&& ((K.layouts layout).ranges layout_param).visibility) := by
  unfold resolve_slot
  rw [if_pos ⟨h0, hg⟩]

theorem filter_bind_upload (K : Backend) (dev : device_impl) (stages layout layout_param first
    count : Nat) (values : Nat → Nat) :
    (push_constants_upload K dev stages layout layout_param first count values).filter
      NativeCall.is_constant_buffer_bind =
        (if has_stage (resolve_slot K stages layout layout_param).2 K.stage.vertex then
          [NativeCall.VSSetConstantBuffers (resolve_slot K stages layout layout_param).1 1
            [dev._push_constants]] else []) ++
        (if has_stage (resolve_slot K stages layout layout_param).2 K.stage.geometry then
          [NativeCall.GSSetConstantBuffers (resolve_slot K stages layout layout_param).1 1
            [dev._push_constants]] else []) ++
        (if has_stage (resolve_slot K stages layout layout_param).2 K.stage.pixel then
          [NativeCall.PSSetConstantBuffers (resolve_slot K stages layout layout_param).1 1
            [dev._push_constants]] else []) := by
  unfold push_constants_upload
  simp only [List.filter_append]
  cases K.Map dev._push_constants <;>
    cases has_stage (resolve_slot K stages layout layout_param).2 K.stage.vertex <;>
    cases has_stage (resolve_slot K stages layout layout_param).2 K.stage.geometry <;>
    cases has_stage (resolve_slot K stages layout layout_param).2 K.stage.pixel <;>
    simp [NativeCall.is_constant_buffer_bind]

theorem push_constants_binds (K : Backend) (dev : device_impl) (stages layout layout_param first
    count : Nat) (values : Nat → Nat) (hpos : 0 < count)
    (halloc : dev._push_constants_size < count →
      (K.CreateBuffer ((count * 4) % 2 ^ 32)).isSome = true) :
    (push_constants K dev stages layout layout_param first count values).2.calls.filter
      NativeCall.is_constant_buffer_bind =
        (if has_stage (resolve_slot K stages layout layout_param).2 K.stage.vertex then
          [NativeCall.VSSetConstantBuffers (resolve_slot K stages layout layout_param).1 1
            [(push_constants K dev stages layout layout_param first count
              values).1._push_constants]] else []) ++
        (if has_stage (resolve_slot K stages layout layout_param).2 K.stage.geometry then
          [NativeCall.GSSetConstantBuffers (resolve_slot K stages layout layout_param).1 1
            [(push_constants K dev stages layout layout_param first count
              values).1._push_constants]] else []) ++
        (if has_stage (resolve_slot K stages layout layout_param).2 K.stage.pixel then
          [NativeCall.PSSetConstantBuffers (resolve_slot K stages layout layout_param).1 1
            [(push_constants K dev stages layout layout_param first count
              values).1._push_constants]] else []) := by
  by_cases hgrow : dev._push_constants_size < count
  · obtain ⟨buffer, hbuf⟩ := Option.isSome_iff_exists.1 (halloc hgrow)
    rw [push_constants_grow K dev stages layout layout_param first count values buffer hgrow hbuf]
    simp only [List.filter_append, filter_bind_upload]
    simp [NativeCall.is_constant_buffer_bind]
  · rw [push_constants_reuse K dev stages layout layout_param first count values (by omega)
      (Nat.not_lt.1 hgrow)]
    exact filter_bind_upload K dev stages layout layout_param first count values

/-- C19, as stated, fails: with the layout omitted and parameter index 3, the samplers
are bound from native slot 0, not 3, and the push-constant buffer is bound at slot 0. -/
theorem default_layout_ignores_parameter_index :
    (push_descriptors sample_backend 0x1 0 3 sample_sampler_update).calls =
        [NativeCall.VSSetSamplers 0 2 [0x600, 0x601]] ∧
      (push_constants sample_backend { _push_constants := 0, _push_constants_size := 0 } 0x1 0 3
        0 4 (fun i => 10 + i)).2.calls.filter NativeCall.is_constant_buffer_bind =
        [NativeCall.VSSetConstantBuffers 0 1 [0x9010]] := by
  decide

/-- C19, amended to slot 0. When the layout handle is null or is the global layout,
`push_descriptors` and `push_constants` consult no layout: whatever the parameter
index, the bind starts at native slot 0 and is issued for exactly the stages of the
requested mask (vertex, geometry, pixel, in this order), the mask being used as
passed. -/
theorem default_layout_binds_slot_zero (K : Backend) (layout : Nat)
    (hdefault : layout = 0 ∨ layout = K.global_pipeline_layout) :
    (∀ (stages layout_param : Nat) (update : descriptor_set_update),
      (push_descriptors K stages layout layout_param update).calls =
        match update.type with
        | descriptor_type.sampler =>
          (if has_stage stages K.stage.vertex then
            [NativeCall.VSSetSamplers 0 update.count
              ((List.range update.count).map (fun i => (update.descriptors i).handle))] else []) ++
          (if has_stage stages K.stage.geometry then
            [NativeCall.GSSetSamplers 0 update.count
              ((List.range update.count).map (fun i => (update.descriptors i).handle))] else []) ++
          (if has_stage stages K.stage.pixel then
            [NativeCall.PSSetSamplers 0 update.count
              ((List.range update.count).map (fun i => (update.descriptors i).handle))] else [])
        | descriptor_type.shader_resource_view =>
          (if has_stage stages K.stage.vertex then
            [NativeCall.VSSetShaderResources 0 update.count
              ((List.range update.count).map (fun i => (update.descriptors i).handle))] else []) ++
          (if has_stage stages K.stage.geometry then
            [NativeCall.GSSetShaderResources 0 update.count
              ((List.range update.count).map (fun i => (update.descriptors i).handle))] else []) ++
          (if has_stage stages K.stage.pixel then
            [NativeCall.PSSetShaderResources 0 update.count
              ((List.range update.count).map (fun i => (update.descriptors i).handle))] else [])
        | descriptor_type.constant_buffer =>
          (if has_stage stages K.stage.vertex then
            [NativeCall.VSSetConstantBuffers 0 update.count
              ((List.range update.count).map (fun i => (update.descriptors i).handle))] else []) ++
          (if has_stage stages K.stage.geometry then
            [NativeCall.GSSetConstantBuffers 0 update.count
              ((List.range update.count).map (fun i => (update.descriptors i).handle))] else []) ++
          (if has_stage stages K.stage.pixel then
            [NativeCall.PSSetConstantBuffers 0 update.count
              ((List.range update.count).map (fun i => (update.descriptors i).handle))] else [])
        | descriptor_type.other _ => []) ∧
    (∀ (dev : device_impl) (stages layout_param first count : Nat) (values : Nat → Nat),
      0 < count →
      (dev._push_constants_size < count →
        (K.CreateBuffer ((count * 4) % 2 ^ 32)).isSome = true) →
      (push_constants K dev stages layout layout_param first count values).2.calls.filter
        NativeCall.is_constant_buffer_bind =
          (if has_stage stages K.stage.vertex then
            [NativeCall.VSSetConstantBuffers 0 1
              [(push_constants K dev stages layout layout_param first count
                values).1._push_constants]] else []) ++
          (if has_stage stages K.stage.geometry then
            [NativeCall.GSSetConstantBuffers 0 1
              [(push_constants K dev stages layout layout_param first count
                values).1._push_constants]] else []) ++
          (if has_stage stages K.stage.pixel then
            [NativeCall.PSSetConstantBuffers 0 1
              [(push_constants K dev stages layout layout_param first count
                values).1._push_constants]] else [])) := by
  constructor
  · intro stages layout_param update
    unfold push_descriptors
    simp only [Run.append, List.nil_append, resolve_slot_default K stages layout layout_param hdefault]
    cases update.type <;> rfl
  · intro dev stages layout_param first count values hpos halloc
    have h := push_constants_binds K dev stages layout layout_param first count values hpos halloc
    rw [resolve_slot_default K stages layout layout_param hdefault] at h
    exact h

/-- C19 amended, on the sample back-end with the layout omitted and parameter index 3. -/
theorem default_layout_binds_slot_zero_witness :
    (push_descriptors sample_backend 0x11 0 3 sample_sampler_update).calls =
      [NativeCall.VSSetSamplers 0 2 [0x600, 0x601], NativeCall.PSSetSamplers 0 2 [0x600, 0x601]] :=
  ((default_layout_binds_slot_zero sample_backend 0 (Or.inl rfl)).1 0x11 3
    sample_sampler_update).trans (by decide)

theorem and_eq_right_iff_testBit (a v : Nat) :
    a &&& v = v ↔ ∀ i, v.testBit i = true → a.testBit i = true := by
  constructor
  · intro h i hv
    have := congrArg (fun n => n.testBit i) h
    simp only [Nat.testBit_and, hv, Bool.and_true] at this
    exact this
  · intro h
    apply Nat.eq_of_testBit_eq
    intro i
    rw [Nat.testBit_and]
    cases hv : v.testBit i
    · simp
    · simp [h i hv]

theorem has_stage_and (stages visibility stage : Nat) :
    has_stage (stages &&& visibility) stage =
      decide (stages &&& stage = stage ∧ visibility &&& stage = stage) := by
  unfold has_stage
  rw [decide_eq_decide]
  simp only [and_eq_right_iff_testBit, Nat.testBit_and, Bool.and_eq_true]
  constructor
  · intro h
    exact ⟨fun i hi => (h i hi).1, fun i hi => (h i hi).2⟩
  · rintro ⟨h1, h2⟩ i hi
    exact ⟨h1 i hi, h2 i hi⟩

/-- C17. For `push_descriptors` with an explicit layout (neither null nor the global
one) and parameter index `p`, the calls issued are the binds of the update's
descriptor kind (sampler, shader-resource view or constant buffer), starting at the
native slot stored in range `p` of the layout and covering `update.count` entries, one
for each shader stage (vertex, geometry, pixel) whose bit is set both in the requested
stages and in the visibility mask of range `p`, and for no other stage; an update of
any other descriptor kind issues no call. -/
theorem push_descriptors_explicit_layout (K : Backend) (stages layout layout_param : Nat)
    (update : descriptor_set_update) (hnull : layout ≠ 0)
    (hglobal : layout ≠ K.global_pipeline_layout) :
    (push_descriptors K stages layout layout_param update).calls =
        descriptor_binds_spec K update.type stages
          ((K.layouts layout).ranges layout_param).visibility
          ((K.layouts layout).ranges layout_param).dx_register_index update.count
          ((List.range update.count).map (fun i => (update.descriptors i).handle)) ∧
      (∀ value, update.type = descriptor_type.other value →
        (push_descriptors K stages layout layout_param update).calls = []) := by
  have hcalls : (push_descriptors K stages layout layout_param update).calls =
      descriptor_binds_spec K update.type stages
        ((K.layouts layout).ranges layout_param).visibility
        ((K.layouts layout).ranges layout_param).dx_register_index update.count
        ((List.range update.count).map (fun i => (update.descriptors i).handle)) := by
    unfold push_descriptors descriptor_binds_spec
    simp only [Run.append, List.nil_append,
      resolve_slot_explicit K stages layout layout_param hnull hglobal]
    cases update.type with
    | sampler => simp only [bind_samplers, has_stage_and]
    | shader_resource_view => simp only [bind_shader_resource_views, has_stage_and]
    | constant_buffer => simp only [bind_constant_buffers, has_stage_and]
    | other value => rfl
  refine ⟨hcalls, ?_⟩
  intro value hother
  rw [hcalls, hother]
  rfl

/-- C17 on the sample back-end: range 1 of layout `0x700` is at register 3 and visible
to the vertex and pixel stages; all three stages are requested. -/
theorem push_descriptors_explicit_layout_witness :
    (push_descriptors sample_backend 0x19 0x700 1 sample_sampler_update).calls =
      [NativeCall.VSSetSamplers 3 2 [0x600, 0x601], NativeCall.PSSetSamplers 3 2 [0x600, 0x601]] :=
  ((push_descriptors_explicit_layout sample_backend 0x19 0x700 1 sample_sampler_update
    (by decide) (by decide)).1).trans (by decide)

theorem bind_descriptor_sets_from_calls (K : Backend) (stages layout first : Nat)
    (sets : Nat → Nat) (remaining : Nat) :
    ∀ i, (bind_descriptor_sets_from K stages layout first sets i remaining).calls =
      (List.range' i remaining).flatMap (fun j =>
        (push_descriptors K stages layout ((first + j) % 2 ^ UINT_BITS)
          (K.sets (sets j)).as_update).calls) := by
  induction remaining with
  | zero => intro i; rfl
  | succ n ih =>
    intro i
    simp only [bind_descriptor_sets_from, Run.append, ih (i + 1), List.range'_succ,
      List.flatMap_cons]

theorem bind_descriptor_sets_from_asserts (K : Backend) (stages layout first : Nat)
    (sets : Nat → Nat) (remaining : Nat) :
    ∀ i, (bind_descriptor_sets_from K stages layout first sets i remaining).asserts_hold =
      (List.range' i remaining).all (fun j =>
        (push_descriptors K stages layout ((first + j) % 2 ^ UINT_BITS)
          (K.sets (sets j)).as_update).asserts_hold) := by
  induction remaining with
  | zero => intro i; rfl
  | succ n ih =>
    intro i
    simp only [bind_descriptor_sets_from, Run.append, ih (i + 1), List.range'_succ,
      List.all_cons]

/-- C18. `bind_descriptor_sets(stages, layout, first, count, sets)` issues the
concatenation, for `i = 0 .. count - 1` in order, of the calls of
`push_descriptors(stages, layout, first + i, u_i)`, where `u_i` has a null set, binding
0, array offset 0 and the stored count, type and descriptor array of set `i`, and the
index `first + i` is computed in `uint32_t`; its assertions hold exactly when those of
every such call hold. When `first + count` does not exceed `2 ^ 32` the index is
`first + i` itself, and with `count = 0` nothing is issued. -/
theorem bind_descriptor_sets_is_push_descriptors (K : Backend) (stages layout first count : Nat)
    (sets : Nat → Nat) :
    (bind_descriptor_sets K stages layout first count sets).calls =
        (List.range count).flatMap (fun i =>
          (push_descriptors K stages layout ((first + i) % 2 ^ 32)
            { set := 0, binding := 0, array_offset := 0, count := (K.sets (sets i)).count
              type := (K.sets (sets i)).type
              descriptors := (K.sets (sets i)).descriptors }).calls) ∧
      (bind_descriptor_sets K stages layout first count sets).asserts_hold =
        (List.range count).all (fun i =>
          (push_descriptors K stages layout ((first + i) % 2 ^ 32)
            { set := 0, binding := 0, array_offset := 0, count := (K.sets (sets i)).count
              type := (K.sets (sets i)).type
              descriptors := (K.sets (sets i)).descriptors }).asserts_hold) ∧
      (first + count ≤ 2 ^ 32 →
        (bind_descriptor_sets K stages layout first count sets).calls =
          (List.range count).flatMap (fun i =>
            (push_descriptors K stages layout (first + i)
              { set := 0, binding := 0, array_offset := 0, count := (K.sets (sets i)).count
                type := (K.sets (sets i)).type
                descriptors := (K.sets (sets i)).descriptors }).calls)) ∧
      (count = 0 → (bind_descriptor_sets K stages layout first count sets).calls = []) := by
  have hcalls := bind_descriptor_sets_from_calls K stages layout first sets count 0
  have hasserts := bind_descriptor_sets_from_asserts K stages layout first sets count 0
  rw [← List.range_eq_range'] at hcalls hasserts
  simp only [UINT_BITS, descriptor_set_impl.as_update] at hcalls hasserts
  refine ⟨hcalls, hasserts, ?_, ?_⟩
  · intro hfit
    unfold bind_descriptor_sets
    rw [hcalls]
    apply List.flatMap_congr
    intro i hi
    have hi' := List.mem_range.1 hi
    rw [Nat.mod_eq_of_lt (by omega)]
  · intro h0
    subst h0
    rfl

/-- C18 on the sample back-end: sets `0x500` (samplers) and `0x510` (views) from
parameter index 1 of an explicit layout. -/
theorem bind_descriptor_sets_is_push_descriptors_witness :
    (bind_descriptor_sets sample_backend 0x1 0x700 1 2
        (fun i => if i = 0 then 0x500 else 0x510)).calls =
      [NativeCall.VSSetSamplers 3 2 [0x501, 0x502],
       NativeCall.VSSetShaderResources 4 2 [0x511, 0x512]] :=
  ((bind_descriptor_sets_is_push_descriptors sample_backend 0x1 0x700 1 2
    (fun i => if i = 0 then 0x500 else 0x510)).1).trans (by decide)

/-- C20, as stated, fails for the mask `geometry_shader | stream_output`: it is not a
single stage bit, yet `bind_pipeline` has a `case` label for it, passes its assertions
and issues `GSSetShader`. -/
theorem bind_pipeline_plain_stream_output :
    sample_pipeline_stage.geometry_shader ||| sample_pipeline_stage.stream_output = 0x44 ∧
      (0x44 ∉ [sample_pipeline_stage.vertex_shader, sample_pipeline_stage.geometry_shader,
        sample_pipeline_stage.pixel_shader, sample_pipeline_stage.input_assembler,
        sample_pipeline_stage.rasterizer, sample_pipeline_stage.depth_stencil,
        sample_pipeline_stage.output_merger]) ∧
      0x5000 &&& 1 = 0 ∧
      bind_pipeline sample_pipeline_stage (fun _ => sample_pipeline) 0x44 0x5000 =
        { asserts_hold := true, calls := [NativeCall.GSSetShader 0x5000] } := by
  decide

/-- C20, amended by the eighth `case` label. For a plain (untagged, non-null) pipeline
handle and pairwise different `case` labels, `bind_pipeline(stage_mask, handle)` passes
its assertions and issues exactly one native call when `stage_mask` is one of the
labels: the vertex, geometry or pixel shader bit, the input-assembler, rasterizer,
depth-stencil or output-merger bit (each binding the handle at that bind point), or
`geometry_shader | stream_output` (binding the geometry shader). For every other mask
the assertion fails and no native call is issued. -/
theorem bind_pipeline_plain_handle (B : pipeline_stage) (heap : Nat → pipeline_impl)
    (stage_mask handle : Nat) (hplain : handle &&& 1 = 0) (hnonnull : handle ≠ 0)
    (hlabels : B.case_labels.Nodup) :
    (stage_mask = B.vertex_shader →
      bind_pipeline B heap stage_mask handle =
        { asserts_hold := true, calls := [NativeCall.VSSetShader handle] }) ∧
    (stage_mask = B.geometry_shader ∨ stage_mask = B.geometry_shader ||| B.stream_output →
      bind_pipeline B heap stage_mask handle =
        { asserts_hold := true, calls := [NativeCall.GSSetShader handle] }) ∧
    (stage_mask = B.pixel_shader →
      bind_pipeline B heap stage_mask handle =
        { asserts_hold := true, calls := [NativeCall.PSSetShader handle] }) ∧
    (stage_mask = B.input_assembler →
      bind_pipeline B heap stage_mask handle =
        { asserts_hold := true, calls := [NativeCall.IASetInputLayout handle] }) ∧
    (stage_mask = B.rasterizer →
      bind_pipeline B heap stage_mask handle =
        { asserts_hold := true, calls := [NativeCall.RSSetState handle] }) ∧
    (stage_mask = B.depth_stencil →
      bind_pipeline B heap stage_mask handle =
        { asserts_hold := true, calls := [NativeCall.OMSetDepthStencilState handle 0] }) ∧
    (stage_mask = B.output_merger →
      bind_pipeline B heap stage_mask handle =
        { asserts_hold := true
          calls := [NativeCall.OMSetBlendState handle none D3D10_DEFAULT_SAMPLE_MASK] }) ∧
    (stage_mask ∉ B.case_labels →
      bind_pipeline B heap stage_mask handle = { asserts_hold := false, calls := [] }) ∧
    ((bind_pipeline B heap stage_mask handle).calls.length = 1 ↔ stage_mask ∈ B.case_labels) ∧
    ((bind_pipeline B heap stage_mask handle).asserts_hold = true ↔
      stage_mask ∈ B.case_labels) := by
  have htag : ¬(handle &&& 1 ≠ 0) := by simp [hplain]
  simp only [pipeline_stage.case_labels, List.nodup_cons, List.mem_cons, List.mem_singleton,
    List.not_mem_nil, not_or, or_false, List.nodup_nil, and_true, not_false_eq_true] at hlabels ⊢
  obtain ⟨⟨h12, h13, h14, h15, h16, h17, h18⟩, ⟨h23, h24, h25, h26, h27, h28⟩,
    ⟨h34, h35, h36, h37, h38⟩, ⟨h45, h46, h47, h48⟩, ⟨h56, h57, h58⟩, ⟨h67, h68⟩, h78⟩ := hlabels
  unfold bind_pipeline
  simp only [htag, if_false, hnonnull, ne_eq, not_false_eq_true, decide_True]
  refine ⟨?_, ?_, ?_, ?_, ?_, ?_, ?_, ?_, ?_, ?_⟩
  · intro h; subst h; simp
  · rintro (h | h)
    · subst h; simp [Ne.symm h12]
    · subst h; simp [Ne.symm h13]
  · intro h; subst h; simp [Ne.symm h14, Ne.symm h24, Ne.symm h34]
  · intro h; subst h; simp [Ne.symm h15, Ne.symm h25, Ne.symm h35, Ne.symm h45]
  · intro h; subst h; simp [Ne.symm h16, Ne.symm h26, Ne.symm h36, Ne.symm h46, Ne.symm h56]
  · intro h; subst h
    simp [Ne.symm h17, Ne.symm h27, Ne.symm h37, Ne.symm h47, Ne.symm h57, Ne.symm h67]
  · intro h; subst h
    simp [Ne.symm h18, Ne.symm h28, Ne.symm h38, Ne.symm h48, Ne.symm h58, Ne.symm h68,
      Ne.symm h78]
  · rintro ⟨n1, n2, n3, n4, n5, n6, n7, n8⟩
    simp [n1, n2, n3, n4, n5, n6, n7, n8]
  ·
    by_cases c1 : stage_mask = B.vertex_shader
    · rw [if_pos c1]
      exact ⟨fun _ => by simp [c1], fun _ => rfl⟩
    rw [if_neg c1]
    by_cases c2 : stage_mask = B.geometry_shader ∨ stage_mask = B.geometry_shader ||| B.stream_output
    · rw [if_pos c2]
      refine ⟨fun _ => ?_, fun _ => rfl⟩
      rcases c2 with h | h
      · simp [h]
      · simp [h]
    rw [if_neg c2]
    by_cases c3 : stage_mask = B.pixel_shader
    · rw [if_pos c3]
      exact ⟨fun _ => by simp [c3], fun _ => rfl⟩
    rw [if_neg c3]
    by_cases c4 : stage_mask = B.input_assembler
    · rw [if_pos c4]
      exact ⟨fun _ => by simp [c4], fun _ => rfl⟩
    rw [if_neg c4]
    by_cases c5 : stage_mask = B.rasterizer
    · rw [if_pos c5]
      exact ⟨fun _ => by simp [c5], fun _ => rfl⟩
    rw [if_neg c5]
    by_cases c6 : stage_mask = B.depth_stencil
    · rw [if_pos c6]
      exact ⟨fun _ => by simp [c6], fun _ => rfl⟩
    rw [if_neg c6]
    by_cases c7 : stage_mask = B.output_merger
    · rw [if_pos c7]
      exact ⟨fun _ => by simp [c7], fun _ => rfl⟩
    rw [if_neg c7]
    simp only [not_or] at c2
    simp [c1, c2.1, c2.2, c3, c4, c5, c6, c7]
  ·
    by_cases c1 : stage_mask = B.vertex_shader
    · rw [if_pos c1]
      exact ⟨fun _ => by simp [c1], fun _ => rfl⟩
    rw [if_neg c1]
    by_cases c2 : stage_mask = B.geometry_shader ∨ stage_mask = B.geometry_shader ||| B.stream_output
    · rw [if_pos c2]
      refine ⟨fun _ => ?_, fun _ => rfl⟩
      rcases c2 with h | h
      · simp [h]
      · simp [h]
    rw [if_neg c2]
    by_cases c3 : stage_mask = B.pixel_shader
    · rw [if_pos c3]
      exact ⟨fun _ => by simp [c3], fun _ => rfl⟩
    rw [if_neg c3]
    by_cases c4 : stage_mask = B.input_assembler
    · rw [if_pos c4]
      exact ⟨fun _ => by simp [c4], fun _ => rfl⟩
    rw [if_neg c4]
    by_cases c5 : stage_mask = B.rasterizer
    · rw [if_pos c5]
      exact ⟨fun _ => by simp [c5], fun _ => rfl⟩
    rw [if_neg c5]
    by_cases c6 : stage_mask = B.depth_stencil
    · rw [if_pos c6]
      exact ⟨fun _ => by simp [c6], fun _ => rfl⟩
    rw [if_neg c6]
    by_cases c7 : stage_mask = B.output_merger
    · rw [if_pos c7]
      exact ⟨fun _ => by simp [c7], fun _ => rfl⟩
    rw [if_neg c7]
    simp only [not_or] at c2
    simp [c1, c2.1, c2.2, c3, c4, c5, c6, c7]

/-- C20 amended, at the sample stage values: the pixel-shader bit binds the pixel
shader, the mask `0x88` (vertex and pixel shader) fails the assertion. -/
theorem bind_pipeline_plain_handle_witness :
    bind_pipeline sample_pipeline_stage (fun _ => sample_pipeline) 0x80 0x5000 =
        { asserts_hold := true, calls := [NativeCall.PSSetShader 0x5000] } ∧
      bind_pipeline sample_pipeline_stage (fun _ => sample_pipeline) 0x88 0x5000 =
        { asserts_hold := false, calls := [] } :=
  ⟨(bind_pipeline_plain_handle sample_pipeline_stage (fun _ => sample_pipeline) 0x80 0x5000
      (by decide) (by decide) (by decide)).2.2.1 rfl,
   (bind_pipeline_plain_handle sample_pipeline_stage (fun _ => sample_pipeline) 0x88 0x5000
      (by decide) (by decide) (by decide)).2.2.2.2.2.2.2.1 (by decide)⟩

/-- C22, as stated, fails: `src_offset = 2 ^ 32 - 1` and `size = 1` satisfy the asserted
bounds, yet the 32-bit right edge of the source box wraps to 0, below the left edge. -/
theorem copy_buffer_region_box_wraps :
    copy_buffer_region (fun _ => 0) 0x1000 4294967295 0x2000 0 1 =
      { asserts_hold := true
        calls := [NativeCall.CopySubresourceRegion 0x2000 0 0 0 0 0x1000 0
          [4294967295, 0, 0, 0, 1, 1]] } := by
  decide

/-- C22, amended by the bound on the sum. For a `copy_buffer_region` call whose
arguments satisfy the asserted bounds (non-null handles; `src_offset`, `dst_offset` and
the resolved size, which is the source's `ByteWidth` when `size` is `UINT64_MAX`, each
at most `2 ^ 32 - 1`), the one native call copies into `dst` at `dst_offset` from a
source box with left edge `src_offset` and right edge `src_offset + size` modulo
`2 ^ 32`. When `src_offset + size` is at most `2 ^ 32 - 1` the right edge is exactly
`src_offset + size` and the box spans exactly `size` bytes; otherwise the right edge has
wrapped and lies below the left edge. -/
theorem copy_buffer_region_box (byte_width : Nat → Nat) (src src_offset dst dst_offset size : Nat)
    (hassert : (copy_buffer_region byte_width src src_offset dst dst_offset size).asserts_hold =
      true) :
    (copy_buffer_region byte_width src src_offset dst dst_offset size).calls =
        [NativeCall.CopySubresourceRegion dst 0 dst_offset 0 0 src 0
          [src_offset, 0, 0,
            (src_offset + (if size = UINT64_MAX then byte_width src else size)) % 2 ^ 32, 1, 1]] ∧
      (src_offset + (if size = UINT64_MAX then byte_width src else size) ≤ 2 ^ 32 - 1 →
        (src_offset + (if size = UINT64_MAX then byte_width src else size)) % 2 ^ 32 =
            src_offset + (if size = UINT64_MAX then byte_width src else size) ∧
          (src_offset + (if size = UINT64_MAX then byte_width src else size)) % 2 ^ 32 -
              src_offset =
            (if size = UINT64_MAX then byte_width src else size)) ∧
      (2 ^ 32 - 1 < src_offset + (if size = UINT64_MAX then byte_width src else size) →
        (src_offset + (if size = UINT64_MAX then byte_width src else size)) % 2 ^ 32 <
          src_offset) := by
  unfold copy_buffer_region at hassert ⊢
  simp only [Bool.and_eq_true, decide_eq_true_eq, UINT_BITS] at hassert
  obtain ⟨_, hs, hd, hz⟩ := hassert
  generalize (if size = UINT64_MAX then byte_width src else size) = n at hz ⊢
  simp only [UINT_BITS]
  refine ⟨?_, ?_, ?_⟩
  · have h1 : src_offset % 2 ^ 32 = src_offset := Nat.mod_eq_of_lt (by omega)
    have h2 : dst_offset % 2 ^ 32 = dst_offset := Nat.mod_eq_of_lt (by omega)
    have h3 : (src_offset + n) % 2 ^ 64 = src_offset + n := Nat.mod_eq_of_lt (by omega)
    rw [h1, h2, h3]
  · intro hsum
    omega
  · intro hsum
    omega

/-- C22 amended, at a concrete call: 16 bytes from offset 32. -/
theorem copy_buffer_region_box_witness :
    (copy_buffer_region (fun _ => 256) 0x1000 32 0x2000 0 16).calls =
      [NativeCall.CopySubresourceRegion 0x2000 0 0 0 0 0x1000 0 [32, 0, 0, 48, 1, 1]] :=
  ((copy_buffer_region_box (fun _ => 256) 0x1000 32 0x2000 0 16 (by decide)).1).trans (by decide)

end d3d10

/-! ### The add-on list -/

theorem find_handle_rev_get (module : Nat) (l : List addon_info) (idx : Nat)
    (h : find_handle_rev module l = some idx) :
    ∃ info, l[idx]? = some info ∧ info.handle = module := by
  induction l generalizing idx with
  | nil => simp [find_handle_rev] at h
  | cons r rs ih =>
    unfold find_handle_rev at h
    cases hrec : find_handle_rev module rs with
    | some j =>
      rw [hrec] at h
      simp only [Option.some.injEq] at h
      subst h
      simpa using ih j hrec
    | none =>
      rw [hrec] at h
      by_cases hr : r.handle = module
      · simp only [hr, if_true, Option.some.injEq] at h
        subst h
        exact ⟨r, by simp, hr⟩
      · simp [hr] at h

theorem find_handle_rev_none (module : Nat) (l : List addon_info) :
    find_handle_rev module l = none ↔ ∀ info ∈ l, info.handle ≠ module := by
  induction l with
  | nil => simp [find_handle_rev]
  | cons r rs ih =>
    unfold find_handle_rev
    cases hrec : find_handle_rev module rs with
    | some j =>
      simp only [false_iff, reduceCtorEq]
      intro hall
      obtain ⟨info, hget, hh⟩ := find_handle_rev_get module rs j hrec
      exact hall info (List.mem_cons_of_mem _ (List.getElem?_mem hget)) hh
    | none =>
      have ih1 := ih.1 hrec
      by_cases hr : r.handle = module
      · simp [hr]
      · simp only [hr, if_false, true_iff]
        intro info hinfo
        rcases List.mem_cons.1 hinfo with h | h
        · subst h; exact hr
        · exact ih1 info h

theorem find_handle_rev_isSome (module : Nat) (l : List addon_info) :
    (find_handle_rev module l).isSome = true ↔ ∃ info ∈ l, info.handle = module := by
  cases h : find_handle_rev module l with
  | none =>
    have := (find_handle_rev_none module l).1 h
    simp only [Option.isSome_none, Bool.false_eq_true, false_iff, not_exists, not_and]
    exact this
  | some idx =>
    obtain ⟨info, hget, hh⟩ := find_handle_rev_get module l idx h
    simp only [Option.isSome_some, true_iff]
    exact ⟨info, List.getElem?_mem hget, hh⟩

theorem resolve_addon_info_fresh (E : Host) (module : Nat) :
    (resolve_addon_info E module).handle = module ∧
      (resolve_addon_info E module).event_callbacks = [] ∧
      (resolve_addon_info E module).overlay_callbacks = [] ∧
      (resolve_addon_info E module).loaded = false ∧
      (resolve_addon_info E module).settings_overlay_callback = 0 := by
  unfold resolve_addon_info
  simp only []
  repeat' split
  all_goals simp

/-- C4, as stated, fails: with host API version 1, the requested version 2 lies in
the same compatibility epoch (both divide to 0) and is still rejected by the version
check, so a module that passes the module-handle check is turned away because of
its version. -/
theorem api_version_same_epoch_rejected :
    2 / 10000 = sample_host.RESHADE_API_VERSION / 10000 ∧
      module_rejected sample_host Registry.empty 0x2000 = false ∧
      api_version_rejected sample_host 2 = true ∧
      (ReShadeRegisterAddon sample_host Registry.empty 0x2000 2).1 = false ∧
      (ReShadeRegisterAddon sample_host Registry.empty 0x2000 1).1 = true := by
  decide

/-- C4, amended. An `api_version` inside the host's compatibility epoch passes the
version check exactly when it is non-zero and not greater than `RESHADE_API_VERSION`;
for such a version and a module that passes the module-handle check, the call goes
on past the version check and its outcome is the one obtained with the host's own
version. -/
theorem api_version_in_epoch_accepted_iff (E : Host) (api_version : Nat)
    (hepoch : api_version / 10000 = E.RESHADE_API_VERSION / 10000) :
    (api_version_rejected E api_version = false ↔
        api_version ≠ 0 ∧ api_version ≤ E.RESHADE_API_VERSION) ∧
      (api_version ≠ 0 → api_version ≤ E.RESHADE_API_VERSION →
        ∀ (s : Registry) (module : Nat), module_rejected E s module = false →
          ReShadeRegisterAddon E s module api_version =
            ReShadeRegisterAddon E s module E.RESHADE_API_VERSION) := by
  have hiff : api_version_rejected E api_version = false ↔
      api_version ≠ 0 ∧ api_version ≤ E.RESHADE_API_VERSION := by
    unfold api_version_rejected
    simp only [Bool.or_eq_false_iff, decide_eq_false_iff_not, not_not, hepoch, Nat.not_lt, ne_eq,
      and_true, gt_iff_lt]
  refine ⟨hiff, ?_⟩
  intro h0 hle s module hmod
  have h1 : api_version_rejected E api_version = false := hiff.2 ⟨h0, hle⟩
  have h2 : api_version_rejected E E.RESHADE_API_VERSION = false := by
    unfold api_version_rejected
    have : E.RESHADE_API_VERSION ≠ 0 := by omega
    simp [this]
  unfold ReShadeRegisterAddon
  simp only [hmod, h1, h2]

/-- C4 amended, at host version 1: version 1 is accepted. -/
theorem api_version_in_epoch_accepted_iff_witness :
    1 / 10000 = sample_host.RESHADE_API_VERSION / 10000 ∧
      api_version_rejected sample_host 1 = false :=
  ⟨by decide,
    ((api_version_in_epoch_accepted_iff sample_host 1 (by decide)).1).2 ⟨by decide, by decide⟩⟩

/-- C5. `ReShadeRegisterAddon` returns `false` and leaves the registry (the add-on
list and every per-kind callback list) as it was whenever the module is null, is the
host's own module, is already registered (`find_addon` finds a record for it; this is
the case when the handle names its own module and a record holds it), or the
`api_version` is zero or lies in another compatibility epoch than
`RESHADE_API_VERSION`. -/
theorem register_addon_rejects_unchanged (E : Host) (s : Registry) (module api_version : Nat)
    (h : module = 0 ∨ module = E.g_module_handle ∨ (find_addon E s module).isSome = true ∨
      (E.GetModuleHandleExW module = some module ∧
        ∃ info ∈ s.addon_loaded_info, info.handle = module) ∨
      api_version = 0 ∨ api_version / 10000 ≠ E.RESHADE_API_VERSION / 10000) :
    ReShadeRegisterAddon E s module api_version = (false, s) := by
  unfold ReShadeRegisterAddon
  by_cases hm : module_rejected E s module = true
  · simp [hm]
  · have hm2 : module_rejected E s module = false := by simpa using hm
    have hv : api_version_rejected E api_version = true := by
      unfold module_rejected at hm2
      simp only [Bool.or_eq_false_iff, decide_eq_false_iff_not] at hm2
      obtain ⟨⟨h0, hg⟩, hf⟩ := hm2
      rcases h with h | h | h | h | h | h
      · exact absurd h h0
      · exact absurd h hg
      · rw [hf] at h; exact absurd h (by simp)
      · exfalso
        obtain ⟨hmod, hex⟩ := h
        have : (find_addon E s module).isSome = true := by
          unfold find_addon
          simp only [h0, if_false, hmod]
          exact (find_handle_rev_isSome module _).2 hex
        rw [hf] at this
        exact absurd this (by simp)
      · simp [api_version_rejected, h]
      · simp [api_version_rejected, h]
    simp [hm2, hv]

/-- C5 at concrete inputs: the null module, and version zero. -/
theorem register_addon_rejects_unchanged_witness :
    ReShadeRegisterAddon sample_host Registry.empty 0 1 = (false, Registry.empty) ∧
      ReShadeRegisterAddon sample_host Registry.empty 0x2000 0 = (false, Registry.empty) :=
  ⟨register_addon_rejects_unchanged sample_host Registry.empty 0 1 (Or.inl rfl),
   register_addon_rejects_unchanged sample_host Registry.empty 0x2000 0
     (Or.inr (Or.inr (Or.inr (Or.inr (Or.inl rfl)))))⟩

/-- C6. When the add-on list already holds a record whose name is the name resolved
for `module`, a `ReShadeRegisterAddon` call for `module` that passes the module and
version checks returns `false` and leaves the whole registry as it was: the add-on
list (so the first record with its handle, metadata and owned callbacks) and every
per-kind callback list. -/
theorem register_addon_same_name_rejected (E : Host) (s : Registry) (module api_version : Nat)
    (hmod : module_rejected E s module = false)
    (hver : api_version_rejected E api_version = false)
    (hname : ∃ info ∈ s.addon_loaded_info, info.name = (resolve_addon_info E module).name) :
    ReShadeRegisterAddon E s module api_version = (false, s) := by
  unfold ReShadeRegisterAddon
  have hany : s.addon_loaded_info.any
      (fun existing_info => decide (existing_info.name = (resolve_addon_info E module).name)) = true := by
    rw [List.any_eq_true]
    obtain ⟨info, hin, hn⟩ := hname
    exact ⟨info, hin, by simpa using hn⟩
  simp [hmod, hver, hany]

/-- C7. When a `ReShadeRegisterAddon` call passes the module, version and unique-name
checks and the resolved name is an entry of the configured `DisabledAddons` list, it
returns `false`, the add-on list afterwards is the old one followed by exactly one
record, which carries the resolved name, a null handle, no owned callbacks or
overlays and is not marked loaded, and the per-kind callback lists are as before. -/
theorem register_addon_disabled_record (E : Host) (s : Registry) (module api_version : Nat)
    (disabled_addons : List String)
    (hmod : module_rejected E s module = false)
    (hver : api_version_rejected E api_version = false)
    (hname : ∀ info ∈ s.addon_loaded_info, info.name ≠ (resolve_addon_info E module).name)
    (hcfg : E.DisabledAddons = some disabled_addons)
    (hdis : (resolve_addon_info E module).name ∈ disabled_addons) :
    (ReShadeRegisterAddon E s module api_version).1 = false ∧
      (ReShadeRegisterAddon E s module api_version).2.addon_event_list = s.addon_event_list ∧
      ∃ info : addon_info,
        (ReShadeRegisterAddon E s module api_version).2.addon_loaded_info =
            s.addon_loaded_info ++ [info] ∧
          info = { resolve_addon_info E module with handle := 0 } ∧
          info.name = (resolve_addon_info E module).name ∧ info.handle = 0 ∧
          info.event_callbacks = [] ∧ info.overlay_callbacks = [] ∧ info.loaded = false := by
  have hany : s.addon_loaded_info.any
      (fun existing_info => decide (existing_info.name = (resolve_addon_info E module).name)) = false := by
    rw [List.any_eq_false]
    intro info hin
    simpa using hname info hin
  obtain ⟨_, hev, hov, hl, _⟩ := resolve_addon_info_fresh E module
  have hres : ReShadeRegisterAddon E s module api_version =
      (false, { s with addon_loaded_info :=
        s.addon_loaded_info ++ [{ resolve_addon_info E module with handle := 0 }] }) := by
    unfold ReShadeRegisterAddon
    simp only [hmod, hver, hany, hcfg, hdis, if_true, Bool.false_eq_true, if_false]
  rw [hres]
  exact ⟨rfl, rfl, _, rfl, rfl, rfl, rfl, hev, hov, hl⟩

/-- C7 at a concrete module whose resolved name `off` is on the disabled list. -/
theorem register_addon_disabled_record_witness :
    (ReShadeRegisterAddon sample_host Registry.empty 0x3000 1).1 = false ∧
      (ReShadeRegisterAddon sample_host Registry.empty 0x3000 1).2.addon_loaded_info =
        [{ name := "off", file := "addon.addon", version := "1.0.0.0" }] :=
  ⟨(register_addon_disabled_record sample_host Registry.empty 0x3000 1 ["off"] (by decide)
      (by decide) (by decide) rfl (by decide)).1,
   by decide⟩

/-- C6 at a concrete registry: module `0x4000` is registered under the name `same`,
then module `0x5000`, whose name resolves to `same` as well, is turned away. -/
theorem register_addon_same_name_rejected_witness :
    (ReShadeRegisterAddon sample_host
        (ReShadeRegisterAddon sample_host Registry.empty 0x4000 1).2 0x5000 1).1 = false ∧
      (ReShadeRegisterAddon sample_host
        (ReShadeRegisterAddon sample_host Registry.empty 0x4000 1).2 0x5000 1).2.addon_loaded_info =
        [{ name := "same", file := "addon.addon", version := "1.0.0.0", handle := 0x4000 }] :=
  ⟨congrArg Prod.fst (register_addon_same_name_rejected sample_host
      (ReShadeRegisterAddon sample_host Registry.empty 0x4000 1).2 0x5000 1 (by decide) (by decide)
      (by decide)),
   (congrArg (fun r => r.2.addon_loaded_info) (register_addon_same_name_rejected sample_host
      (ReShadeRegisterAddon sample_host Registry.empty 0x4000 1).2 0x5000 1 (by decide) (by decide)
      (by decide))).trans (by decide)⟩

theorem getElem?_modify_at {α : Type} (f : α → α) (idx : Nat) (l : List α) (j : Nat) :
    (modify_at f idx l)[j]? = if j = idx then (l[j]?).map f else l[j]? := by
  induction l generalizing idx j with
  | nil => cases idx <;> simp [modify_at]
  | cons x xs ih =>
    cases idx with
    | zero =>
      cases j with
      | zero => simp [modify_at]
      | succ j => simp [modify_at]
    | succ idx =>
      cases j with
      | zero => simp [modify_at]
      | succ j => simp [modify_at, ih]

theorem length_modify_at {α : Type} (f : α → α) (idx : Nat) (l : List α) :
    (modify_at f idx l).length = l.length := by
  induction l generalizing idx with
  | nil => cases idx <;> simp [modify_at]
  | cons x xs ih => cases idx <;> simp [modify_at, ih]

theorem find_addon_get (E : Host) (s : Registry) (address idx : Nat)
    (h : find_addon E s address = some idx) :
    ∃ info, s.addon_loaded_info[idx]? = some info ∧
      E.GetModuleHandleExW address = some info.handle := by
  unfold find_addon at h
  by_cases h0 : address = 0
  · simp [h0] at h
  · simp only [h0, if_false] at h
    cases hm : E.GetModuleHandleExW address with
    | none => simp [hm] at h
    | some module =>
      simp only [hm] at h
      obtain ⟨info, hget, hh⟩ := find_handle_rev_get module _ idx h
      exact ⟨info, hget, by rw [hh]⟩

/-- C8. In a build with `RESHADE_ADDON_LITE`, let `callback` belong to a registered
add-on (record `info` at position `idx`) that is not the built-in module. A
`ReShadeRegisterEvent(ev, callback)` with `ev` strictly after `destroy_effect_runtime`
and strictly before `present` leaves the registry as it was. With any other event
kind (a value below `addon_event::max`) the callback is appended to the list of that
kind and the pair is appended to the owned-callback list of `info`, every other
per-kind list and every other record staying as they were. -/
theorem register_event_lite_subset (E : Host) (s : Registry) (ev callback idx : Nat)
    (info : addon_info)
    (hlite : E.RESHADE_ADDON_LITE = true)
    (hfind : find_addon E s callback = some idx)
    (hget : s.addon_loaded_info[idx]? = some info)
    (hbuiltin : info.handle ≠ E.g_module_handle) :
    ((E.destroy_effect_runtime < ev ∧ ev < E.present) → ReShadeRegisterEvent E s ev callback = s) ∧
      (¬(E.destroy_effect_runtime < ev ∧ ev < E.present) → ev < E.addon_event_max →
        (ReShadeRegisterEvent E s ev callback).addon_event_list ev =
            s.addon_event_list ev ++ [callback] ∧
          (∀ other, other ≠ ev →
            (ReShadeRegisterEvent E s ev callback).addon_event_list other =
              s.addon_event_list other) ∧
          (ReShadeRegisterEvent E s ev callback).addon_loaded_info[idx]? =
            some { info with event_callbacks := info.event_callbacks ++ [(ev, callback)] } ∧
          (∀ j, j ≠ idx →
            (ReShadeRegisterEvent E s ev callback).addon_loaded_info[j]? =
              s.addon_loaded_info[j]?) ∧
          (ReShadeRegisterEvent E s ev callback).addon_loaded_info.length =
            s.addon_loaded_info.length) := by
  have hh : handle_at s idx = info.handle := by simp [handle_at, hget]
  constructor
  · intro hin
    unfold ReShadeRegisterEvent
    by_cases hmax : ev ≥ E.addon_event_max
    · simp [hmax]
    · have hb : lite_blocked E (handle_at s idx) ev = true := by
        simp [lite_blocked, hlite, hh, hbuiltin, hin.1, hin.2]
      simp [hmax, hfind, hb]
  · intro hout hmax
    have hb : lite_blocked E (handle_at s idx) ev = false := by
      unfold lite_blocked
      rw [Bool.and_eq_false_iff]
      right
      rw [Bool.and_eq_false_iff]
      by_cases h1 : E.destroy_effect_runtime < ev
      · right
        have : ¬ ev < E.present := fun h2 => hout ⟨h1, h2⟩
        simpa using this
      · left
        simpa using h1
    have hres : ReShadeRegisterEvent E s ev callback =
        { addon_event_list :=
            Function.update s.addon_event_list ev (s.addon_event_list ev ++ [callback])
          addon_loaded_info :=
            modify_at (fun info => { info with event_callbacks := info.event_callbacks ++ [(ev, callback)] })
              idx s.addon_loaded_info } := by
      unfold ReShadeRegisterEvent
      simp [Nat.not_le.2 hmax, hfind, hb]
    rw [hres]
    refine ⟨by simp, ?_, ?_, ?_, ?_⟩
    · intro other hne
      simp [Function.update, hne]
    · simp [getElem?_modify_at, hget]
    · intro j hj
      simp [getElem?_modify_at, hj]
    · simp [length_modify_at]

/-- C8 at a concrete add-on: `init_sampler` (11) is refused, `present` (74) is taken. -/
theorem register_event_lite_subset_witness :
    ReShadeRegisterEvent sample_host_lite
        (ReShadeRegisterAddon sample_host_lite Registry.empty 0x2000 1).2 11 0x2010 =
      (ReShadeRegisterAddon sample_host_lite Registry.empty 0x2000 1).2 ∧
    (ReShadeRegisterEvent sample_host_lite
        (ReShadeRegisterAddon sample_host_lite Registry.empty 0x2000 1).2 74 0x2010).addon_event_list 74 =
      [0x2010] :=
  ⟨(register_event_lite_subset sample_host_lite
      (ReShadeRegisterAddon sample_host_lite Registry.empty 0x2000 1).2 11 0x2010 0
      { name := "addon", file := "addon.addon", version := "1.0.0.0", handle := 0x2000 }
      rfl (by decide) (by decide) (by decide)).1 (by decide),
   ((register_event_lite_subset sample_host_lite
      (ReShadeRegisterAddon sample_host_lite Registry.empty 0x2000 1).2 74 0x2010 0
      { name := "addon", file := "addon.addon", version := "1.0.0.0", handle := 0x2000 }
      rfl (by decide) (by decide) (by decide)).2 (by decide) (by decide)).1.trans (by decide)⟩

theorem load_addons_first (E : Host) (m : Manager) (h : m.s_reference_count = 0) :
    (load_addons E m).registry = load_addons_body E m.registry ∧
      (load_addons E m).performed = m.performed ++ [lifecycle_action.real_load] ∧
      (load_addons E m).s_reference_count = 1 := by
  unfold load_addons
  simp [h, ULONG_BITS]

theorem load_addons_again (E : Host) (m : Manager) (h : m.s_reference_count ≠ 0) :
    load_addons E m = { m with s_reference_count := (m.s_reference_count + 1) % 2 ^ ULONG_BITS } := by
  unfold load_addons
  simp [h]

theorem unload_addons_early (E : Host) (m : Manager)
    (h : (m.s_reference_count + 2 ^ ULONG_BITS - 1) % 2 ^ ULONG_BITS ≠ 0) :
    unload_addons E m =
      { m with s_reference_count := (m.s_reference_count + 2 ^ ULONG_BITS - 1) % 2 ^ ULONG_BITS } := by
  unfold unload_addons
  simp [h]

theorem unload_addons_last (E : Host) (m : Manager)
    (h : (m.s_reference_count + 2 ^ ULONG_BITS - 1) % 2 ^ ULONG_BITS = 0) :
    (unload_addons E m).registry = unload_addons_body E m.registry ∧
      (unload_addons E m).performed = m.performed ++ [lifecycle_action.real_unload] ∧
      (unload_addons E m).s_reference_count = 0 := by
  unfold unload_addons
  simp [h]

theorem load_addons_iterate (E : Host) (m : Manager) (h : m.s_reference_count = 0) (k : Nat)
    (hk1 : 1 ≤ k) (hk : k ≤ 2 ^ ULONG_BITS) :
    ((load_addons E)^[k] m).registry = load_addons_body E m.registry ∧
      ((load_addons E)^[k] m).performed = m.performed ++ [lifecycle_action.real_load] ∧
      ((load_addons E)^[k] m).s_reference_count = k % 2 ^ ULONG_BITS := by
  induction k with
  | zero => omega
  | succ k ih =>
    rw [Function.iterate_succ_apply']
    by_cases hk0 : k = 0
    · subst hk0
      simp only [Function.iterate_zero, id_eq]
      obtain ⟨h1, h2, h3⟩ := load_addons_first E m h
      exact ⟨h1, h2, by rw [h3]; simp [ULONG_BITS]⟩
    · obtain ⟨i1, i2, i3⟩ := ih (by omega) (by omega)
      have hlt : k % 2 ^ ULONG_BITS = k := Nat.mod_eq_of_lt (by omega)
      have hne : ((load_addons E)^[k] m).s_reference_count ≠ 0 := by
        rw [i3, hlt]; exact hk0
      rw [load_addons_again E _ hne]
      simp only [i1, i2, i3, hlt]
      trivial

theorem unload_addons_iterate (E : Host) (m : Manager) (N : Nat) (hN : N ≤ 2 ^ ULONG_BITS)
    (hc : m.s_reference_count = N % 2 ^ ULONG_BITS) (j : Nat) (hj : j < N) :
    ((unload_addons E)^[j] m).registry = m.registry ∧
      ((unload_addons E)^[j] m).performed = m.performed ∧
      ((unload_addons E)^[j] m).s_reference_count = (N - j) % 2 ^ ULONG_BITS := by
  induction j with
  | zero => simp [hc]
  | succ j ih =>
    rw [Function.iterate_succ_apply']
    obtain ⟨i1, i2, i3⟩ := ih (by omega)
    have hstep : (((unload_addons E)^[j] m).s_reference_count + 2 ^ ULONG_BITS - 1) % 2 ^ ULONG_BITS =
        (N - (j + 1)) % 2 ^ ULONG_BITS := by
      rw [i3]
      simp only [ULONG_BITS] at hN ⊢
      omega
    have hne : (((unload_addons E)^[j] m).s_reference_count + 2 ^ ULONG_BITS - 1) % 2 ^ ULONG_BITS ≠ 0 := by
      rw [hstep]
      simp only [ULONG_BITS] at hN ⊢
      omega
    rw [unload_addons_early E _ hne]
    simp only [i1, i2, hstep]
    trivial

/-- C3, as stated for every `N`, fails once the 32-bit `s_reference_count` wraps:
after `2 ^ 32` calls of `load_addons` the counter is zero again, so call number
`2 ^ 32 + 1` runs the real load a second time. -/
theorem load_addons_wraps_second_real_load :
    ((load_addons sample_host)^[4294967297] Manager.initial).performed =
      [lifecycle_action.real_load, lifecycle_action.real_load] := by
  have hsplit : (4294967297 : Nat) = 4294967296 + 1 := rfl
  rw [hsplit, Function.iterate_succ_apply']
  obtain ⟨_, h2, h3⟩ := load_addons_iterate sample_host Manager.initial rfl 4294967296
    (by decide) (by simp [ULONG_BITS])
  have h0 : ((load_addons sample_host)^[4294967296] Manager.initial).s_reference_count = 0 := by
    rw [h3]; simp [ULONG_BITS]
  rw [(load_addons_first sample_host _ h0).2.1, h2]
  rfl

/-- C3, amended to `1 ≤ N ≤ 2 ^ 32` (the range of the `unsigned long` counter).
Starting from reference count zero: after each of the first `N` calls of `load_addons`
the registry is the one the real load produced from the initial registry and the
real load has run once (on the first call); after `j < N` further calls of
`unload_addons` nothing but the counter has changed and the counter is `N - j`
(modulo `2 ^ 32`); the `N`-th `unload_addons` runs the real unload, once, and leaves
the counter at zero. -/
theorem load_unload_reference_counted (E : Host) (m : Manager) (N : Nat)
    (h0 : m.s_reference_count = 0) (hN1 : 1 ≤ N) (hN : N ≤ 2 ^ ULONG_BITS) :
    (∀ k, 1 ≤ k → k ≤ N →
      ((load_addons E)^[k] m).registry = load_addons_body E m.registry ∧
        ((load_addons E)^[k] m).performed = m.performed ++ [lifecycle_action.real_load] ∧
        ((load_addons E)^[k] m).s_reference_count = k % 2 ^ ULONG_BITS) ∧
    (∀ j, j < N →
      ((unload_addons E)^[j] ((load_addons E)^[N] m)).registry = load_addons_body E m.registry ∧
        ((unload_addons E)^[j] ((load_addons E)^[N] m)).performed =
          m.performed ++ [lifecycle_action.real_load] ∧
        ((unload_addons E)^[j] ((load_addons E)^[N] m)).s_reference_count =
          (N - j) % 2 ^ ULONG_BITS) ∧
    ((unload_addons E)^[N] ((load_addons E)^[N] m)).registry =
        unload_addons_body E (load_addons_body E m.registry) ∧
      ((unload_addons E)^[N] ((load_addons E)^[N] m)).performed =
        m.performed ++ [lifecycle_action.real_load, lifecycle_action.real_unload] ∧
      ((unload_addons E)^[N] ((load_addons E)^[N] m)).s_reference_count = 0 := by
  obtain ⟨l1, l2, l3⟩ := load_addons_iterate E m h0 N hN1 hN
  have hun : ∀ j, j < N →
      ((unload_addons E)^[j] ((load_addons E)^[N] m)).registry = load_addons_body E m.registry ∧
        ((unload_addons E)^[j] ((load_addons E)^[N] m)).performed =
          m.performed ++ [lifecycle_action.real_load] ∧
        ((unload_addons E)^[j] ((load_addons E)^[N] m)).s_reference_count =
          (N - j) % 2 ^ ULONG_BITS := by
    intro j hj
    obtain ⟨u1, u2, u3⟩ := unload_addons_iterate E ((load_addons E)^[N] m) N hN l3 j hj
    exact ⟨u1.trans l1, u2.trans l2, u3⟩
  refine ⟨fun k hk1 hk => load_addons_iterate E m h0 k hk1 (by omega), hun, ?_⟩
  obtain ⟨N', rfl⟩ : ∃ N', N = N' + 1 := ⟨N - 1, by omega⟩
  obtain ⟨u1, u2, u3⟩ := hun N' (by omega)
  rw [Function.iterate_succ_apply' (unload_addons E) N']
  have hlast : (((unload_addons E)^[N'] ((load_addons E)^[N' + 1] m)).s_reference_count +
      2 ^ ULONG_BITS - 1) % 2 ^ ULONG_BITS = 0 := by
    rw [u3]
    simp only [ULONG_BITS] at hN ⊢
    omega
  obtain ⟨f1, f2, f3⟩ := unload_addons_last E _ hlast
  refine ⟨by rw [f1, u1], ?_, f3⟩
  rw [f2, u2]
  simp

/-- C3 amended, at `N = 2` from start-up. -/
theorem load_unload_reference_counted_witness :
    ((unload_addons sample_host)^[2] ((load_addons sample_host)^[2] Manager.initial)).performed =
        [lifecycle_action.real_load, lifecycle_action.real_unload] ∧
      ((unload_addons sample_host)^[2]
        ((load_addons sample_host)^[2] Manager.initial)).s_reference_count = 0 :=
  ⟨(load_unload_reference_counted sample_host Manager.initial 2 rfl (by decide)
      (by decide)).2.2.2.1,
   (load_unload_reference_counted sample_host Manager.initial 2 rfl (by decide)
      (by decide)).2.2.2.2⟩

/-! ### Lists: writing through a position, erasing a position -/

theorem mem_modify_at {α : Type} (f : α → α) (idx : Nat) (l : List α) (x : α)
    (h : x ∈ modify_at f idx l) :
    (∃ j, j ≠ idx ∧ l[j]? = some x) ∨ (∃ y, l[idx]? = some y ∧ x = f y) := by
  obtain ⟨n, hn⟩ := List.mem_iff_getElem?.1 h
  rw [getElem?_modify_at] at hn
  by_cases hni : n = idx
  · subst hni
    simp only [if_true, Option.map_eq_some'] at hn
    obtain ⟨y, hy, hxy⟩ := hn
    exact Or.inr ⟨y, hy, hxy.symm⟩
  · simp only [hni, if_false] at hn
    exact Or.inl ⟨n, hni, hn⟩

theorem sum_map_modify_at {α : Type} (f : α → α) (g : α → Nat) (idx : Nat) (l : List α) (x : α)
    (h : l[idx]? = some x) :
    ((modify_at f idx l).map g).sum + g x = (l.map g).sum + g (f x) := by
  induction l generalizing idx with
  | nil => simp at h
  | cons a as ih =>
    cases idx with
    | zero =>
      simp only [List.getElem?_cons_zero, Option.some.injEq] at h
      subst h
      simp only [modify_at, List.map_cons, List.sum_cons]
      omega
    | succ idx =>
      simp only [List.getElem?_cons_succ] at h
      have := ih idx h
      simp only [modify_at, List.map_cons, List.sum_cons]
      omega

theorem sum_map_eraseIdx {α : Type} (g : α → Nat) (idx : Nat) (l : List α) (x : α)
    (h : l[idx]? = some x) : ((l.eraseIdx idx).map g).sum + g x = (l.map g).sum := by
  induction l generalizing idx with
  | nil => simp at h
  | cons a as ih =>
    cases idx with
    | zero =>
      simp only [List.getElem?_cons_zero, Option.some.injEq] at h
      subst h
      simp only [List.eraseIdx_cons_zero, List.map_cons, List.sum_cons]
      omega
    | succ idx =>
      simp only [List.getElem?_cons_succ] at h
      have := ih idx h
      simp only [List.eraseIdx_cons_succ, List.map_cons, List.sum_cons]
      omega

theorem sum_map_eq_zero {α : Type} (g : α → Nat) (l : List α) (h : ∀ x ∈ l, g x = 0) :
    (l.map g).sum = 0 := by
  induction l with
  | nil => rfl
  | cons a as ih =>
    simp only [List.map_cons, List.sum_cons, h a (List.mem_cons_self _ _),
      ih (fun x hx => h x (List.mem_cons_of_mem _ hx))]

/-! ### Finding the record of an address -/

theorem consistent_empty (E : Host) : Registry.empty.consistent E where
  owner := by intro info h; simp [Registry.empty] at h
  overlay_owner := by intro info h; simp [Registry.empty] at h
  handles := by intro i j a b h; simp [Registry.empty] at h
  named := by intro info h; simp [Registry.empty] at h
  counts := by intro ev cb; simp [Registry.empty, owned_count]

theorem owned_count_append (l₁ l₂ : List addon_info) (ev callback : Nat) :
    owned_count (l₁ ++ l₂) ev callback = owned_count l₁ ev callback + owned_count l₂ ev callback := by
  simp [owned_count, List.sum_append]

theorem consistent_push (E : Host) (s : Registry) (hc : s.consistent E) (r : addon_info)
    (hev : r.event_callbacks = []) (hov : r.overlay_callbacks = [])
    (hhost : r.handle ≠ 0 → r.handle ≠ E.g_module_handle)
    (hname : r.handle ≠ 0 → r.name = (resolve_addon_info E r.handle).name)
    (hfresh : r.handle ≠ 0 → ∀ a ∈ s.addon_loaded_info, a.name ≠ r.name) :
    Registry.consistent E { s with addon_loaded_info := s.addon_loaded_info ++ [r] } where
  owner := by
    intro info hin p hp
    simp only [List.mem_append, List.mem_singleton] at hin
    rcases hin with hin | hin
    · exact hc.owner info hin p hp
    · subst hin; rw [hev] at hp; simp at hp
  overlay_owner := by
    intro info hin o ho
    simp only [List.mem_append, List.mem_singleton] at hin
    rcases hin with hin | hin
    · exact hc.overlay_owner info hin o ho
    · subst hin; rw [hov] at ho; simp at ho
  handles := by
    intro i j a b hi hj hab ha
    simp only [List.getElem?_append, List.length_singleton] at hi hj
    by_cases hil : i < s.addon_loaded_info.length
    · by_cases hjl : j < s.addon_loaded_info.length
      · simp only [hil, hjl, if_true] at hi hj
        exact hc.handles i j a b hi hj hab ha
      · simp only [hil, hjl, if_true, if_false] at hi hj
        have hb : b = r := by
          rcases Nat.lt_or_ge (j - s.addon_loaded_info.length) 1 with h | h
          · have : j - s.addon_loaded_info.length = 0 := by omega
            rw [this] at hj; simpa using hj.symm
          · rw [List.getElem?_eq_none (by simpa using h)] at hj; simp at hj
        subst hb
        have hamem := List.getElem?_mem hi
        have hna := hc.named a hamem ha (by rw [hab]; exact hhost (by rw [← hab]; exact ha))
        have hnb := hname (by rw [← hab]; exact ha)
        exact absurd (by rw [hna, hnb, hab]) (hfresh (by rw [← hab]; exact ha) a hamem)
    · by_cases hjl : j < s.addon_loaded_info.length
      · simp only [hil, hjl, if_true, if_false] at hi hj
        have ha' : a = r := by
          rcases Nat.lt_or_ge (i - s.addon_loaded_info.length) 1 with h | h
          · have : i - s.addon_loaded_info.length = 0 := by omega
            rw [this] at hi; simpa using hi.symm
          · rw [List.getElem?_eq_none (by simpa using h)] at hi; simp at hi
        subst ha'
        have hbmem := List.getElem?_mem hj
        have hnb := hc.named b hbmem (by rw [← hab]; exact ha) (by rw [← hab]; exact hhost ha)
        have hna := hname ha
        exact absurd (by rw [hna, hnb, hab]) (hfresh ha b hbmem)
      · simp only [hil, hjl, if_false] at hi hj
        have h1 : i - s.addon_loaded_info.length = 0 := by
          rcases Nat.lt_or_ge (i - s.addon_loaded_info.length) 1 with h | h
          · omega
          · rw [List.getElem?_eq_none (by simpa using h)] at hi; simp at hi
        have h2 : j - s.addon_loaded_info.length = 0 := by
          rcases Nat.lt_or_ge (j - s.addon_loaded_info.length) 1 with h | h
          · omega
          · rw [List.getElem?_eq_none (by simpa using h)] at hj; simp at hj
        omega
  named := by
    intro info hin h0 hg
    simp only [List.mem_append, List.mem_singleton] at hin
    rcases hin with hin | hin
    · exact hc.named info hin h0 hg
    · subst hin; exact hname h0
  counts := by
    intro ev cb
    simp only [owned_count_append]
    rw [hc.counts ev cb]
    simp [owned_count, hev]

theorem consistent_register_addon (E : Host) (s : Registry) (hc : s.consistent E)
    (module api_version : Nat) : (ReShadeRegisterAddon E s module api_version).2.consistent E := by
  obtain ⟨hh, hev, hov, _, _⟩ := resolve_addon_info_fresh E module
  unfold ReShadeRegisterAddon
  by_cases hm : module_rejected E s module = true
  · simpa [hm] using hc
  have hnothost : module ≠ E.g_module_handle := by
    intro hg
    apply hm
    simp [module_rejected, hg]
  simp only [hm, if_false]
  by_cases hv : api_version_rejected E api_version = true
  · simpa [hv] using hc
  simp only [hv, if_false]
  by_cases hany : s.addon_loaded_info.any
      (fun existing_info => decide (existing_info.name = (resolve_addon_info E module).name)) = true
  · simpa [hany] using hc
  simp only [hany, if_false]
  have hfresh : ∀ a ∈ s.addon_loaded_info, a.name ≠ (resolve_addon_info E module).name := by
    intro a ha
    have hall : ∀ x ∈ s.addon_loaded_info, ¬x.name = (resolve_addon_info E module).name := by
      simpa using hany
    exact hall a ha
  have hnormal : Registry.consistent E
      { s with addon_loaded_info := s.addon_loaded_info ++ [resolve_addon_info E module] } :=
    consistent_push E s hc _ hev hov (fun _ => by rw [hh]; exact hnothost) (fun _ => by rw [hh])
      (fun _ => hfresh)
  have hdisabled : Registry.consistent E
      { s with addon_loaded_info :=
        s.addon_loaded_info ++ [{ resolve_addon_info E module with handle := 0 }] } :=
    consistent_push E s hc _ hev hov (fun h => absurd rfl h) (fun h => absurd rfl h)
      (fun h => absurd rfl h)
  cases hcfg : E.DisabledAddons with
  | none => simpa using hnormal
  | some disabled_addons =>
    by_cases hd : (resolve_addon_info E module).name ∈ disabled_addons
    · simpa [hd] using hdisabled
    · simpa [hd] using hnormal

theorem consistent_modify (E : Host) (s : Registry) (hc : s.consistent E) (idx : Nat)
    (info : addon_info) (hget : s.addon_loaded_info[idx]? = some info)
    (f : addon_info → addon_info) (new_list : Nat → List Nat)
    (hhandle : (f info).handle = info.handle) (hname : (f info).name = info.name)
    (howner : ∀ p ∈ (f info).event_callbacks,
      p.1 < E.addon_event_max ∧ p.2 ≠ 0 ∧ E.GetModuleHandleExW p.2 = some info.handle ∧
        lite_blocked E info.handle p.1 = false)
    (hoverlay : ∀ o ∈ (f info).overlay_callbacks,
      o.callback ≠ 0 ∧ E.GetModuleHandleExW o.callback = some info.handle)
    (hcount : ∀ ev callback : Nat,
      (new_list ev).count callback + info.event_callbacks.count (ev, callback) =
        (s.addon_event_list ev).count callback + (f info).event_callbacks.count (ev, callback)) :
    Registry.consistent E
      { addon_event_list := new_list, addon_loaded_info := modify_at f idx s.addon_loaded_info } where
  owner := by
    intro x hx p hp
    rcases mem_modify_at f idx _ x hx with ⟨j, _, hj⟩ | ⟨y, hy, hxy⟩
    · exact hc.owner x (List.getElem?_mem hj) p hp
    · rw [hget] at hy
      cases hy
      subst hxy
      rw [hhandle]
      exact howner p hp
  overlay_owner := by
    intro x hx o ho
    rcases mem_modify_at f idx _ x hx with ⟨j, _, hj⟩ | ⟨y, hy, hxy⟩
    · exact hc.overlay_owner x (List.getElem?_mem hj) o ho
    · rw [hget] at hy
      cases hy
      subst hxy
      rw [hhandle]
      exact hoverlay o ho
  handles := by
    have key : ∀ (i : Nat) (a : addon_info), (modify_at f idx s.addon_loaded_info)[i]? = some a →
        ∃ a0, s.addon_loaded_info[i]? = some a0 ∧ a0.handle = a.handle := by
      intro i a hi
      rw [getElem?_modify_at] at hi
      by_cases hii : i = idx
      · subst hii
        simp only [if_true, hget, Option.map_some', Option.some.injEq] at hi
        subst hi
        exact ⟨info, hget, hhandle.symm⟩
      · simp only [hii, if_false] at hi
        exact ⟨a, hi, rfl⟩
    intro i j a b hi hj hab ha
    obtain ⟨a0, ha0, hah⟩ := key i a hi
    obtain ⟨b0, hb0, hbh⟩ := key j b hj
    exact hc.handles i j a0 b0 ha0 hb0 (by rw [hah, hbh, hab]) (by rw [hah]; exact ha)
  named := by
    intro x hx h0 hg
    rcases mem_modify_at f idx _ x hx with ⟨j, _, hj⟩ | ⟨y, hy, hxy⟩
    · exact hc.named x (List.getElem?_mem hj) h0 hg
    · rw [hget] at hy
      cases hy
      subst hxy
      rw [hname, hhandle]
      rw [hhandle] at h0 hg
      exact hc.named info (List.getElem?_mem hget) h0 hg
  counts := by
    intro ev cb
    have h1 := sum_map_modify_at f (fun info => info.event_callbacks.count (ev, cb)) idx
      s.addon_loaded_info info hget
    have h2 := hcount ev cb
    have h3 := hc.counts ev cb
    simp only [owned_count] at h3 ⊢
    simp only at h1
    omega

theorem consistent_register_event (E : Host) (s : Registry) (hc : s.consistent E)
    (ev callback : Nat) : (ReShadeRegisterEvent E s ev callback).consistent E := by
  unfold ReShadeRegisterEvent
  by_cases hmax : ev ≥ E.addon_event_max
  · simpa [hmax] using hc
  simp only [hmax, if_false]
  cases hfind : find_addon E s callback with
  | none => simpa using hc
  | some idx =>
    simp only
    obtain ⟨info, hget, hmod⟩ := find_addon_get E s callback idx hfind
    have hh : handle_at s idx = info.handle := by simp [handle_at, hget]
    by_cases hb : lite_blocked E (handle_at s idx) ev = true
    · simpa [hb] using hc
    simp only [hb, if_false]
    have hcb : callback ≠ 0 := by
      intro h0
      simp [find_addon, h0] at hfind
    refine consistent_modify E s hc idx info hget _ _ rfl rfl ?_ ?_ ?_
    · intro p hp
      simp only [List.mem_append, List.mem_singleton] at hp
      rcases hp with hp | hp
      · exact hc.owner info (List.getElem?_mem hget) p hp
      · subst hp
        exact ⟨by omega, hcb, hmod, by rw [← hh]; simpa using hb⟩
    · intro o ho
      exact hc.overlay_owner info (List.getElem?_mem hget) o ho
    · intro ev2 cb2
      by_cases he : ev2 = ev
      · subst he
        simp only [Function.update_same, List.count_append, List.count_singleton, beq_iff_eq,
          Prod.mk.injEq, true_and]
        omega
      · simp only [Function.update_noteq he, List.count_append, List.count_singleton, beq_iff_eq,
          Prod.mk.injEq]
        have : ¬ (ev = ev2) := fun h => he h.symm
        simp [this]

theorem mem_eraseIdx_getElem? {α : Type} (idx : Nat) (l : List α) (x : α)
    (h : x ∈ l.eraseIdx idx) : ∃ j, j ≠ idx ∧ l[j]? = some x := by
  obtain ⟨n, hn⟩ := List.mem_iff_getElem?.1 h
  rw [List.getElem?_eraseIdx] at hn
  by_cases hlt : n < idx
  · simp only [hlt, if_true] at hn
    exact ⟨n, by omega, hn⟩
  · simp only [hlt, if_false] at hn
    exact ⟨n + 1, by omega, hn⟩

theorem owned_count_eq_single (E : Host) (s : Registry) (hc : s.consistent E) (idx : Nat)
    (info : addon_info) (hget : s.addon_loaded_info[idx]? = some info) (ev callback : Nat)
    (hmod : E.GetModuleHandleExW callback = some info.handle) (h0 : info.handle ≠ 0) :
    owned_count s.addon_loaded_info ev callback = info.event_callbacks.count (ev, callback) := by
  have h1 := sum_map_eraseIdx (fun info => info.event_callbacks.count (ev, callback)) idx
    s.addon_loaded_info info hget
  have h2 : ((s.addon_loaded_info.eraseIdx idx).map
      (fun info => info.event_callbacks.count (ev, callback))).sum = 0 := by
    apply sum_map_eq_zero
    intro x hx
    obtain ⟨j, hj, hxj⟩ := mem_eraseIdx_getElem? idx _ x hx
    rw [List.count_eq_zero]
    intro hmem
    obtain ⟨_, _, hm, _⟩ := hc.owner x (List.getElem?_mem hxj) (ev, callback) hmem
    simp only at hm
    rw [hmod] at hm
    have hxh : info.handle = x.handle := Option.some.inj hm
    exact hj (hc.handles j idx x info hxj hget hxh.symm (by rw [← hxh]; exact h0))
  simp only [owned_count]
  simp only at h1
  omega

theorem count_filter_ne {α : Type} [DecidableEq α] (a b : α) (l : List α) :
    (l.filter (fun c => decide (c ≠ a))).count b = if b = a then 0 else l.count b := by
  by_cases h : b = a
  · subst h
    simp only [if_true]
    rw [List.count_eq_zero]
    simp
  · simp only [h, if_false]
    exact List.count_filter (by simpa using h)

theorem count_filter_ne_pair (a b : Nat × Nat) (l : List (Nat × Nat)) :
    (l.filter (fun c => decide (c ≠ a))).count b = if b = a then 0 else l.count b := by
  by_cases h : b = a
  · subst h
    simp only [if_true]
    rw [List.count_eq_zero]
    simp
  · simp only [h, if_false]
    exact List.count_filter (by simpa using h)

theorem consistent_unregister_event (E : Host) (hnull : ∀ a, E.GetModuleHandleExW a ≠ some 0)
    (s : Registry) (hc : s.consistent E) (ev callback : Nat) :
    (ReShadeUnregisterEvent E s ev callback).consistent E := by
  unfold ReShadeUnregisterEvent
  by_cases hmax : ev ≥ E.addon_event_max
  · simpa [hmax] using hc
  simp only [hmax, if_false]
  cases hfind : find_addon E s callback with
  | none => simpa using hc
  | some idx =>
    simp only
    obtain ⟨info, hget, hmod⟩ := find_addon_get E s callback idx hfind
    by_cases hb : lite_blocked E (handle_at s idx) ev = true
    · simpa [hb] using hc
    simp only [hb, if_false]
    have h0 : info.handle ≠ 0 := fun h => hnull callback (by rw [hmod, h])
    refine consistent_modify E s hc idx info hget _ _ rfl rfl ?_ ?_ ?_
    · intro p hp
      exact hc.owner info (List.getElem?_mem hget) p (List.mem_filter.1 hp).1
    · intro o ho
      exact hc.overlay_owner info (List.getElem?_mem hget) o ho
    · intro ev2 cb2
      have hsingle := owned_count_eq_single E s hc idx info hget ev callback hmod h0
      have hcnt := hc.counts ev callback
      simp only [count_filter_ne_pair]
      by_cases he : ev2 = ev
      · subst he
        simp only [Function.update_same, count_filter_ne, Prod.mk.injEq, true_and]
        by_cases hcb : cb2 = callback
        · subst hcb
          simp only [if_true]
          omega
        · simp only [hcb, if_false]
      · simp only [Function.update_noteq he, Prod.mk.injEq, he, false_and, if_false]

theorem consistent_overlay_modify (E : Host) (s : Registry) (hc : s.consistent E) (idx : Nat)
    (info : addon_info) (hget : s.addon_loaded_info[idx]? = some info)
    (f : addon_info → addon_info)
    (hhandle : (f info).handle = info.handle) (hname : (f info).name = info.name)
    (hevents : (f info).event_callbacks = info.event_callbacks)
    (hoverlay : ∀ o ∈ (f info).overlay_callbacks,
      o.callback ≠ 0 ∧ E.GetModuleHandleExW o.callback = some info.handle) :
    Registry.consistent E { s with addon_loaded_info := modify_at f idx s.addon_loaded_info } := by
  refine consistent_modify E s hc idx info hget f s.addon_event_list hhandle hname ?_ hoverlay ?_
  · intro p hp
    rw [hevents] at hp
    exact hc.owner info (List.getElem?_mem hget) p hp
  · intro ev cb
    rw [hevents]

theorem consistent_register_overlay (E : Host) (s : Registry) (hc : s.consistent E)
    (title : Option String) (callback : Nat) :
    (ReShadeRegisterOverlay E s title callback).consistent E := by
  unfold ReShadeRegisterOverlay
  cases hfind : find_addon E s callback with
  | none => simpa using hc
  | some idx =>
    obtain ⟨info, hget, hmod⟩ := find_addon_get E s callback idx hfind
    have hcb : callback ≠ 0 := by
      intro h0
      simp [find_addon, h0] at hfind
    cases title with
    | none =>
      exact consistent_overlay_modify E s hc idx info hget _ rfl rfl rfl
        (fun o ho => hc.overlay_owner info (List.getElem?_mem hget) o ho)
    | some title =>
      refine consistent_overlay_modify E s hc idx info hget _ rfl rfl rfl ?_
      intro o ho
      simp only [List.mem_append, List.mem_singleton] at ho
      rcases ho with ho | ho
      · exact hc.overlay_owner info (List.getElem?_mem hget) o ho
      · subst ho
        exact ⟨hcb, hmod⟩

theorem consistent_unregister_overlay (E : Host) (s : Registry) (hc : s.consistent E)
    (title : Option String) (callback : Nat) :
    (ReShadeUnregisterOverlay E s title callback).consistent E := by
  unfold ReShadeUnregisterOverlay
  cases hfind : find_addon E s callback with
  | none => simpa using hc
  | some idx =>
    obtain ⟨info, hget, hmod⟩ := find_addon_get E s callback idx hfind
    cases title with
    | none =>
      exact consistent_overlay_modify E s hc idx info hget _ rfl rfl rfl
        (fun o ho => hc.overlay_owner info (List.getElem?_mem hget) o ho)
    | some title =>
      refine consistent_overlay_modify E s hc idx info hget _ rfl rfl rfl ?_
      intro o ho
      exact hc.overlay_owner info (List.getElem?_mem hget) o (List.mem_filter.1 ho).1

theorem consistent_erase (E : Host) (s : Registry) (hc : s.consistent E) (idx : Nat)
    (hempty : ∀ info, s.addon_loaded_info[idx]? = some info → info.event_callbacks = []) :
    Registry.consistent E { s with addon_loaded_info := s.addon_loaded_info.eraseIdx idx } where
  owner := fun info hin => hc.owner info (List.mem_of_mem_eraseIdx hin)
  overlay_owner := fun info hin => hc.overlay_owner info (List.mem_of_mem_eraseIdx hin)
  handles := by
    intro i j a b hi hj hab ha
    simp only [List.getElem?_eraseIdx] at hi hj
    by_cases hil : i < idx
    · by_cases hjl : j < idx
      · simp only [hil, hjl, if_true] at hi hj
        exact hc.handles i j a b hi hj hab ha
      · simp only [hil, hjl, if_true, if_false] at hi hj
        have := hc.handles i (j + 1) a b hi hj hab ha
        omega
    · by_cases hjl : j < idx
      · simp only [hil, hjl, if_true, if_false] at hi hj
        have := hc.handles (i + 1) j a b hi hj hab ha
        omega
      · simp only [hil, hjl, if_false] at hi hj
        have := hc.handles (i + 1) (j + 1) a b hi hj hab ha
        omega
  named := fun info hin => hc.named info (List.mem_of_mem_eraseIdx hin)
  counts := by
    intro ev cb
    rw [hc.counts ev cb]
    cases hget : s.addon_loaded_info[idx]? with
    | none =>
      have hle : s.addon_loaded_info.length ≤ idx := by
        rcases Nat.lt_or_ge idx s.addon_loaded_info.length with h | h
        · rw [List.getElem?_eq_getElem h] at hget; simp at hget
        · exact h
      simp only [List.eraseIdx_of_length_le hle]
    | some info =>
      have h1 := sum_map_eraseIdx (fun info => info.event_callbacks.count (ev, cb)) idx
        s.addon_loaded_info info hget
      simp only [hempty info hget, List.count_nil] at h1
      simp only [owned_count]
      omega

theorem consistent_unregister_events_loop (E : Host) (hnull : ∀ a, E.GetModuleHandleExW a ≠ some 0)
    (idx : Nat) (fuel : Nat) :
    ∀ (s s1 : Registry), s.consistent E → unregister_events_loop E idx fuel s = some s1 →
      s1.consistent E ∧
        ∀ info, s1.addon_loaded_info[idx]? = some info → info.event_callbacks = [] := by
  induction fuel with
  | zero =>
    intro s s1 hc h
    rw [unregister_events_loop] at h
    cases hl : (s.addon_loaded_info[idx]?).bind (fun info => info.event_callbacks.getLast?) with
    | none =>
      simp only [hl, Option.some.injEq] at h
      subst h
      refine ⟨hc, ?_⟩
      intro info hget
      simpa [hget] using hl
    | some last => simp [hl] at h
  | succ fuel ih =>
    intro s s1 hc h
    rw [unregister_events_loop] at h
    cases hl : (s.addon_loaded_info[idx]?).bind (fun info => info.event_callbacks.getLast?) with
    | none =>
      simp only [hl, Option.some.injEq] at h
      subst h
      refine ⟨hc, ?_⟩
      intro info hget
      simpa [hget] using hl
    | some last =>
      simp only [hl] at h
      exact ih _ s1 (consistent_unregister_event E hnull s hc last.1 last.2) h

theorem unregister_overlay_events (E : Host) (s : Registry) (title : Option String)
    (callback idx : Nat)
    (hempty : ∀ info, s.addon_loaded_info[idx]? = some info → info.event_callbacks = []) :
    ∀ info, (ReShadeUnregisterOverlay E s title callback).addon_loaded_info[idx]? = some info →
      info.event_callbacks = [] := by
  intro info hget
  unfold ReShadeUnregisterOverlay at hget
  cases hfind : find_addon E s callback with
  | none =>
    simp only [hfind] at hget
    exact hempty info hget
  | some j =>
    simp only [hfind] at hget
    cases title with
    | none =>
      simp only [getElem?_modify_at] at hget
      by_cases hj : idx = j
      · simp only [hj, if_true, Option.map_eq_some'] at hget
        obtain ⟨y, hy, hxy⟩ := hget
        rw [← hxy]
        exact hempty y (by rw [hj]; exact hy)
      · simp only [hj, if_false] at hget
        exact hempty info hget
    | some title =>
      simp only [getElem?_modify_at] at hget
      by_cases hj : idx = j
      · simp only [hj, if_true, Option.map_eq_some'] at hget
        obtain ⟨y, hy, hxy⟩ := hget
        rw [← hxy]
        exact hempty y (by rw [hj]; exact hy)
      · simp only [hj, if_false] at hget
        exact hempty info hget

theorem consistent_unregister_overlays_loop (E : Host) (idx : Nat) (fuel : Nat) :
    ∀ (s s1 : Registry), s.consistent E →
      (∀ info, s.addon_loaded_info[idx]? = some info → info.event_callbacks = []) →
      unregister_overlays_loop E idx fuel s = some s1 →
      s1.consistent E ∧
        ∀ info, s1.addon_loaded_info[idx]? = some info → info.event_callbacks = [] := by
  induction fuel with
  | zero =>
    intro s s1 hc hempty h
    rw [unregister_overlays_loop] at h
    cases hl : (s.addon_loaded_info[idx]?).bind (fun info => info.overlay_callbacks.getLast?) with
    | none =>
      simp only [hl, Option.some.injEq] at h
      subst h
      exact ⟨hc, hempty⟩
    | some last => simp [hl] at h
  | succ fuel ih =>
    intro s s1 hc hempty h
    rw [unregister_overlays_loop] at h
    cases hl : (s.addon_loaded_info[idx]?).bind (fun info => info.overlay_callbacks.getLast?) with
    | none =>
      simp only [hl, Option.some.injEq] at h
      subst h
      exact ⟨hc, hempty⟩
    | some last =>
      simp only [hl] at h
      exact ih _ s1 (consistent_unregister_overlay E s hc (some last.title) last.callback)
        (unregister_overlay_events E s (some last.title) last.callback idx hempty) h

theorem consistent_unregister_addon (E : Host) (hnull : ∀ a, E.GetModuleHandleExW a ≠ some 0)
    (fuel : Nat) (s s1 : Registry) (module : Nat) (hc : s.consistent E)
    (h : ReShadeUnregisterAddon E fuel s module = some s1) : s1.consistent E := by
  unfold ReShadeUnregisterAddon at h
  by_cases hm : module = 0 ∨ module = E.g_module_handle
  · simp only [hm, if_true, Option.some.injEq] at h
    subst h
    exact hc
  simp only [hm, if_false] at h
  cases hfind : find_addon E s module with
  | none =>
    simp only [hfind, Option.some.injEq] at h
    subst h
    exact hc
  | some idx =>
    simp only [hfind] at h
    cases h1 : unregister_events_loop E idx fuel s with
    | none => simp [h1] at h
    | some t1 =>
      simp only [h1] at h
      obtain ⟨hc1, hempty1⟩ := consistent_unregister_events_loop E hnull idx fuel s t1 hc h1
      have key : ∀ t2 : Registry, t2.consistent E →
          (∀ info, t2.addon_loaded_info[idx]? = some info → info.event_callbacks = []) →
          Registry.consistent E { t2 with addon_loaded_info := t2.addon_loaded_info.eraseIdx idx } :=
        fun t2 hc2 he2 => consistent_erase E t2 hc2 idx he2
      by_cases hgui : E.RESHADE_GUI = true
      · simp only [hgui, if_true] at h
        cases h2 : unregister_overlays_loop E idx fuel t1 with
        | none => simp [h2] at h
        | some t2 =>
          simp only [h2, Option.some.injEq] at h
          subst h
          obtain ⟨hc2, hempty2⟩ := consistent_unregister_overlays_loop E idx fuel t1 t2 hc1 hempty1 h2
          exact key t2 hc2 hempty2
      · simp only [hgui, Bool.false_eq_true, if_false, Option.some.injEq] at h
        subst h
        exact key t1 hc1 hempty1

theorem consistent_run_calls (E : Host) (hnull : ∀ a, E.GetModuleHandleExW a ≠ some 0)
    (calls : List registry_call) :
    ∀ (s s1 : Registry), s.consistent E → run_calls E s calls = some s1 → s1.consistent E := by
  induction calls with
  | nil =>
    intro s s1 hc h
    simp only [run_calls, Option.some.injEq] at h
    subst h
    exact hc
  | cons c cs ih =>
    intro s s1 hc h
    rw [run_calls] at h
    cases hrun : c.run E s with
    | none => simp [hrun] at h
    | some t =>
      simp only [hrun] at h
      refine ih t s1 ?_ h
      cases c with
      | register_addon module api_version =>
        simp only [registry_call.run, Option.some.injEq] at hrun
        subst hrun
        exact consistent_register_addon E s hc module api_version
      | unregister_addon fuel module =>
        simp only [registry_call.run] at hrun
        exact consistent_unregister_addon E hnull fuel s t module hc hrun
      | register_event ev callback =>
        simp only [registry_call.run, Option.some.injEq] at hrun
        subst hrun
        exact consistent_register_event E s hc ev callback
      | unregister_event ev callback =>
        simp only [registry_call.run, Option.some.injEq] at hrun
        subst hrun
        exact consistent_unregister_event E hnull s hc ev callback
      | register_overlay title callback =>
        simp only [registry_call.run] at hrun
        by_cases hgui : E.RESHADE_GUI = true
        · simp only [hgui, if_true, Option.some.injEq] at hrun
          subst hrun
          exact consistent_register_overlay E s hc title callback
        · simp [hgui] at hrun
      | unregister_overlay title callback =>
        simp only [registry_call.run] at hrun
        by_cases hgui : E.RESHADE_GUI = true
        · simp only [hgui, if_true, Option.some.injEq] at hrun
          subst hrun
          exact consistent_unregister_overlay E s hc title callback
        · simp [hgui] at hrun

theorem consistent_initial (E : Host) (s : Registry) (h : s.initial E) : s.consistent E := by
  have hone : ∀ r : addon_info, r.event_callbacks = [] → r.overlay_callbacks = [] →
      (r.handle ≠ 0 → r.handle = E.g_module_handle) →
      Registry.consistent E { Registry.empty with addon_loaded_info := [r] } := by
    intro r hev hov hg
    refine ⟨?_, ?_, ?_, ?_, ?_⟩
    · intro info hin p hp
      simp only [List.mem_singleton] at hin
      subst hin
      rw [hev] at hp
      simp at hp
    · intro info hin o ho
      simp only [List.mem_singleton] at hin
      subst hin
      rw [hov] at ho
      simp at ho
    · intro i j a b hi hj _ _
      have hi0 : i = 0 := by
        rcases i with _ | i
        · rfl
        · simp at hi
      have hj0 : j = 0 := by
        rcases j with _ | j
        · rfl
        · simp at hj
      omega
    · intro info hin h0 hne
      simp only [List.mem_singleton] at hin
      subst hin
      exact absurd (hg h0) hne
    · intro ev cb
      simp [Registry.empty, owned_count, hev]
  rcases h with h | h | h
  · subst h
    exact consistent_empty E
  · subst h
    exact hone _ rfl rfl (fun _ => rfl)
  · subst h
    exact hone _ rfl rfl (fun h0 => absurd rfl h0)

theorem reachable_consistent (E : Host) (hnull : ∀ a, E.GetModuleHandleExW a ≠ some 0)
    (s : Registry) (h : Reachable E s) : s.consistent E := by
  obtain ⟨start, calls, hstart, hcalls⟩ := h
  exact consistent_run_calls E hnull calls start s (consistent_initial E start hstart) hcalls

theorem count_owned_pairs (ev callback : Nat) (l : List (Nat × Nat)) :
    ((l.filter (fun p => decide (p.1 = ev))).map Prod.snd).count callback = l.count (ev, callback) := by
  induction l with
  | nil => rfl
  | cons p ps ih =>
    obtain ⟨e, c⟩ := p
    by_cases he : e = ev
    · subst he
      simp only [List.filter_cons, decide_True, if_true, List.map_cons, List.count_cons, ih,
        beq_iff_eq, Prod.mk.injEq, true_and]
    · have hne : ¬ ((e, c) = (ev, callback)) := fun h => he (congrArg Prod.fst h)
      simp only [List.filter_cons, he, decide_False, Bool.false_eq_true, if_false, ih,
        List.count_cons, beq_iff_eq, hne, Nat.add_zero]

theorem count_owned_callbacks (s : Registry) (ev callback : Nat) :
    (owned_callbacks s ev).count callback = owned_count s.addon_loaded_info ev callback := by
  unfold owned_callbacks owned_count
  induction s.addon_loaded_info with
  | nil => rfl
  | cons r rs ih =>
    simp only [List.flatMap_cons, List.count_append, List.map_cons, List.sum_cons, ih,
      count_owned_pairs]

theorem sample_host_module_not_null : ∀ a, sample_host.GetModuleHandleExW a ≠ some 0 := by
  intro a
  simp only [sample_host]
  by_cases h : a < 4096
  · simp [h]
  · simp only [h, if_false, ne_eq, Option.some.injEq]
    omega

/-- C9. In every state reachable from the empty registry (or from the registry that
holds just the built-in record) by calls of the exported entry points (register and
unregister add-on, register and unregister event, and, in a build with the overlay,
register and unregister overlay, with any arguments), each
per-kind callback list is a rearrangement of the callbacks recorded for that kind in
the owned-callback lists of the records in the add-on list; hence when no record with
a module handle is left (every registered add-on has been unregistered, only disabled
records may remain), every per-kind callback list is empty. The host assumption is
that `GetModuleHandleExW` never succeeds with a null module. -/
theorem reachable_event_lists_owned (E : Host) (hnull : ∀ a, E.GetModuleHandleExW a ≠ some 0)
    (s : Registry) (h : Reachable E s) :
    (∀ ev, (s.addon_event_list ev).Perm (owned_callbacks s ev)) ∧
      ((∀ info ∈ s.addon_loaded_info, info.handle = 0) → ∀ ev, s.addon_event_list ev = []) := by
  have hc := reachable_consistent E hnull s h
  have hperm : ∀ ev, (s.addon_event_list ev).Perm (owned_callbacks s ev) := by
    intro ev
    rw [List.perm_iff_count]
    intro cb
    rw [hc.counts ev cb, count_owned_callbacks]
  refine ⟨hperm, ?_⟩
  intro hall ev
  have hnone : ∀ info ∈ s.addon_loaded_info, info.event_callbacks = [] := by
    intro info hin
    cases hcb : info.event_callbacks with
    | nil => rfl
    | cons p ps =>
      obtain ⟨_, _, hmod, _⟩ := hc.owner info hin p (by rw [hcb]; exact List.mem_cons_self _ _)
      rw [hall info hin] at hmod
      exact absurd hmod (hnull p.2)
  have hown : owned_callbacks s ev = [] := by
    unfold owned_callbacks
    rw [List.flatMap_eq_nil_iff]
    intro info hin
    rw [hnone info hin]
    rfl
  have := hperm ev
  rw [hown] at this
  exact List.Perm.eq_nil this

/-- C9 at a concrete reachable state: module `0x2000` registered and then registered
a callback for kind 3. -/
theorem reachable_event_lists_owned_witness :
    Reachable sample_host
        (ReShadeRegisterEvent sample_host
          (ReShadeRegisterAddon sample_host Registry.empty 0x2000 1).2 3 0x2010) ∧
      ((ReShadeRegisterEvent sample_host
          (ReShadeRegisterAddon sample_host Registry.empty 0x2000 1).2 3 0x2010).addon_event_list 3).Perm
        (owned_callbacks (ReShadeRegisterEvent sample_host
          (ReShadeRegisterAddon sample_host Registry.empty 0x2000 1).2 3 0x2010) 3) ∧
      (ReShadeRegisterEvent sample_host
          (ReShadeRegisterAddon sample_host Registry.empty 0x2000 1).2 3 0x2010).addon_event_list 3 =
        [0x2010] :=
  ⟨⟨Registry.empty, [.register_addon 0x2000 1, .register_event 3 0x2010], Or.inl rfl, rfl⟩,
   (reachable_event_lists_owned sample_host sample_host_module_not_null _
      ⟨Registry.empty, [.register_addon 0x2000 1, .register_event 3 0x2010], Or.inl rfl, rfl⟩).1 3,
   by decide⟩

namespace d3d9

end d3d9

end reshade
